import Mathlib

/-!
# Cycles sampler and surface-bounce kernels: a verification development

Shallow embedding of `intern/cycles/kernel/kernel_random.h`,
`intern/cycles/kernel/kernel_path_surface.h` and the sampler set-up of
`Integrator::device_update` in `intern/cycles/render/integrator.cpp`.

Conventions of the embedding.

* `uint` values are natural numbers, every `uint` operation is reduced modulo `2^32`
  explicitly; `int` values are integers (signed overflow, which is undefined in the
  source language, is not modelled).
* `float` values are rationals; every floating-point operation rounds its exact result
  to a 24-bit significand (round to nearest, ties to even).  The exponent range is
  unbounded: overflow to infinity, subnormal numbers and NaN are outside the model.
* Functions of headers that are not among the sources (`kernel_jitter.h`, `util_hash.h`,
  the light, shader and shadow kernels) are parameters, collected in structures.
-/

namespace Cycles

/-! ## Machine words -/

/-- Conversion of an `int` (or of an exact integer result) to `uint`. -/
def to_uint (z : Int) : Nat := (z % 4294967296).toNat

/-- Conversion of a `uint` bit pattern to `int` (two's complement). -/
def to_int (u : Nat) : Int :=
  if u % 4294967296 < 2147483648 then ((u % 4294967296 : Nat) : Int)
  else ((u % 4294967296 : Nat) : Int) - 4294967296

/-- Value held by an `int` after an operation whose exact result is `z`: the result
reduced to 32 bits in two's complement. -/
def wrap_int (z : Int) : Int := to_int (to_uint z)

/-- Conversion of an `int` to `size_t` (64 bits). -/
def to_size_t (z : Int) : Int := z % 18446744073709551616

/-! ## Single-precision arithmetic -/

/-- Type of `float` values: the finite ones, as exact rationals. -/
abbrev f32 := ℚ

/-- Nearest integer of a rational, ties to the even neighbour. -/
def round_half_even (t : ℚ) : ℤ :=
  let n := ⌊t⌋
  let f := t - n
  if f < 1 / 2 then n
  else if 1 / 2 < f then n + 1
  else if n % 2 = 0 then n else n + 1

/-- Rounding of a positive rational to a 24-bit significand. -/
def f32_round_pos (q : ℚ) : ℚ :=
  let e := Int.log 2 q
  let u := (2 : ℚ) ^ (e - 23)
  (round_half_even (q / u) : ℚ) * u

/-- Rounding of an exact result to `float`. -/
def f32_round (q : ℚ) : f32 :=
  if q = 0 then 0 else if 0 < q then f32_round_pos q else -f32_round_pos (-q)

/-- Sum `a + b` of two floats. -/
def fadd (a b : f32) : f32 := f32_round (a + b)

/-- Difference `a - b` of two floats. -/
def fsub (a b : f32) : f32 := f32_round (a - b)

/-- Product `a * b` of two floats. -/
def fmul (a b : f32) : f32 := f32_round (a * b)

/-- Quotient `a / b` of two floats. -/
def fdiv (a b : f32) : f32 := f32_round (a / b)

/-- Library function `floorf`: the floor of a float is a float. -/
def floorf (x : f32) : f32 := (⌊x⌋ : ℚ)

/-- Library function `fminf`. -/
def fminf (a b : f32) : f32 := if a < b then a else b

/-- Conversion `(float)u` of a `uint`. -/
def uint_to_float (u : Nat) : f32 := f32_round (u : ℚ)

/-- Conversion `(float)z` of an `int`. -/
def int_to_float (z : Int) : f32 := f32_round (z : ℚ)

/-- Bit reinterpretation `__uint_as_float` of a 32-bit word: sign bit 31, exponent
field bits 23..30, fraction bits 0..22 (the exponent field 255 is not special here). -/
def uint_as_float (w : Nat) : f32 :=
  let s : ℚ := if (w / 2147483648) % 2 = 1 then -1 else 1
  let e : Nat := (w / 8388608) % 256
  let m : Nat := w % 8388608
  if e = 0 then s * (m : ℚ) * (2 : ℚ) ^ (-149 : Int)
  else s * ((8388608 + m : Nat) : ℚ) * (2 : ℚ) ^ ((e : Int) - 150)

/-- Largest finite float, `FLT_MAX`. -/
def FLT_MAX : f32 := (2 ^ 24 - 1 : ℚ) * (2 : ℚ) ^ (104 : Int)

/-- Constant expression `1.0f / (float)0xFFFFFFFF` of the sampler. -/
def INV_UINT_MAX : f32 := fdiv 1 (uint_to_float 4294967295)

/-! ## Kernel data -/

/-- Sampling patterns registered by `NODE_DEFINE(Integrator)` (`sampling_pattern_enum`). -/
inductive SamplingPattern where
  | SAMPLING_PATTERN_SOBOL
  | SAMPLING_PATTERN_CMJ
  | SAMPLING_PATTERN_PMJ
  deriving DecidableEq, Repr

open SamplingPattern

/-- Fields of `kernel_data.integrator` read by the sampler and by the light connection. -/
structure KernelIntegrator where
  sampling_pattern : SamplingPattern
  dither_size : Int
  scrambling_distance : f32
  light_inv_rr_threshold : f32
  seed : Nat
  use_direct_light : Bool
  num_all_lights : Int
  pdf_triangles : f32
  mesh_light_samples : Int

/-- Kernel globals: the integrator data and the two lookup textures, each a map from an
index to the stored element (`__sample_pattern_lut` holds 32-bit words, `__sobol_dither`
holds `float2` pairs). -/
structure KernelGlobals where
  integrator : KernelIntegrator
  sample_pattern_lut : Int → Nat
  sobol_dither : Int → f32 × f32

/-- Functions of `kernel_jitter.h` and `util_hash.h`, which are not among the sources:
they are parameters of the sampler.  `uint` arguments and results are natural numbers. -/
structure Jitter where
  cmj_hash : Nat → Nat → Nat
  cmj_hash_simple : Nat → Nat → Nat
  cmj_randfloat : Nat → Nat → f32
  cmj_sample_1D : Int → Int → Int → f32
  cmj_sample_2D : Int → Int → Int → f32 × f32
  hash_uint2 : Nat → Nat → Nat

/-- Declarations of `kernel_types.h`, which is not among the sources: the record types
whose contents the kernels below never inspect, and the enumeration constants they use
(sample dimensions, shader-data flags, closure labels, path-ray flags).  They are
parameters of the development. -/
structure KernelTypes where
  ShaderClosure : Type
  ShaderClosures : Type
  BsdfEval : Type
  PathRadiance : Type
  PathRadianceState : Type
  LightData : Type
  VolumeStack : Type
  PRNG_FILTER_U : Int
  PRNG_BASE_NUM : Int
  PRNG_BSDF_U : Int
  PRNG_LIGHT_U : Int
  PRNG_LIGHT_TERMINATE : Int
  PRNG_BOUNCE_NUM : Int
  SD_BSDF : Nat
  SD_BSDF_HAS_EVAL : Nat
  SD_HAS_ONLY_VOLUME : Nat
  LABEL_TRANSMIT : Nat
  LABEL_TRANSPARENT : Nat
  PATH_RAY_SHADOW_CATCHER : Nat

/-- Fields of `PathState` used by the sampler and the surface kernels.
Modelled from the spec: `PathState` is declared in `kernel_types.h`, which is not among
the sources; the fields are those of the spec's data model and those the kernels touch. -/
structure PathState (T : KernelTypes) where
  flag : Nat
  rng_hash : Nat
  rng_offset : Int
  sample : Int
  num_samples : Int
  bounce : Int
  diffuse_bounce : Int
  glossy_bounce : Int
  transmission_bounce : Int
  transparent_bounce : Int
  volume_bounce : Int
  denoising_feature_weight : f32
  min_ray_pdf : f32
  ray_pdf : f32
  ray_t : f32
  volume_stack : T.VolumeStack

/-! ## kernel_random.h -/

/-- Macro `SOBOL_SKIP`. -/
def SOBOL_SKIP : Int := 64

/-- Macro `DITHER_MASK`. -/
def DITHER_MASK : Nat := 0x80000000

/-- Macro `DITHER_COORD_MASK`. -/
def DITHER_COORD_MASK : Nat := 0x7fff

/-- Macro `DITHER_Y_SHIFT`. -/
def DITHER_Y_SHIFT : Nat := 15

/-- Macro `NUM_PJ_SAMPLES`, `64 * 64`. -/
def NUM_PJ_SAMPLES : Int := 64 * 64

/-- Macro `NUM_PJ_PATTERNS`. -/
def NUM_PJ_PATTERNS : Int := 48

/-- Assignment `v = e` to a variable `v` that already holds a value: the old value is
dropped. -/
def assign {α : Type} (_old new : α) : α := new

/-- Number of trailing zero bits of a non-zero word (searching at most `fuel` bits). -/
def count_trailing_zeros : Nat → Nat → Nat
  | 0, _ => 0
  | fuel + 1, i => if i % 2 = 1 then 0 else 1 + count_trailing_zeros fuel (i / 2)

/-- One-based position of the lowest set bit of a 32-bit word, `0` for the word `0`.
Modelled from the spec: `find_first_set` is in `util_math.h`, which is not among the
sources; it selects the binary digits of the sample index from the lowest upwards. -/
def find_first_set (i : Nat) : Nat :=
  if i % 4294967296 = 0 then 0 else count_trailing_zeros 32 (i % 4294967296) + 1

/-- Right shift `i >> x` of a 32-bit word by an `int` count.  C defines it for counts
`0 ≤ x < 32` only; for the count 32, which `find_first_set` returns for the word
`0x80000000`, the x86 shift instructions reduce the count modulo 32 and leave the word as
it is, and that is the value taken here. -/
def shift_right_uint (i x : Nat) : Nat := i >>> (x % 32)

/-- The `for` loop of `sobol_dimension`, state `(i, j, result)`; `none` when the loop has
not finished within `fuel` iterations. -/
def sobol_dimension_loop (kg : KernelGlobals) (dimension : Int) :
    Nat → Nat → Int → Nat → Option Nat
  | 0, i, _, result => if find_first_set i = 0 then some result else none
  | fuel + 1, i, j, result =>
    let x := find_first_set i
    if x = 0 then some result
    else
      let j := j + (x : Int)
      let result := result ^^^ kg.sample_pattern_lut (32 * dimension + j)
      sobol_dimension_loop kg dimension fuel (shift_right_uint i x) j result

/-- Function `sobol_dimension`, with the loop given 32 iterations. -/
def sobol_dimension_run (kg : KernelGlobals) (index dimension : Int) : Option Nat :=
  sobol_dimension_loop kg dimension 32 (to_uint (index + SOBOL_SKIP)) 0 0

/-- Function `sobol_dimension`: the value returned when the loop finishes (for a word on
which it does not finish the value is taken as `0`). -/
def sobol_dimension (kg : KernelGlobals) (index dimension : Int) : Nat :=
  (sobol_dimension_run kg index dimension).getD 0

/-- Cranley-Patterson shift of `path_rng_1D`, before the scaling by the scrambling
distance (the same statements appear in the PMJ and in the Sobol branch). -/
def path_rng_shift (kg : KernelGlobals) (jt : Jitter) (rng_hash : Nat) (dimension : Int) : f32 :=
  if kg.integrator.dither_size > 0 then
    let size := kg.integrator.dither_size
    let x : Int := ((rng_hash &&& DITHER_COORD_MASK) % to_uint size : Nat)
    let y : Int := (((rng_hash >>> DITHER_Y_SHIFT) &&& DITHER_COORD_MASK) % to_uint size : Nat)
    let shifts := kg.sobol_dither (y * size + x)
    if dimension % 2 ≠ 0 then shifts.2 else shifts.1
  else
    let tmp_rng := jt.cmj_hash_simple (to_uint dimension) rng_hash
    fmul (uint_to_float tmp_rng) INV_UINT_MAX

/-- Function `path_rng_1D`. -/
def path_rng_1D (kg : KernelGlobals) (jt : Jitter) (rng_hash : Nat)
    (sample num_samples dimension : Int) : f32 :=
  if kg.integrator.sampling_pattern = SAMPLING_PATTERN_PMJ then
    let r : f32 := 0
    let r := if sample > NUM_PJ_SAMPLES then jt.cmj_randfloat (to_uint sample) (to_uint dimension)
             else r
    let index := ((Int.tmod dimension NUM_PJ_PATTERNS) * NUM_PJ_SAMPLES + sample) * 2
                 + dimension % 2
    let r := assign r (fsub (uint_as_float (kg.sample_pattern_lut index)) 1)
    let shift := path_rng_shift kg jt rng_hash dimension
    let shift := fmul shift kg.integrator.scrambling_distance
    fsub (fadd r shift) (floorf (fadd r shift))
  else if kg.integrator.sampling_pattern = SAMPLING_PATTERN_CMJ then
    let p := to_int (rng_hash + to_uint dimension)
    jt.cmj_sample_1D sample num_samples p
  else
    let result := sobol_dimension kg sample dimension
    let r := fmul (uint_to_float result) INV_UINT_MAX
    let shift := path_rng_shift kg jt rng_hash dimension
    let shift := fmul shift kg.integrator.scrambling_distance
    fsub (fadd r shift) (floorf (fadd r shift))

/-- Function `path_rng_2D`, returning `(fx, fy)`. -/
def path_rng_2D (kg : KernelGlobals) (jt : Jitter) (rng_hash : Nat)
    (sample num_samples dimension : Int) : f32 × f32 :=
  if kg.integrator.sampling_pattern = SAMPLING_PATTERN_PMJ then
    (path_rng_1D kg jt rng_hash sample num_samples dimension,
     path_rng_1D kg jt rng_hash sample num_samples (dimension + 1))
  else if kg.integrator.sampling_pattern = SAMPLING_PATTERN_CMJ then
    let p := to_int (rng_hash + to_uint dimension)
    jt.cmj_sample_2D sample num_samples p
  else
    (path_rng_1D kg jt rng_hash sample num_samples dimension,
     path_rng_1D kg jt rng_hash sample num_samples (dimension + 1))

/-- Function `path_rng_init`, returning `(rng_hash, (fx, fy))`. -/
def path_rng_init (T : KernelTypes) (kg : KernelGlobals) (jt : Jitter)
    (sample num_samples x y : Int) : Nat × (f32 × f32) :=
  let rng_hash :=
    if kg.integrator.dither_size > 0 then
      ((((to_uint y &&& DITHER_COORD_MASK) <<< DITHER_Y_SHIFT) % 4294967296)
        ||| (to_uint x &&& DITHER_COORD_MASK)) ||| DITHER_MASK
    else
      let rng_hash := jt.hash_uint2 (to_uint x) (to_uint y)
      rng_hash ^^^ kg.integrator.seed
  if sample = 0 then (rng_hash, ((1 / 2 : ℚ), (1 / 2 : ℚ)))
  else (rng_hash, path_rng_2D kg jt rng_hash sample num_samples T.PRNG_FILTER_U)

/-- Function `lcg_step_uint` on the state `rng`: the new state and the returned value. -/
def lcg_step_uint (rng : Nat) : Nat × Nat :=
  let rng := (1103515245 * rng + 12345) % 4294967296
  (rng, rng)

/-- Function `lcg_step_float` on the state `rng`: the new state and the returned value. -/
def lcg_step_float (rng : Nat) : Nat × f32 :=
  let rng := (1103515245 * rng + 12345) % 4294967296
  (rng, fmul (uint_to_float rng) INV_UINT_MAX)

/-- Function `lcg_init`. -/
def lcg_init (seed : Nat) : Nat :=
  let rng := seed
  let rng := (lcg_step_uint rng).1
  rng

/-- Function `path_state_rng_1D`. -/
def path_state_rng_1D {T : KernelTypes} (kg : KernelGlobals) (jt : Jitter) (state : PathState T)
    (dimension : Int) : f32 :=
  path_rng_1D kg jt state.rng_hash state.sample state.num_samples (state.rng_offset + dimension)

/-- Function `path_state_rng_2D`. -/
def path_state_rng_2D {T : KernelTypes} (kg : KernelGlobals) (jt : Jitter) (state : PathState T)
    (dimension : Int) : f32 × f32 :=
  path_rng_2D kg jt state.rng_hash state.sample state.num_samples (state.rng_offset + dimension)

/-- Function `path_state_rng_1D_hash`. -/
def path_state_rng_1D_hash {T : KernelTypes} (kg : KernelGlobals) (jt : Jitter) (state : PathState T)
    (hash : Nat) : f32 :=
  path_rng_1D kg jt (jt.cmj_hash_simple state.rng_hash hash) state.sample state.num_samples
    state.rng_offset

/-- Function `path_branched_rng_1D`. -/
def path_branched_rng_1D {T : KernelTypes} (kg : KernelGlobals) (jt : Jitter) (rng_hash : Nat)
    (state : PathState T) (branch num_branches dimension : Int) : f32 :=
  path_rng_1D kg jt rng_hash (state.sample * num_branches + branch)
    (state.num_samples * num_branches) (state.rng_offset + dimension)

/-- Function `path_branched_rng_2D`. -/
def path_branched_rng_2D {T : KernelTypes} (kg : KernelGlobals) (jt : Jitter) (rng_hash : Nat)
    (state : PathState T) (branch num_branches dimension : Int) : f32 × f32 :=
  path_rng_2D kg jt rng_hash (state.sample * num_branches + branch)
    (state.num_samples * num_branches) (state.rng_offset + dimension)

/-- Function `path_state_rng_light_termination`. -/
def path_state_rng_light_termination {T : KernelTypes} (kg : KernelGlobals) (jt : Jitter)
    (state : PathState T) : f32 :=
  if kg.integrator.light_inv_rr_threshold > 0 then
    path_state_rng_1D kg jt state T.PRNG_LIGHT_TERMINATE
  else 0

/-- Function `path_branched_rng_light_termination`. -/
def path_branched_rng_light_termination {T : KernelTypes} (kg : KernelGlobals) (jt : Jitter)
    (rng_hash : Nat) (state : PathState T) (branch num_branches : Int) : f32 :=
  if kg.integrator.light_inv_rr_threshold > 0 then
    path_branched_rng_1D kg jt rng_hash state branch num_branches T.PRNG_LIGHT_TERMINATE
  else 0

/-- Function `lcg_state_init`. -/
def lcg_state_init {T : KernelTypes} (state : PathState T) (scramble : Nat) : Nat :=
  lcg_init (((state.rng_hash + to_uint state.rng_offset) % 4294967296
    + (to_uint state.sample * scramble) % 4294967296) % 4294967296)

/-- Function `lcg_state_init_addrspace`. -/
def lcg_state_init_addrspace {T : KernelTypes} (state : PathState T) (scramble : Nat) : Nat :=
  lcg_init (((state.rng_hash + to_uint state.rng_offset) % 4294967296
    + (to_uint state.sample * scramble) % 4294967296) % 4294967296)

/-- Function `lcg_step_float_addrspace` on the state `rng`. -/
def lcg_step_float_addrspace (rng : Nat) : Nat × f32 :=
  let rng := (1103515245 * rng + 12345) % 4294967296
  (rng, fmul (uint_to_float rng) INV_UINT_MAX)

/-- Conversion `(bool)(sample & mask)` of `sample_is_even`. -/
def bit_set (sample : Int) (mask : Nat) : Bool := decide (to_uint sample &&& mask ≠ 0)

/-- Function `sample_is_even`. -/
def sample_is_even (pattern : SamplingPattern) (sample : Int) : Bool :=
  if pattern = SAMPLING_PATTERN_PMJ then
    xor (xor (xor (xor (xor (xor (xor (xor (xor (xor (xor (xor (xor (xor (xor
      (bit_set sample 2) (bit_set sample 8)) (bit_set sample 0x20))
      (bit_set sample 0x80)) (bit_set sample 0x200)) (bit_set sample 0x800))
      (bit_set sample 0x2000)) (bit_set sample 0x8000)) (bit_set sample 0x20000))
      (bit_set sample 0x80000)) (bit_set sample 0x200000)) (bit_set sample 0x800000))
      (bit_set sample 0x2000000)) (bit_set sample 0x8000000)) (bit_set sample 0x20000000))
      (bit_set sample 0x80000000)
  else
    decide (to_uint sample &&& 0x1 ≠ 0)

/-- Function `path_rng_hash`. -/
def path_rng_hash (jt : Jitter) (rng_hash : Nat) (i : Int) : Nat :=
  jt.cmj_hash rng_hash (to_uint i) &&& (4294967295 - DITHER_MASK)

/-! ## kernel_path_surface.h -/

/-- Type `float3`. -/
structure float3 where
  x : f32
  y : f32
  z : f32

/-- Product `a * f` of a `float3` and a `float`. -/
def float3.scale (a : float3) (f : f32) : float3 := ⟨fmul a.x f, fmul a.y f, fmul a.z f⟩

/-- Negation `-a` of a `float3`. -/
def float3.neg (a : float3) : float3 := ⟨-a.x, -a.y, -a.z⟩

/-- Type `differential3`. -/
structure differential3 where
  dx : float3
  dy : float3

/-- Fields of `ShaderData` read by the surface kernels; `closures` stands for the rest
of the record. -/
structure ShaderData (T : KernelTypes) where
  flag : Nat
  time : f32
  ray_length : f32
  P : float3
  Ng : float3
  dP : differential3
  closures : T.ShaderClosures

/-- Type `Ray`. -/
structure Ray where
  P : float3
  D : float3
  t : f32
  time : f32
  dP : differential3
  dD : differential3

/-- Content of a local `Ray` declared with `ccl_optional_struct_init` before any field
is assigned (taken as zero-initialised). -/
def Ray.uninit : Ray :=
  ⟨⟨0, 0, 0⟩, ⟨0, 0, 0⟩, 0, 0, ⟨⟨0, 0, 0⟩, ⟨0, 0, 0⟩⟩, ⟨⟨0, 0, 0⟩, ⟨0, 0, 0⟩⟩⟩

/-- Fields of `LightSample` used by the surface kernels; `data` stands for the rest of
the record. -/
structure LightSample (T : KernelTypes) where
  pdf : f32
  lamp : Int
  data : T.LightData

/-- Result of `direct_emission`: the returned flag and the objects it writes through
its pointer arguments. -/
structure EmissionResult (T : KernelTypes) where
  has_emission : Bool
  emission_sd : ShaderData T
  light_ray : Ray
  L_light : T.BsdfEval
  is_lamp : Bool

/-- Result of the BSDF sampling kernels: the returned label and the output arguments. -/
structure BsdfSampleResult (T : KernelTypes) where
  label : Nat
  bsdf_eval : T.BsdfEval
  bsdf_omega_in : float3
  bsdf_domega_in : differential3
  bsdf_pdf : f32

/-- Kernels and utilities called by `kernel_path_surface.h` whose definitions are not
among the sources (light sampling, emission, shadow rays, radiance accumulation, BSDF
sampling, path-state update, ray utilities): they are parameters.  Each is a function of
the arguments of the call, returning the returned value together with the objects written
through pointer arguments; `sd` and `state` are read by them but not written, unless the
result carries a new value. -/
structure SurfaceKernels (T : KernelTypes) where
  L_light_uninit : T.BsdfEval
  light_select_reached_max_bounces : KernelGlobals → Int → Int → Bool
  light_select_num_samples : KernelGlobals → Int → Int
  light_sample : KernelGlobals → Int → f32 → f32 → f32 → float3 → Int → Option (LightSample T)
  direct_emission : KernelGlobals → ShaderData T → ShaderData T → LightSample T → PathState T →
    Ray → T.BsdfEval → Bool → f32 → EmissionResult T
  shadow_blocked : KernelGlobals → ShaderData T → ShaderData T → PathState T → Ray →
    Bool × ShaderData T × float3
  path_radiance_accum_light : KernelGlobals → T.PathRadiance → PathState T → float3 →
    T.BsdfEval → float3 → f32 → Int → Bool → T.PathRadiance
  path_radiance_accum_total_light : T.PathRadiance → PathState T → float3 → T.BsdfEval →
    T.PathRadiance
  shader_bsdf_sample : KernelGlobals → ShaderData T → f32 → f32 → BsdfSampleResult T
  shader_bsdf_sample_closure : KernelGlobals → ShaderData T → T.ShaderClosure → f32 → f32 →
    BsdfSampleResult T
  sample_weight : T.ShaderClosure → f32
  bsdf_eval_is_zero : T.BsdfEval → Bool
  path_radiance_bsdf_bounce : KernelGlobals → T.PathRadianceState → float3 → T.BsdfEval → f32 →
    Int → Nat → T.PathRadianceState × float3
  path_state_next : KernelGlobals → PathState T → Nat → PathState T
  path_state_branch : PathState T → Int → Int → PathState T
  path_state_volume_next : KernelGlobals → PathState T → Bool × PathState T
  kernel_volume_stack_enter_exit : KernelGlobals → ShaderData T → T.VolumeStack → T.VolumeStack
  ray_offset : float3 → float3 → float3
  normalize : float3 → float3

/-- Utility `ceil_to_int`: `(int)ceilf(f)`.
Modelled from the spec: `ceil_to_int` is in `util_math.h`, which is not among the
sources; the spec gives `num_samples = ceil(base_light_samples * num_samples_adjust)`. -/
def ceil_to_int (f : f32) : Int := ⌈f⌉

/-- Calls observed during a light connection, in program order. -/
inductive Event (T : KernelTypes) where
  | rng_2D (rng_hash : Nat) (branch num_branches dimension : Int)
  | rng_light_termination (rng_hash : Nat) (branch num_branches : Int)
  | state_rng_2D (dimension : Int)
  | state_rng_light_termination
  | light_sample (lamp : Int) (light_u light_v : f32)
  | direct_emission (ls : LightSample T) (terminate : f32)
  | shadow_blocked (light_ray : Ray)
  | accum_light (throughput : float3) (shadow : float3) (shadow_fac : f32) (lamp : Int)
      (is_lamp : Bool)
  | accum_total_light (throughput : float3)

/-- Objects a light connection writes: the radiance `L`, the scratch `emission_sd`, the
local `L_light`, and the log of calls. -/
structure ConnectLight (T : KernelTypes) where
  L : T.PathRadiance
  emission_sd : ShaderData T
  L_light : T.BsdfEval
  trace : List (Event T)

/-- Test `is e a light_sample call`. -/
def Event.is_light_sample {T : KernelTypes} : Event T → Bool
  | Event.light_sample _ _ _ => true
  | _ => false

/-- Test `is e a direct_emission call`. -/
def Event.is_direct_emission {T : KernelTypes} : Event T → Bool
  | Event.direct_emission _ _ => true
  | _ => false

/-- Test `is e a random-number draw`. -/
def Event.is_rng {T : KernelTypes} : Event T → Bool
  | Event.rng_2D _ _ _ _ => true
  | Event.rng_light_termination _ _ _ => true
  | Event.state_rng_2D _ => true
  | Event.state_rng_light_termination => true
  | _ => false

/-- Test `is e a radiance accumulation`. -/
def Event.is_accum {T : KernelTypes} : Event T → Bool
  | Event.accum_light _ _ _ _ _ => true
  | Event.accum_total_light _ => true
  | _ => false

/-- Locals of one iteration of the light loop of
`kernel_branched_path_surface_connect_light`, as set before `num_samples_inv`. -/
structure LightSetup where
  num_samples : Int
  num_all_lights : Int
  lamp_rng_hash : Nat
  double_pdf : Bool
  is_mesh_light : Bool
  is_lamp : Bool

/-- Head of the light loop for light `i`: the locals, or `none` when the iteration is
left by `continue`. -/
def light_setup {T : KernelTypes} (kg : KernelGlobals) (jt : Jitter) (K : SurfaceKernels T)
    (state : PathState T) (num_samples_adjust : f32) (sample_all_lights : Int) (i : Int) :
    Option LightSetup :=
  let su : LightSetup := ⟨1, 1, state.rng_hash, false, false, false⟩
  if sample_all_lights ≠ 0 then
    let su := { su with is_lamp := decide (i < kg.integrator.num_all_lights) }
    if su.is_lamp then
      if K.light_select_reached_max_bounces kg i state.bounce then none
      else
        some { su with
          num_samples := ceil_to_int
            (fmul num_samples_adjust (int_to_float (K.light_select_num_samples kg i)))
          num_all_lights := kg.integrator.num_all_lights
          lamp_rng_hash := path_rng_hash jt state.rng_hash i
          double_pdf := decide (kg.integrator.pdf_triangles ≠ 0) }
    else
      some { su with
        num_samples := ceil_to_int
          (fmul num_samples_adjust (int_to_float kg.integrator.mesh_light_samples))
        double_pdf := decide (kg.integrator.num_all_lights ≠ 0)
        is_mesh_light := true }
  else some su

/-- Weight `num_samples_inv` of one light. -/
def light_num_samples_inv (num_samples_adjust : f32) (su : LightSetup) : f32 :=
  fdiv num_samples_adjust (int_to_float (su.num_samples * su.num_all_lights))

/-- Tail of one light sample, from the comment `trace shadow ray` on: the call of
`shadow_blocked` on the light ray and the accumulation into `L`.  `throughput` and
`shadow_fac` are the weight arguments of the accumulation (`throughput * num_samples_inv`
and `num_samples_inv` in the branched routine, `throughput` and `1.0f` in the other),
`ls_lamp` is `ls.lamp`, `em` holds `has_emission` and the objects written by
`direct_emission`. -/
def connect_light_shadow {T : KernelTypes} (kg : KernelGlobals) (K : SurfaceKernels T)
    (sd : ShaderData T) (state : PathState T) (throughput : float3) (shadow_fac : f32)
    (L : T.PathRadiance) (em : EmissionResult T) (ls_lamp : Int) (trace : List (Event T)) :
    ConnectLight T :=
  let sb := K.shadow_blocked kg sd em.emission_sd state em.light_ray
  let blocked := sb.1
  let shadow := sb.2.2
  let trace := trace ++ [Event.shadow_blocked em.light_ray]
  if em.has_emission then
    if !blocked then
      ⟨K.path_radiance_accum_light kg L state throughput em.L_light shadow shadow_fac ls_lamp
          em.is_lamp,
        sb.2.1, em.L_light,
        trace ++ [Event.accum_light throughput shadow shadow_fac ls_lamp em.is_lamp]⟩
    else
      ⟨K.path_radiance_accum_total_light L state throughput em.L_light,
        sb.2.1, em.L_light, trace ++ [Event.accum_total_light throughput]⟩
  else ⟨L, sb.2.1, em.L_light, trace⟩

/-- Body of the sample loop of `kernel_branched_path_surface_connect_light` for sample
`j` of light `i`; the local `is_lamp` is carried from one sample to the next. -/
def branched_connect_light_sample {T : KernelTypes} (kg : KernelGlobals) (jt : Jitter)
    (K : SurfaceKernels T) (sd : ShaderData T) (state : PathState T) (throughput : float3)
    (i : Int) (su : LightSetup) (num_samples_inv : f32) (j : Int)
    (c : ConnectLight T) (is_lamp : Bool) : ConnectLight T × Bool :=
  let light_ray : Ray := { Ray.uninit with t := 0, time := sd.time }
  let has_emission := false
  if kg.integrator.use_direct_light && decide (sd.flag &&& T.SD_BSDF_HAS_EVAL ≠ 0) then
    let uv := path_branched_rng_2D kg jt su.lamp_rng_hash state j su.num_samples T.PRNG_LIGHT_U
    let light_u := uv.1
    let light_v := uv.2
    let terminate :=
      path_branched_rng_light_termination kg jt su.lamp_rng_hash state j su.num_samples
    let trace := c.trace ++
      [Event.rng_2D su.lamp_rng_hash j su.num_samples T.PRNG_LIGHT_U,
       Event.rng_light_termination su.lamp_rng_hash j su.num_samples]
    let light_u := if su.is_mesh_light && su.double_pdf then fmul (1 / 2) light_u else light_u
    let lamp : Int := if is_lamp then i else -1
    let trace := trace ++ [Event.light_sample lamp light_u light_v]
    let em : EmissionResult T × Int × List (Event T) :=
      match K.light_sample kg lamp light_u light_v sd.time sd.P state.bounce with
      | some ls =>
        let ls := if su.double_pdf then { ls with pdf := fmul ls.pdf 2 } else ls
        (K.direct_emission kg sd c.emission_sd ls state light_ray c.L_light is_lamp terminate,
         ls.lamp, trace ++ [Event.direct_emission ls terminate])
      | none => (⟨has_emission, c.emission_sd, light_ray, c.L_light, is_lamp⟩, 0, trace)
    (connect_light_shadow kg K sd state (throughput.scale num_samples_inv) num_samples_inv c.L
      em.1 em.2.1 em.2.2, em.1.is_lamp)
  else (c, is_lamp)

/-- One iteration of the light loop of `kernel_branched_path_surface_connect_light`. -/
def branched_connect_light_one {T : KernelTypes} (kg : KernelGlobals) (jt : Jitter)
    (K : SurfaceKernels T) (sd : ShaderData T) (state : PathState T) (throughput : float3)
    (num_samples_adjust : f32) (sample_all_lights : Int) (c : ConnectLight T) (i : Int) :
    ConnectLight T :=
  match light_setup kg jt K state num_samples_adjust sample_all_lights i with
  | none => c
  | some su =>
    let num_samples_inv := light_num_samples_inv num_samples_adjust su
    ((List.range su.num_samples.toNat).foldl
      (fun acc j => branched_connect_light_sample kg jt K sd state throughput i su
        num_samples_inv (j : Int) acc.1 acc.2)
      (c, su.is_lamp)).1

/-- Number of iterations `num_lights` of the light loop. -/
def connect_num_lights (kg : KernelGlobals) (sample_all_lights : Int) : Int :=
  let num_lights : Int := 0
  if kg.integrator.use_direct_light then
    if sample_all_lights ≠ 0 then
      let num_lights := kg.integrator.num_all_lights
      if kg.integrator.pdf_triangles ≠ 0 then num_lights + 1 else num_lights
    else 1
  else num_lights

/-- Function `kernel_branched_path_surface_connect_light`; the result holds the radiance
`L` after the call and the log of calls made. -/
def kernel_branched_path_surface_connect_light {T : KernelTypes} (kg : KernelGlobals)
    (jt : Jitter) (K : SurfaceKernels T) (sd emission_sd : ShaderData T) (state : PathState T)
    (throughput : float3) (num_samples_adjust : f32) (L : T.PathRadiance)
    (sample_all_lights : Int) : ConnectLight T :=
  (List.range (connect_num_lights kg sample_all_lights).toNat).foldl
    (fun c i => branched_connect_light_one kg jt K sd state throughput num_samples_adjust
      sample_all_lights c (i : Int))
    ⟨L, emission_sd, K.L_light_uninit, []⟩

/-- Function `kernel_path_surface_connect_light`, as compiled with `__SHADOW_TRICKS__`. -/
def kernel_path_surface_connect_light {T : KernelTypes} (kg : KernelGlobals)
    (jt : Jitter) (K : SurfaceKernels T) (sd emission_sd : ShaderData T) (throughput : float3)
    (state : PathState T) (L : T.PathRadiance) : ConnectLight T :=
  let all : Int := ((state.flag &&& T.PATH_RAY_SHADOW_CATCHER : Nat) : Int)
  kernel_branched_path_surface_connect_light kg jt K sd emission_sd state throughput 1 L all

/-- Function `kernel_path_surface_connect_light`, as compiled without
`__SHADOW_TRICKS__`. -/
def kernel_path_surface_connect_light_no_shadow_tricks {T : KernelTypes} (kg : KernelGlobals)
    (jt : Jitter) (K : SurfaceKernels T) (sd emission_sd : ShaderData T) (throughput : float3)
    (state : PathState T) (L : T.PathRadiance) : ConnectLight T :=
  let light_ray : Ray := { Ray.uninit with t := 0, time := sd.time }
  let is_lamp := false
  let has_emission := false
  if kg.integrator.use_direct_light && decide (sd.flag &&& T.SD_BSDF_HAS_EVAL ≠ 0) then
    let uv := path_state_rng_2D kg jt state T.PRNG_LIGHT_U
    let light_u := uv.1
    let light_v := uv.2
    let trace : List (Event T) :=
      [Event.state_rng_2D T.PRNG_LIGHT_U, Event.light_sample (-1) light_u light_v]
    let em : EmissionResult T × Int × List (Event T) :=
      match K.light_sample kg (-1) light_u light_v sd.time sd.P state.bounce with
      | some ls =>
        let terminate := path_state_rng_light_termination kg jt state
        (K.direct_emission kg sd emission_sd ls state light_ray K.L_light_uninit is_lamp
           terminate,
         ls.lamp,
         trace ++ [Event.state_rng_light_termination, Event.direct_emission ls terminate])
      | none => (⟨has_emission, emission_sd, light_ray, K.L_light_uninit, is_lamp⟩, 0, trace)
    connect_light_shadow kg K sd state throughput 1 L em.1 em.2.1 em.2.2
  else ⟨L, emission_sd, K.L_light_uninit, []⟩

/-- Result of a surface bounce: the returned flag and the objects behind the pointer
arguments `throughput`, `state`, `L_state` and `ray` after the call. -/
structure Bounce (T : KernelTypes) where
  ok : Bool
  throughput : float3
  state : PathState T
  L_state : T.PathRadianceState
  ray : Ray

/-- Function `kernel_branched_path_surface_bounce`. -/
def kernel_branched_path_surface_bounce {T : KernelTypes} (kg : KernelGlobals) (jt : Jitter)
    (K : SurfaceKernels T) (sd : ShaderData T) (sc : T.ShaderClosure)
    (sample num_samples : Int) (throughput : float3) (state : PathState T)
    (L_state : T.PathRadianceState) (ray : Ray) (sum_sample_weight : f32) : Bounce T :=
  let uv := path_branched_rng_2D kg jt state.rng_hash state sample num_samples T.PRNG_BSDF_U
  let bs := K.shader_bsdf_sample_closure kg sd sc uv.1 uv.2
  if bs.bsdf_pdf = 0 || K.bsdf_eval_is_zero bs.bsdf_eval then
    ⟨false, throughput, state, L_state, ray⟩
  else
    let lt := K.path_radiance_bsdf_bounce kg L_state throughput bs.bsdf_eval bs.bsdf_pdf
      state.bounce bs.label
    let state := { state with
      denoising_feature_weight := fmul state.denoising_feature_weight
        (fdiv (K.sample_weight sc) (fmul sum_sample_weight (int_to_float num_samples))) }
    let state := K.path_state_next kg state bs.label
    let ray := { ray with
      P := K.ray_offset sd.P (if bs.label &&& T.LABEL_TRANSMIT ≠ 0 then sd.Ng.neg else sd.Ng)
      D := K.normalize bs.bsdf_omega_in
      t := FLT_MAX
      dP := sd.dP
      dD := bs.bsdf_domega_in
      time := sd.time }
    let state :=
      if bs.label &&& T.LABEL_TRANSMIT ≠ 0 then
        { state with volume_stack := K.kernel_volume_stack_enter_exit kg sd state.volume_stack }
      else state
    let state := K.path_state_branch state sample num_samples
    let state := { state with min_ray_pdf := fminf bs.bsdf_pdf FLT_MAX }
    let state := { state with ray_pdf := bs.bsdf_pdf }
    let state := { state with ray_t := 0 }
    ⟨true, lt.2, state, lt.1, ray⟩

/-- The assignments under `set labels` of `kernel_path_surface_bounce`. -/
def set_mis_state {T : KernelTypes} (state : PathState T) (label : Nat) (bsdf_pdf : f32) :
    PathState T :=
  if ¬ (label &&& T.LABEL_TRANSPARENT ≠ 0) then
    let state := { state with ray_pdf := bsdf_pdf }
    let state := { state with ray_t := 0 }
    { state with min_ray_pdf := fminf bsdf_pdf state.min_ray_pdf }
  else state

/-- Function `kernel_path_surface_bounce`. -/
def kernel_path_surface_bounce {T : KernelTypes} (kg : KernelGlobals) (jt : Jitter)
    (K : SurfaceKernels T) (sd : ShaderData T) (throughput : float3) (state : PathState T)
    (L_state : T.PathRadianceState) (ray : Ray) : Bounce T :=
  if sd.flag &&& T.SD_BSDF ≠ 0 then
    let uv := path_state_rng_2D kg jt state T.PRNG_BSDF_U
    let bs := K.shader_bsdf_sample kg sd uv.1 uv.2
    if bs.bsdf_pdf = 0 || K.bsdf_eval_is_zero bs.bsdf_eval then
      ⟨false, throughput, state, L_state, ray⟩
    else
      let lt := K.path_radiance_bsdf_bounce kg L_state throughput bs.bsdf_eval bs.bsdf_pdf
        state.bounce bs.label
      let state := set_mis_state state bs.label bs.bsdf_pdf
      let state := K.path_state_next kg state bs.label
      let ray := { ray with
        P := K.ray_offset sd.P (if bs.label &&& T.LABEL_TRANSMIT ≠ 0 then sd.Ng.neg else sd.Ng)
        D := K.normalize bs.bsdf_omega_in }
      let ray :=
        if state.bounce = 0 then { ray with t := fsub ray.t sd.ray_length }
        else { ray with t := FLT_MAX }
      let ray := { ray with dP := sd.dP, dD := bs.bsdf_domega_in }
      let state :=
        if bs.label &&& T.LABEL_TRANSMIT ≠ 0 then
          { state with volume_stack := K.kernel_volume_stack_enter_exit kg sd state.volume_stack }
        else state
      ⟨true, lt.2, state, lt.1, ray⟩
  else if sd.flag &&& T.SD_HAS_ONLY_VOLUME ≠ 0 then
    let vn := K.path_state_volume_next kg state
    if ¬ vn.1 then ⟨false, throughput, vn.2, L_state, ray⟩
    else
      let state := vn.2
      let ray :=
        if state.bounce = 0 then { ray with t := fsub ray.t sd.ray_length }
        else { ray with t := FLT_MAX }
      let ray := { ray with P := K.ray_offset sd.P sd.Ng.neg }
      let ray := { ray with dP := sd.dP }
      let state :=
        { state with volume_stack := K.kernel_volume_stack_enter_exit kg sd state.volume_stack }
      ⟨true, throughput, state, L_state, ray⟩
  else ⟨false, throughput, state, L_state, ray⟩

/-- Combined sample index `state->sample * num_branches + branch` that
`path_branched_rng_1D` and `path_branched_rng_2D` hand to the base draw. -/
def branched_sample (sample num_branches branch : Int) : Int := sample * num_branches + branch

/-- Index `y*size + x` of the dither-table entry fetched by `path_rng_1D` (both in the
PMJ and in the Sobol branch) for a dither matrix of width `size`. -/
def dither_index (size : Int) (rng_hash : Nat) : Int :=
  let x : Int := ((rng_hash &&& DITHER_COORD_MASK) % to_uint size : Nat)
  let y : Int := (((rng_hash >>> DITHER_Y_SHIFT) &&& DITHER_COORD_MASK) % to_uint size : Nat)
  y * size + x

/-- Index `((dimension % NUM_PJ_PATTERNS) * NUM_PJ_SAMPLES + sample) * 2 + (dimension & 1)`
of the table word fetched by the PMJ branch of `path_rng_1D`. -/
def pmj_index (sample dimension : Int) : Int :=
  ((Int.tmod dimension NUM_PJ_PATTERNS) * NUM_PJ_SAMPLES + sample) * 2 + dimension % 2

/-- Number of bits set among the 32 bits of a word (`popcount`). -/
def popcount (u : Nat) : Nat := (List.range 32).countP (fun (b : Nat) => u.testBit b)

/-! ## integrator.cpp -/

/-- Integration methods registered by `NODE_DEFINE(Integrator)` (`method_enum`). -/
inductive Method where
  | PATH
  | BRANCHED_PATH
  deriving DecidableEq, Repr

/-- Members of the `Integrator` node read by the sampler set-up of
`Integrator::device_update`. -/
structure Integrator where
  need_update : Bool
  max_bounce : Int
  transparent_max_bounce : Int
  seed : Int
  diffuse_samples : Int
  glossy_samples : Int
  transmission_samples : Int
  ao_samples : Int
  mesh_light_samples : Int
  subsurface_samples : Int
  volume_samples : Int
  light_sampling_threshold : f32
  method : Method
  sampling_pattern : SamplingPattern
  scrambling_distance : f32
  use_auto_scramble : Bool
  use_dithered_sampling : Bool

/-- Constants and table generators used by `Integrator::device_update` whose definitions
are not among the sources (`kernel_types.h`, `render/sobol.h`, `render/jitter.h`): they are
parameters.  A generator is given by the table it writes: the direction vectors for a
number of dimensions as 32-bit words by flat index, a PMJ sequence (size, seed) as the
two 32-bit words of each point, the dither matrix as `float2` entries by flat index. -/
structure RenderEnv where
  VOLUME_BOUNDS_MAX : Int
  BSSRDF_MAX_HITS : Int
  BSSRDF_MAX_BOUNCES : Int
  SOBOL_BITS : Int
  SOBOL_MAX_DIMENSIONS : Int
  sobol_dither_matrix_size : Int
  sobol_generate_direction_vectors : Int → Int → Nat
  progressive_multi_jitter_02_generate_2D : Int → Int → Int → Nat × Nat
  sobol_generate_dither_matrix : Int → f32 × f32

/-- Part of `DeviceScene` written by `Integrator::device_update`: the kernel integrator
data and the two device arrays with their allocated element counts. -/
structure DeviceScene where
  integrator : KernelIntegrator
  sample_pattern_lut : Int → Nat
  sample_pattern_lut_size : Int
  sobol_dither : Int → f32 × f32
  sobol_dither_size : Int

/-- Kernel globals seen by the kernels after the device scene is uploaded. -/
def DeviceScene.kernel_globals (dscene : DeviceScene) : KernelGlobals :=
  ⟨dscene.integrator, dscene.sample_pattern_lut, dscene.sobol_dither⟩

/-- Function `Integrator::device_free`: both arrays are released. -/
def Integrator.device_free (dscene : DeviceScene) : DeviceScene :=
  { dscene with sample_pattern_lut_size := 0, sobol_dither_size := 0 }

/-- Value `max_samples` of `Integrator::device_update` before the multiplication by the
bounce count; `light_samples` lists `light->samples` of the scene lights. -/
def Integrator.max_samples (self : Integrator) (light_samples : List Int) : Int :=
  let max_samples : Int := 1
  if self.method = Method.BRANCHED_PATH then
    let max_samples := light_samples.foldl (fun m s => max m s) max_samples
    let max_samples := max max_samples
      (max self.diffuse_samples (max self.glossy_samples self.transmission_samples))
    let max_samples := max max_samples
      (max self.ao_samples (max self.mesh_light_samples self.subsurface_samples))
    max max_samples self.volume_samples
  else max_samples

/-- Value `dimensions` of `Integrator::device_update` after the clamp; the product and the
sum that give it are `int` operations. -/
def Integrator.sobol_dimensions (T : KernelTypes) (env : RenderEnv) (self : Integrator)
    (light_samples : List Int) : Int :=
  let max_samples := self.max_samples light_samples
  let total_bounces : Nat := to_uint (self.max_bounce + self.transparent_max_bounce + 3
    + env.VOLUME_BOUNDS_MAX + max env.BSSRDF_MAX_HITS env.BSSRDF_MAX_BOUNCES)
  let max_samples := to_int ((to_uint max_samples * total_bounces) % 4294967296)
  let dimensions := wrap_int (T.PRNG_BASE_NUM + wrap_int (max_samples * T.PRNG_BOUNCE_NUM))
  min dimensions env.SOBOL_MAX_DIMENSIONS

/-- Function `Integrator::device_update`, restricted to the members of the kernel
integrator data and of the device scene that this development models.  The result is the
node (with `need_update` cleared) and the device scene after the call. -/
def Integrator.device_update (T : KernelTypes) (env : RenderEnv) (jt : Jitter)
    (self : Integrator) (light_samples : List Int) (dscene : DeviceScene) :
    Integrator × DeviceScene :=
  if !self.need_update then (self, dscene)
  else
    let dscene := Integrator.device_free dscene
    let kintegrator := dscene.integrator
    let kintegrator := { kintegrator with seed := jt.hash_uint2 (to_uint self.seed) 0 }
    let kintegrator := { kintegrator with mesh_light_samples := self.mesh_light_samples }
    let kintegrator := { kintegrator with sampling_pattern := self.sampling_pattern }
    let kintegrator :=
      if self.use_auto_scramble then
        { kintegrator with scrambling_distance := self.scrambling_distance }
      else kintegrator
    let kintegrator :=
      if self.light_sampling_threshold > 0 then
        { kintegrator with light_inv_rr_threshold := fdiv 1 self.light_sampling_threshold }
      else { kintegrator with light_inv_rr_threshold := 0 }
    let dimensions := self.sobol_dimensions T env light_samples
    let dscene :=
      if self.sampling_pattern = SAMPLING_PATTERN_SOBOL then
        { dscene with
          sample_pattern_lut := env.sobol_generate_direction_vectors dimensions
          sample_pattern_lut_size := to_size_t (wrap_int (env.SOBOL_BITS * dimensions)) }
      else
        let sequence_size : Int := 64 * 64
        let num_sequences : Int := 48
        { dscene with
          sample_pattern_lut := fun index =>
            let point := index / 2
            let j := point / sequence_size
            let words := env.progressive_multi_jitter_02_generate_2D sequence_size j
              (point % sequence_size)
            if 0 ≤ index ∧ j < num_sequences then
              (if index % 2 = 0 then words.1 else words.2)
            else dscene.sample_pattern_lut index
          sample_pattern_lut_size := sequence_size * num_sequences * 2 }
    let dk : DeviceScene × KernelIntegrator :=
      if self.use_dithered_sampling then
        let dither_size := env.sobol_dither_matrix_size
        ({ dscene with
            sobol_dither := env.sobol_generate_dither_matrix
            sobol_dither_size := dither_size * dither_size },
         { kintegrator with dither_size := dither_size })
      else (dscene, { kintegrator with dither_size := 0 })
    ({ self with need_update := false }, { dk.1 with integrator := dk.2 })

/-! ## Concrete scenes for evaluation -/

/-- Instance of the `kernel_types.h` declarations on which the kernels are evaluated:
small record types, and pairwise distinct bits for the flag constants. -/
abbrev demo_types : KernelTypes where
  ShaderClosure := Unit
  ShaderClosures := Unit
  BsdfEval := Nat
  PathRadiance := List Nat
  PathRadianceState := Unit
  LightData := Unit
  VolumeStack := Nat
  PRNG_FILTER_U := 0
  PRNG_BASE_NUM := 10
  PRNG_BSDF_U := 0
  PRNG_LIGHT_U := 2
  PRNG_LIGHT_TERMINATE := 4
  PRNG_BOUNCE_NUM := 8
  SD_BSDF := 1
  SD_BSDF_HAS_EVAL := 2
  SD_HAS_ONLY_VOLUME := 4194304
  LABEL_TRANSMIT := 1
  LABEL_TRANSPARENT := 32
  PATH_RAY_SHADOW_CATCHER := 536870912

/-- Integrator data with the given pattern, no dithering, scrambling distance `1`. -/
def demo_integrator (pattern : SamplingPattern) : KernelIntegrator where
  sampling_pattern := pattern
  dither_size := 0
  scrambling_distance := 1
  light_inv_rr_threshold := 0
  seed := 0
  use_direct_light := true
  num_all_lights := 1
  pdf_triangles := 0
  mesh_light_samples := 1

/-- Jitter functions returning constants: hashes `0`, floats `1/4`. -/
def demo_jitter : Jitter where
  cmj_hash := fun _ _ => 0
  cmj_hash_simple := fun _ _ => 0
  cmj_randfloat := fun _ _ => 1 / 4
  cmj_sample_1D := fun _ _ _ => 1 / 4
  cmj_sample_2D := fun _ _ _ => (1 / 4, 1 / 4)
  hash_uint2 := fun _ _ => 0

/-- Sobol scene whose direction table holds `1` at entry 6, `2` at entry 7 and `0`
elsewhere. -/
def sobol_scene : KernelGlobals where
  integrator := demo_integrator SAMPLING_PATTERN_SOBOL
  sample_pattern_lut := fun i => if i = 6 then 1 else if i = 7 then 2 else 0
  sobol_dither := fun _ => (0, 0)

/-- PMJ scene with scrambling distance `0` whose table holds the word of `1.5f` at entry
10000 and the word of `1.0f` elsewhere. -/
def pmj_scene : KernelGlobals where
  integrator := { demo_integrator SAMPLING_PATTERN_PMJ with scrambling_distance := 0 }
  sample_pattern_lut := fun i => if i = 10000 then 0x3FC00000 else 0x3F800000
  sobol_dither := fun _ => (0, 0)

/-- Number of the `n` consecutive integers `a, a + 1, ..., a + n - 1` on which `p` is
true. -/
def count_from (p : Int → Bool) (a : Int) (n : Nat) : Nat :=
  (List.range n).countP (fun (t : Nat) => p (a + (t : Int)))

/-- Number of the `n` consecutive sample indices from `a` that `sample_is_even` puts in
the class `true`. -/
def count_sample_is_even (pattern : SamplingPattern) (a : Int) (n : Nat) : Nat :=
  count_from (sample_is_even pattern) a n

/-- A hit point with the given flags, at the origin, with normal `(0, 0, 1)`. -/
def demo_sd (flag : Nat) : ShaderData demo_types where
  flag := flag
  time := 0
  ray_length := 1
  P := ⟨0, 0, 0⟩
  Ng := ⟨0, 0, 1⟩
  dP := ⟨⟨0, 0, 0⟩, ⟨0, 0, 0⟩⟩
  closures := ()

/-- A path state at its first bounce whose smallest pdf so far is `min_ray_pdf`. -/
def demo_state (min_ray_pdf : f32) : PathState demo_types where
  flag := 0
  rng_hash := 0
  rng_offset := 10
  sample := 0
  num_samples := 1
  bounce := 1
  diffuse_bounce := 1
  glossy_bounce := 0
  transmission_bounce := 0
  transparent_bounce := 0
  volume_bounce := 0
  denoising_feature_weight := 1
  min_ray_pdf := min_ray_pdf
  ray_pdf := min_ray_pdf
  ray_t := 0
  volume_stack := 0

/-- A ray along `(0, 0, 1)` from the origin. -/
def demo_ray : Ray := { Ray.uninit with D := ⟨0, 0, 1⟩, t := 100 }

/-- Stand-ins for the external kernels.  BSDF sampling returns the label `label`, the
evaluation `1` and the pdf `bsdf_pdf`; an evaluation is zero when it is `0`;
`light_sample` returns `sampled`; `direct_emission` reports emission `has_emission` with
a ray of length `1`; `shadow_blocked` returns `blocked`; the radiance accumulator is the
list of the accumulations made (`1` for `path_radiance_accum_light`, `2` for
`path_radiance_accum_total_light`); the path-state updates count bounces and volume-stack
changes. -/
def demo_kernels (label : Nat) (bsdf_pdf : f32) (sampled : Option (LightSample demo_types))
    (has_emission blocked : Bool) : SurfaceKernels demo_types where
  L_light_uninit := 0
  light_select_reached_max_bounces := fun _ _ _ => false
  light_select_num_samples := fun _ _ => 1
  light_sample := fun _ _ _ _ _ _ _ => sampled
  direct_emission := fun _ _ esd _ _ ray _ is_lamp _ =>
    ⟨has_emission, esd, { ray with t := 1 }, 1, is_lamp⟩
  shadow_blocked := fun _ _ esd _ _ => (blocked, esd, ⟨1, 1, 1⟩)
  path_radiance_accum_light := fun _ L _ _ _ _ _ _ _ => L ++ [1]
  path_radiance_accum_total_light := fun L _ _ _ => L ++ [2]
  shader_bsdf_sample := fun _ _ _ _ => ⟨label, 1, ⟨0, 0, 1⟩, ⟨⟨0, 0, 0⟩, ⟨0, 0, 0⟩⟩, bsdf_pdf⟩
  shader_bsdf_sample_closure := fun _ _ _ _ _ =>
    ⟨label, 1, ⟨0, 0, 1⟩, ⟨⟨0, 0, 0⟩, ⟨0, 0, 0⟩⟩, bsdf_pdf⟩
  sample_weight := fun _ => 1
  bsdf_eval_is_zero := fun e => decide (e = 0)
  path_radiance_bsdf_bounce := fun _ L_state throughput _ _ _ _ => (L_state, throughput)
  path_state_next := fun _ state _ => { state with bounce := state.bounce + 1 }
  path_state_branch := fun state _ _ => state
  path_state_volume_next := fun _ state => (true, { state with bounce := state.bounce + 1 })
  kernel_volume_stack_enter_exit := fun _ _ stack => stack + 1
  ray_offset := fun P _ => P
  normalize := fun v => v

/-- Sobol scene with a one-by-one dither matrix holding the shift `-2^-30` in both
components, scrambling distance `1`, and an all-zero direction table. -/
def dither_scene : KernelGlobals where
  integrator := { demo_integrator SAMPLING_PATTERN_SOBOL with dither_size := 1 }
  sample_pattern_lut := fun _ => 0
  sobol_dither := fun _ => (-(1 / 1073741824), -(1 / 1073741824))

/-- Render constants and generators for evaluation: a dither matrix of width 4 holding
`(1/2, 1/4)` everywhere, all-zero direction vectors, PMJ points with the words of `1.0f`. -/
def demo_env : RenderEnv where
  VOLUME_BOUNDS_MAX := 1024
  BSSRDF_MAX_HITS := 4
  BSSRDF_MAX_BOUNCES := 256
  SOBOL_BITS := 32
  SOBOL_MAX_DIMENSIONS := 21201
  sobol_dither_matrix_size := 4
  sobol_generate_direction_vectors := fun _ _ => 0
  progressive_multi_jitter_02_generate_2D := fun _ _ _ => (0x3F800000, 0x3F800000)
  sobol_generate_dither_matrix := fun _ => (1 / 2, 1 / 4)

/-- An integrator node with the default socket values of `NODE_DEFINE(Integrator)`,
the given light sampling threshold and the given dithering switch. -/
def demo_node (light_sampling_threshold : f32) (use_dithered_sampling : Bool) : Integrator where
  need_update := true
  max_bounce := 7
  transparent_max_bounce := 7
  seed := 0
  diffuse_samples := 1
  glossy_samples := 1
  transmission_samples := 1
  ao_samples := 1
  mesh_light_samples := 1
  subsurface_samples := 1
  volume_samples := 1
  light_sampling_threshold := light_sampling_threshold
  method := Method.PATH
  sampling_pattern := SAMPLING_PATTERN_SOBOL
  scrambling_distance := 1
  use_auto_scramble := true
  use_dithered_sampling := use_dithered_sampling

/-- A device scene before the first update: empty arrays. -/
def demo_dscene : DeviceScene where
  integrator := demo_integrator SAMPLING_PATTERN_SOBOL
  sample_pattern_lut := fun _ => 0
  sample_pattern_lut_size := 0
  sobol_dither := fun _ => (0, 0)
  sobol_dither_size := 0

/-- Sobol scene with a dither matrix of width 4 holding `(1/2, 1/4)` at entry 0 and
`(3/4, 1/8)` elsewhere. -/
def dither_four_scene : KernelGlobals where
  integrator := { demo_integrator SAMPLING_PATTERN_SOBOL with dither_size := 4 }
  sample_pattern_lut := fun _ => 0
  sobol_dither := fun i => if i = 0 then (1 / 2, 1 / 4) else (3 / 4, 1 / 8)

theorem round_half_even_intCast (z : ℤ) : round_half_even (z : ℚ) = z := by
  simp [round_half_even]

theorem round_half_even_ge {t : ℚ} {n : ℤ} (h : (n : ℚ) ≤ t) : n ≤ round_half_even t := by
  have hn : n ≤ ⌊t⌋ := Int.le_floor.mpr h
  unfold round_half_even
  simp only
  split_ifs <;> omega

theorem log2_bounds {q : ℚ} (hq : 0 < q) :
    (2 : ℚ) ^ Int.log 2 q ≤ q ∧ q < (2 : ℚ) ^ (Int.log 2 q + 1) := by
  have hb : 1 < (2 : ℕ) := by norm_num
  have h1 := Int.zpow_log_le_self (R := ℚ) hb hq
  have h2 := Int.lt_zpow_succ_log_self (R := ℚ) hb q
  simp only [Nat.cast_ofNat] at h1 h2
  exact ⟨h1, h2⟩

/-- A positive rational with a significand below `2^24` is its own rounding. -/
theorem f32_round_pos_of_repr (n : ℕ) (z : ℤ) (hn : 0 < n) (hn24 : n < 2 ^ 24) :
    f32_round_pos ((n : ℚ) * (2 : ℚ) ^ z) = (n : ℚ) * (2 : ℚ) ^ z := by
  have h2 : (0 : ℚ) < 2 := by norm_num
  have hq : (0 : ℚ) < (n : ℚ) * (2 : ℚ) ^ z := by positivity
  obtain ⟨b1, b2⟩ := log2_bounds hq
  set e := Int.log 2 ((n : ℚ) * (2 : ℚ) ^ z) with he
  have hlt : (n : ℚ) * (2 : ℚ) ^ z < (2 : ℚ) ^ (z + 24) := by
    rw [zpow_add₀ (by norm_num : (2 : ℚ) ≠ 0), mul_comm ((2 : ℚ) ^ z)]
    have : (n : ℚ) < (2 : ℚ) ^ (24 : ℤ) := by
      have h0 : (n : ℚ) < ((2 ^ 24 : ℕ) : ℚ) := Nat.cast_lt.mpr hn24
      have h1 : (((2 ^ 24 : ℕ) : ℚ)) = (2 : ℚ) ^ (24 : ℤ) := by norm_num
      rwa [h1] at h0
    exact mul_lt_mul_of_pos_right this (by positivity)
  have hez : e < z + 24 := by
    have := lt_of_le_of_lt b1 hlt
    exact (zpow_lt_zpow_iff_right₀ (by norm_num : (1 : ℚ) < 2)).mp this
  obtain ⟨k, hk⟩ : ∃ k : ℕ, z = (e - 23) + k := ⟨(z - (e - 23)).toNat, by omega⟩
  unfold f32_round_pos
  simp only [← he]
  have hdiv : (n : ℚ) * (2 : ℚ) ^ z / (2 : ℚ) ^ (e - 23) = (((n : ℤ) * 2 ^ k : ℤ) : ℚ) := by
    rw [hk, zpow_add₀ (by norm_num : (2 : ℚ) ≠ 0)]
    field_simp
    ring
  rw [hdiv, round_half_even_intCast, hk, zpow_add₀ (by norm_num : (2 : ℚ) ≠ 0)]
  push_cast
  simp only [zpow_natCast]
  ring

theorem round_half_even_le {t : ℚ} {n : ℤ} (h : t ≤ (n : ℚ)) : round_half_even t ≤ n := by
  unfold round_half_even
  simp only
  by_cases hf : t - ⌊t⌋ < 1 / 2
  · rw [if_pos hf]
    exact_mod_cast (Int.floor_le t).trans h
  · rw [if_neg hf]
    have hpos : (⌊t⌋ : ℚ) < t := by linarith
    have hlt : (⌊t⌋ : ℚ) < n := lt_of_lt_of_le hpos h
    have : ⌊t⌋ < n := by exact_mod_cast hlt
    split_ifs <;> omega

/-- The rounding of a positive rational has a significand below `2^24`. -/
theorem f32_round_pos_repr {q : ℚ} (hq : 0 < q) :
    ∃ (n : ℕ) (z : ℤ), 0 < n ∧ n < 2 ^ 24 ∧ f32_round_pos q = (n : ℚ) * (2 : ℚ) ^ z := by
  obtain ⟨b1, b2⟩ := log2_bounds hq
  set e := Int.log 2 q with he
  have hu : (0 : ℚ) < (2 : ℚ) ^ (e - 23) := by positivity
  have t1 : ((8388608 : ℤ) : ℚ) ≤ q / (2 : ℚ) ^ (e - 23) := by
    rw [le_div_iff₀ hu]
    have : ((8388608 : ℤ) : ℚ) * (2 : ℚ) ^ (e - 23) = (2 : ℚ) ^ e := by
      rw [zpow_sub₀ (by norm_num : (2 : ℚ) ≠ 0)]; norm_num
      ring
    rw [this]; exact b1
  have t2 : q / (2 : ℚ) ^ (e - 23) ≤ ((16777216 : ℤ) : ℚ) := by
    rw [div_le_iff₀ hu]
    have : ((16777216 : ℤ) : ℚ) * (2 : ℚ) ^ (e - 23) = (2 : ℚ) ^ (e + 1) := by
      rw [zpow_sub₀ (by norm_num : (2 : ℚ) ≠ 0), zpow_add₀ (by norm_num : (2 : ℚ) ≠ 0)]; norm_num
      ring
    rw [this]; exact b2.le
  have r1 := round_half_even_ge t1
  have r2 := round_half_even_le t2
  have hval : f32_round_pos q =
      (round_half_even (q / (2 : ℚ) ^ (e - 23)) : ℚ) * (2 : ℚ) ^ (e - 23) := by
    unfold f32_round_pos; simp only [← he]
  set N := round_half_even (q / (2 : ℚ) ^ (e - 23)) with hN
  by_cases htop : N = 16777216
  · refine ⟨8388608, e - 22, by norm_num, by norm_num, ?_⟩
    rw [hval, htop]
    have : e - 22 = (e - 23) + 1 := by ring
    rw [this, zpow_add₀ (by norm_num : (2 : ℚ) ≠ 0)]
    norm_num
    ring
  · refine ⟨N.toNat, e - 23, by omega, by omega, ?_⟩
    rw [hval]
    have : ((N.toNat : ℕ) : ℚ) = (N : ℚ) := by
      have h0 : ((N.toNat : ℕ) : ℤ) = N := Int.toNat_of_nonneg (by omega)
      exact_mod_cast congrArg (fun z : ℤ => (z : ℚ)) h0
    rw [this]

theorem f32_round_of_repr (n : ℕ) (z : ℤ) (hn24 : n < 2 ^ 24) :
    f32_round ((n : ℚ) * (2 : ℚ) ^ z) = (n : ℚ) * (2 : ℚ) ^ z := by
  rcases Nat.eq_zero_or_pos n with h0 | hpos
  · subst h0; simp [f32_round]
  · have hq : (0 : ℚ) < (n : ℚ) * (2 : ℚ) ^ z := by positivity
    unfold f32_round
    rw [if_neg hq.ne', if_pos hq]
    exact f32_round_pos_of_repr n z hpos hn24

theorem f32_round_nonneg {q : ℚ} (hq : 0 ≤ q) : 0 ≤ f32_round q := by
  rcases hq.eq_or_lt with h0 | hpos
  · subst h0; simp [f32_round]
  · obtain ⟨n, z, _, _, h⟩ := f32_round_pos_repr hpos
    unfold f32_round
    rw [if_neg hpos.ne', if_pos hpos, h]
    positivity

theorem f32_round_repr {q : ℚ} (hq : 0 ≤ q) :
    ∃ (n : ℕ) (z : ℤ), n < 2 ^ 24 ∧ f32_round q = (n : ℚ) * (2 : ℚ) ^ z := by
  rcases hq.eq_or_lt with h0 | hpos
  · subst h0; exact ⟨0, 0, by norm_num, by simp [f32_round]⟩
  · obtain ⟨n, z, _, h24, h⟩ := f32_round_pos_repr hpos
    refine ⟨n, z, h24, ?_⟩
    unfold f32_round
    rw [if_neg hpos.ne', if_pos hpos, h]

/-- The fractional part of a non-negative float is a float. -/
theorem fract_repr (n : ℕ) (z : ℤ) (hn24 : n < 2 ^ 24) :
    ∃ (m : ℕ) (w : ℤ), m < 2 ^ 24 ∧
      (n : ℚ) * (2 : ℚ) ^ z - (⌊(n : ℚ) * (2 : ℚ) ^ z⌋ : ℚ) = (m : ℚ) * (2 : ℚ) ^ w := by
  rcases le_or_lt 0 z with hz | hz
  · obtain ⟨k, rfl⟩ : ∃ k : ℕ, z = k := ⟨z.toNat, by omega⟩
    refine ⟨0, 0, by norm_num, ?_⟩
    have : (n : ℚ) * (2 : ℚ) ^ (k : ℤ) = (((n * 2 ^ k : ℕ) : ℤ) : ℚ) := by
      push_cast; simp [zpow_natCast]
    rw [this, Int.floor_intCast]; simp
  · obtain ⟨k, rfl⟩ : ∃ k : ℕ, z = -(k : ℤ) := ⟨(-z).toNat, by omega⟩
    refine ⟨n % 2 ^ k, -(k : ℤ), lt_of_le_of_lt (Nat.mod_le _ _) hn24, ?_⟩
    have hx : (n : ℚ) * (2 : ℚ) ^ (-(k : ℤ)) = ((n : ℤ) : ℚ) / ((2 ^ k : ℕ) : ℚ) := by
      rw [zpow_neg, zpow_natCast]; push_cast; ring
    rw [hx, Rat.floor_intCast_div_natCast]
    have hdm : (n : ℤ) = (2 ^ k : ℤ) * ((n : ℤ) / (2 ^ k : ℤ)) + (n : ℤ) % (2 ^ k : ℤ) :=
      (Int.ediv_add_emod _ _).symm
    have hmod : (((n % 2 ^ k : ℕ) : ℤ)) = (n : ℤ) % (2 ^ k : ℤ) := by push_cast; rfl
    have hpow : ((2 : ℚ) ^ k) ≠ 0 := by positivity
    rw [zpow_neg, zpow_natCast]
    have e1 : ((n : ℤ) : ℚ) = (2 ^ k : ℚ) * (((n : ℤ) / (2 ^ k : ℤ) : ℤ) : ℚ)
        + (((n : ℤ) % (2 ^ k : ℤ) : ℤ) : ℚ) := by
      exact_mod_cast congrArg (fun t : ℤ => (t : ℚ)) hdm
    have e2 : (((n % 2 ^ k : ℕ)) : ℚ) = (((n : ℤ) % (2 ^ k : ℤ) : ℤ) : ℚ) := by
      rw [← hmod, Int.cast_natCast]
    rw [e2]
    push_cast
    push_cast at e1
    field_simp
    linarith

/-- For a non-negative float `x`, the subtraction `x - floorf(x)` is exact. -/
theorem f32_round_fract {q : ℚ} (hq : 0 ≤ q) :
    f32_round (f32_round q - (⌊f32_round q⌋ : ℚ)) = f32_round q - (⌊f32_round q⌋ : ℚ) := by
  obtain ⟨n, z, h24, h⟩ := f32_round_repr hq
  obtain ⟨m, w, hm, hmw⟩ := fract_repr n z h24
  rw [h, hmw]
  exact f32_round_of_repr m w hm


/-! ## Linear congruential generator -/

theorem to_uint_sum (h : Nat) (o s : Int) (c : Nat) :
    ((h + to_uint o) % 4294967296 + (to_uint s * c) % 4294967296) % 4294967296
      = to_uint ((h : Int) + o + s * (c : Int)) := by
  unfold to_uint
  have e1 : (s % 4294967296 * (c : Int)) % 4294967296 = (s * (c : Int)) % 4294967296 := by
    rw [Int.mul_emod, Int.emod_emod_of_dvd _ (dvd_refl _), ← Int.mul_emod]
  have hs : 0 ≤ s % 4294967296 := Int.emod_nonneg _ (by norm_num)
  have e2 : (((s % 4294967296).toNat * c : Nat) : Int) = s % 4294967296 * (c : Int) := by
    push_cast; rw [Int.toNat_of_nonneg hs]
  generalize hp : s * (c : Int) = p at e1 ⊢
  generalize hq : s % 4294967296 * (c : Int) = q at e1 e2
  generalize hn : (s % 4294967296).toNat * c = n at e2 ⊢
  omega

/-- C9: every LCG entry point applies the recurrence `s ↦ (1103515245 * s + 12345) mod 2^32`
to its 32-bit state: `lcg_step_uint` stores and returns the new state, `lcg_step_float`
and `lcg_step_float_addrspace` store the same new state, `lcg_init` is one step from the
seed, and `lcg_state_init` (and its address-space variant) is `lcg_init` of
`(rng_hash + rng_offset + sample * scramble) mod 2^32`. -/
theorem lcg_recurrence {T : KernelTypes} (rng seed scramble : Nat) (state : PathState T) :
    lcg_step_uint rng
        = ((1103515245 * rng + 12345) % 2 ^ 32, (1103515245 * rng + 12345) % 2 ^ 32)
    ∧ (lcg_step_float rng).1 = (1103515245 * rng + 12345) % 2 ^ 32
    ∧ (lcg_step_float_addrspace rng).1 = (1103515245 * rng + 12345) % 2 ^ 32
    ∧ lcg_init seed = (1103515245 * seed + 12345) % 2 ^ 32
    ∧ lcg_state_init state scramble
        = lcg_init (((state.rng_hash : Int) + state.rng_offset
            + state.sample * (scramble : Int)) % 2 ^ 32).toNat
    ∧ lcg_state_init_addrspace state scramble
        = lcg_init (((state.rng_hash : Int) + state.rng_offset
            + state.sample * (scramble : Int)) % 2 ^ 32).toNat := by
  refine ⟨rfl, rfl, rfl, rfl, ?_, ?_⟩
  · unfold lcg_state_init
    rw [to_uint_sum]; rfl
  · unfold lcg_state_init_addrspace
    rw [to_uint_sum]; rfl

/-! ## Path-level and branched wrappers -/

/-- C10: the path-level wrappers are the base draws at `(rng_hash, sample, num_samples,
rng_offset + dimension)` of the state, the branched wrappers are the base draws at
`(h, sample * n + branch, num_samples * n, rng_offset + dimension)`, and with
`h = state.rng_hash`, `branch = 0`, `n = 1` the branched draws equal the path-level
draws. -/
theorem path_wrappers_reindex {T : KernelTypes} (kg : KernelGlobals) (jt : Jitter)
    (state : PathState T) (h : Nat) (branch n d : Int) :
    path_state_rng_1D kg jt state d
        = path_rng_1D kg jt state.rng_hash state.sample state.num_samples (state.rng_offset + d)
    ∧ path_state_rng_2D kg jt state d
        = path_rng_2D kg jt state.rng_hash state.sample state.num_samples (state.rng_offset + d)
    ∧ path_branched_rng_1D kg jt h state branch n d
        = path_rng_1D kg jt h (state.sample * n + branch) (state.num_samples * n)
            (state.rng_offset + d)
    ∧ path_branched_rng_2D kg jt h state branch n d
        = path_rng_2D kg jt h (state.sample * n + branch) (state.num_samples * n)
            (state.rng_offset + d)
    ∧ path_branched_rng_1D kg jt state.rng_hash state 0 1 d = path_state_rng_1D kg jt state d
    ∧ path_branched_rng_2D kg jt state.rng_hash state 0 1 d = path_state_rng_2D kg jt state d := by
  refine ⟨rfl, rfl, rfl, rfl, ?_, ?_⟩
  · simp [path_branched_rng_1D, path_state_rng_1D]
  · simp [path_branched_rng_2D, path_state_rng_2D]

/-! ## Sobol direction table -/

theorem find_first_set_pos {i : Nat} (h : find_first_set i ≠ 0) :
    1 ≤ find_first_set i ∧ i % 4294967296 ≠ 0 := by
  unfold find_first_set at h ⊢
  split_ifs at h ⊢ with h0
  · exact absurd rfl h
  · exact ⟨by omega, h0⟩

/-- C4: at sample index `0` of dimension `0` the word `(0 + 64) mod 2^32` has the single
bit 6 set, and `sobol_dimension` returns table entry `7 = 32 * 0 + 6 + 1`, here `2`, not
entry `6 = 32 * 0 + 6`, here `1`. -/
theorem sobol_dimension_reads_next_entry :
    sobol_dimension_run sobol_scene 0 0 = some (sobol_scene.sample_pattern_lut 7)
    ∧ sobol_dimension sobol_scene 0 0 = 2
    ∧ sobol_scene.sample_pattern_lut (32 * 0 + 6) = 1 := by
  decide

/-! ## PMJ table lookup -/

theorem f32_round_zero : f32_round 0 = 0 := by simp [f32_round]

theorem f32_round_half : f32_round (1 / 2) = 1 / 2 := by
  have h := f32_round_of_repr 1 (-1) (by norm_num)
  have e : ((1 : ℕ) : ℚ) * (2 : ℚ) ^ (-1 : ℤ) = 1 / 2 := by norm_num
  rwa [e] at h

theorem uint_as_float_three_halves : uint_as_float 0x3FC00000 = 3 / 2 := by
  unfold uint_as_float
  norm_num

/-- With the PMJ pattern the value returned by `path_rng_1D` does not depend on
`cmj_randfloat`, at any sample index. -/
theorem pmj_ignores_cmj_randfloat (kg : KernelGlobals) (jt : Jitter) (f : Nat → Nat → f32)
    (rng_hash : Nat) (sample num_samples dimension : Int)
    (hp : kg.integrator.sampling_pattern = SAMPLING_PATTERN_PMJ) :
    path_rng_1D kg { jt with cmj_randfloat := f } rng_hash sample num_samples dimension
      = path_rng_1D kg jt rng_hash sample num_samples dimension := by
  unfold path_rng_1D
  simp only [if_pos hp, assign]
  rfl

/-- C3: with the PMJ pattern at sample index `5000 > 4096` (dimension `0`), whatever
`cmj_randfloat` returns, `path_rng_1D` returns the value decoded from table entry
`((0 mod 48) * 4096 + 5000) * 2 + 0 = 10000` (here `1.5f - 1.0f = 0.5`): the
hashed-random fallback value is overwritten by the table read. -/
theorem pmj_fallback_overwritten :
    ∀ f : Nat → Nat → f32,
      path_rng_1D pmj_scene { demo_jitter with cmj_randfloat := f } 0 5000 1 0 = 1 / 2 := by
  intro f
  have hidx : ((Int.tmod 0 NUM_PJ_PATTERNS) * NUM_PJ_SAMPLES + 5000) * 2 + (0 : Int) % 2
      = 10000 := by decide
  simp only [path_rng_1D, pmj_scene, demo_integrator, if_true, assign, hidx,
    uint_as_float_three_halves, fmul, mul_zero, f32_round_zero, fadd, add_zero, fsub, floorf]
  norm_num [f32_round_half, f32_round_zero]

/-! ## Parity classes -/

theorem count_from_add (p : Int → Bool) (a : Int) (n k : Nat) :
    count_from p a (n + k) = count_from p a n + count_from p (a + (n : Int)) k := by
  unfold count_from
  rw [List.range_add, List.countP_append, List.countP_map]
  congr 1
  apply congrArg (fun q => List.countP q (List.range k))
  funext t
  simp [Function.comp, add_assoc]

/-- Counting over `n` consecutive blocks of length `b`, each holding `c` hits. -/
theorem count_from_blocks (p : Int → Bool) (b c : Nat) (P : Int → Prop)
    (hP : ∀ a, P a → P (a + (b : Int))) (h : ∀ a, P a → count_from p a b = c) :
    ∀ (n : Nat) (a : Int), P a → count_from p a (n * b) = n * c := by
  intro n
  induction n with
  | zero => intro a _; simp [count_from]
  | succ n ih =>
    intro a ha
    have e : (n + 1) * b = b + n * b := by ring
    rw [e, count_from_add, h a ha, ih _ (hP a ha)]
    ring

theorem count_from_two (p : Int → Bool) (a : Int) :
    count_from p a 2 = (if p a then 1 else 0) + (if p (a + 1) then 1 else 0) := by
  simp [count_from, List.range_succ, List.countP_cons, List.countP_nil]
  ring

theorem count_from_four (p : Int → Bool) (a : Int) :
    count_from p a 4 = (if p a then 1 else 0) + (if p (a + 1) then 1 else 0)
      + (if p (a + 2) then 1 else 0) + (if p (a + 3) then 1 else 0) := by
  simp [count_from, List.range_succ, List.countP_cons, List.countP_nil]
  ring

theorem and_two_pow_ne_zero (u b : Nat) : decide (u &&& 2 ^ b ≠ 0) = u.testBit b := by
  rw [Nat.and_two_pow]
  cases h : u.testBit b <;> simp

theorem testBit_add_low (u t b : Nat) (hu : u % 4 = 0) (ht : t < 4) (hb : 2 ≤ b) :
    (u + t).testBit b = u.testBit b := by
  obtain ⟨c, rfl⟩ : ∃ c, b = 2 + c := ⟨b - 2, by omega⟩
  rw [Nat.testBit_to_div_mod, Nat.testBit_to_div_mod, pow_add]
  rw [← Nat.div_div_eq_div_mul, ← Nat.div_div_eq_div_mul]
  have : (u + t) / 2 ^ 2 = u / 2 ^ 2 := by norm_num; omega
  rw [this]
theorem to_uint_add_small (a : Int) (t : Nat) (ha : a % 4 = 0) (ht : t < 4) :
    to_uint (a + (t : Int)) = to_uint a + t ∧ to_uint a % 4 = 0 := by
  unfold to_uint
  omega

theorem testBit_one_low (u t : Nat) (hu : u % 4 = 0) (ht : t < 4) :
    (u + t).testBit 1 = decide (2 ≤ t) := by
  rw [Nat.testBit_to_div_mod]
  congr 1
  rw [eq_iff_iff]
  norm_num
  omega

/-- The PMJ class as the exclusive or of the odd-numbered bits of the sample word. -/
theorem sample_is_even_pmj_bits (s : Int) :
    sample_is_even SAMPLING_PATTERN_PMJ s
      = xor ((to_uint s).testBit 1) (xor ((to_uint s).testBit 3) (xor ((to_uint s).testBit 5)
        (xor ((to_uint s).testBit 7) (xor ((to_uint s).testBit 9) (xor ((to_uint s).testBit 11)
        (xor ((to_uint s).testBit 13) (xor ((to_uint s).testBit 15)
        (xor ((to_uint s).testBit 17) (xor ((to_uint s).testBit 19)
        (xor ((to_uint s).testBit 21) (xor ((to_uint s).testBit 23)
        (xor ((to_uint s).testBit 25) (xor ((to_uint s).testBit 27)
        (xor ((to_uint s).testBit 29) ((to_uint s).testBit 31))))))))))))))) := by
  have h1 := and_two_pow_ne_zero (to_uint s) 1
  have h3 := and_two_pow_ne_zero (to_uint s) 3
  have h5 := and_two_pow_ne_zero (to_uint s) 5
  have h7 := and_two_pow_ne_zero (to_uint s) 7
  have h9 := and_two_pow_ne_zero (to_uint s) 9
  have h11 := and_two_pow_ne_zero (to_uint s) 11
  have h13 := and_two_pow_ne_zero (to_uint s) 13
  have h15 := and_two_pow_ne_zero (to_uint s) 15
  have h17 := and_two_pow_ne_zero (to_uint s) 17
  have h19 := and_two_pow_ne_zero (to_uint s) 19
  have h21 := and_two_pow_ne_zero (to_uint s) 21
  have h23 := and_two_pow_ne_zero (to_uint s) 23
  have h25 := and_two_pow_ne_zero (to_uint s) 25
  have h27 := and_two_pow_ne_zero (to_uint s) 27
  have h29 := and_two_pow_ne_zero (to_uint s) 29
  have h31 := and_two_pow_ne_zero (to_uint s) 31
  norm_num only at h1 h3 h5 h7 h9 h11 h13 h15 h17 h19 h21 h23 h25 h27 h29 h31
  unfold sample_is_even bit_set
  rw [if_pos rfl]
  rw [h1, h3, h5, h7, h9, h11, h13, h15, h17, h19, h21, h23, h25, h27, h29, h31]
  simp only [Bool.xor_assoc]
/-- Within an aligned block of four sample indices the PMJ class of the first two is the
class of the block start and the class of the last two is its negation. -/
theorem sample_is_even_pmj_block (a : Int) (ha : a % 4 = 0) :
    sample_is_even SAMPLING_PATTERN_PMJ (a + 1) = sample_is_even SAMPLING_PATTERN_PMJ a
    ∧ sample_is_even SAMPLING_PATTERN_PMJ (a + 2) = !sample_is_even SAMPLING_PATTERN_PMJ a
    ∧ sample_is_even SAMPLING_PATTERN_PMJ (a + 3) = !sample_is_even SAMPLING_PATTERN_PMJ a := by
  have key : ∀ t : Nat, t < 4 → sample_is_even SAMPLING_PATTERN_PMJ (a + (t : Int))
      = xor (decide (2 ≤ t)) (sample_is_even SAMPLING_PATTERN_PMJ a) := by
    intro t ht
    obtain ⟨e, hu⟩ := to_uint_add_small a t ha ht
    have hlow0 : (to_uint a).testBit 1 = false := by
      have := testBit_one_low (to_uint a) 0 hu (by norm_num)
      simpa using this
    rw [sample_is_even_pmj_bits, sample_is_even_pmj_bits, e, testBit_one_low _ _ hu ht, hlow0]
    simp only [testBit_add_low _ _ _ hu ht (by norm_num : 2 ≤ 3),
      testBit_add_low _ _ _ hu ht (by norm_num : 2 ≤ 5),
      testBit_add_low _ _ _ hu ht (by norm_num : 2 ≤ 7),
      testBit_add_low _ _ _ hu ht (by norm_num : 2 ≤ 9),
      testBit_add_low _ _ _ hu ht (by norm_num : 2 ≤ 11),
      testBit_add_low _ _ _ hu ht (by norm_num : 2 ≤ 13),
      testBit_add_low _ _ _ hu ht (by norm_num : 2 ≤ 15),
      testBit_add_low _ _ _ hu ht (by norm_num : 2 ≤ 17),
      testBit_add_low _ _ _ hu ht (by norm_num : 2 ≤ 19),
      testBit_add_low _ _ _ hu ht (by norm_num : 2 ≤ 21),
      testBit_add_low _ _ _ hu ht (by norm_num : 2 ≤ 23),
      testBit_add_low _ _ _ hu ht (by norm_num : 2 ≤ 25),
      testBit_add_low _ _ _ hu ht (by norm_num : 2 ≤ 27),
      testBit_add_low _ _ _ hu ht (by norm_num : 2 ≤ 29),
      testBit_add_low _ _ _ hu ht (by norm_num : 2 ≤ 31), Bool.false_xor]
  have k1 := key 1 (by norm_num)
  have k2 := key 2 (by norm_num)
  have k3 := key 3 (by norm_num)
  norm_num at k1 k2 k3
  exact ⟨k1, k2, k3⟩

theorem count_pmj_block (a : Int) (ha : a % 4 = 0) :
    count_from (sample_is_even SAMPLING_PATTERN_PMJ) a 4 = 2 := by
  obtain ⟨h1, h2, h3⟩ := sample_is_even_pmj_block a ha
  rw [count_from_four, h1, h2, h3]
  cases sample_is_even SAMPLING_PATTERN_PMJ a <;> simp

theorem sample_is_even_low_bit (pattern : SamplingPattern) (hp : pattern ≠ SAMPLING_PATTERN_PMJ)
    (s : Int) : sample_is_even pattern s = decide (s % 2 = 1) := by
  unfold sample_is_even
  rw [if_neg hp]
  have h := and_two_pow_ne_zero (to_uint s) 0
  norm_num only at h
  rw [h, Nat.testBit_to_div_mod]
  congr 1
  rw [eq_iff_iff]
  unfold to_uint
  norm_num
  omega

theorem count_low_bit_pair (pattern : SamplingPattern) (hp : pattern ≠ SAMPLING_PATTERN_PMJ)
    (a : Int) : count_from (sample_is_even pattern) a 2 = 1 := by
  rw [count_from_two, sample_is_even_low_bit pattern hp, sample_is_even_low_bit pattern hp]
  rcases Int.emod_two_eq_zero_or_one a with h | h
  · have h' : (a + 1) % 2 = 1 := by omega
    simp [h, h']
  · have h' : (a + 1) % 2 = 0 := by omega
    simp [h, h']

/-- C2 (as amended): for every pattern, every `k ≥ 1` and every start index `a`,
`sample_is_even` is true for exactly `2^(k-1)` of the `2^k` consecutive sample indices
from `a`, provided that for the PMJ pattern `k ≥ 2` and `a` is a multiple of 4. -/
theorem sample_is_even_balanced (pattern : SamplingPattern) (k : Nat) (a : Int)
    (hk : 1 ≤ k)
    (hpmj : pattern = SAMPLING_PATTERN_PMJ → 2 ≤ k ∧ a % 4 = 0) :
    count_sample_is_even pattern a (2 ^ k) = 2 ^ (k - 1) := by
  unfold count_sample_is_even
  by_cases hp : pattern = SAMPLING_PATTERN_PMJ
  · obtain ⟨hk2, ha4⟩ := hpmj hp
    subst hp
    obtain ⟨m, rfl⟩ : ∃ m, k = m + 2 := ⟨k - 2, by omega⟩
    have e1 : 2 ^ (m + 2) = 2 ^ m * 4 := by ring
    have e2 : 2 ^ (m + 2 - 1) = 2 ^ m * 2 := by
      have : m + 2 - 1 = m + 1 := by omega
      rw [this]; ring
    rw [e1, e2]
    exact count_from_blocks _ 4 2 (fun a => a % 4 = 0) (fun a h => by omega)
      (fun a h => count_pmj_block a h) _ a ha4
  · obtain ⟨m, rfl⟩ : ∃ m, k = m + 1 := ⟨k - 1, by omega⟩
    have e1 : 2 ^ (m + 1) = 2 ^ m * 2 := by ring
    have e2 : 2 ^ (m + 1 - 1) = 2 ^ m * 1 := by simp
    rw [e1, e2]
    exact count_from_blocks _ 2 1 (fun _ => True) (fun _ _ => trivial)
      (fun a _ => count_low_bit_pair pattern hp a) _ a trivial

/-- C2 (witness): the PMJ classes of the four sample indices from 4 are balanced, and so
are the classes of the two Sobol sample indices from 3. -/
theorem sample_is_even_balanced_witness :
    count_sample_is_even SAMPLING_PATTERN_PMJ 4 (2 ^ 2) = 2 ^ (2 - 1)
    ∧ count_sample_is_even SAMPLING_PATTERN_SOBOL 3 (2 ^ 1) = 2 ^ (1 - 1) :=
  ⟨sample_is_even_balanced SAMPLING_PATTERN_PMJ 2 4 (by decide)
      (fun _ => ⟨by decide, by decide⟩),
   sample_is_even_balanced SAMPLING_PATTERN_SOBOL 1 3 (by decide)
      (fun h => by cases h)⟩

/-- C2 (counterexample): the claim fails for the PMJ pattern at `k = 1`, `a = 0`: neither
sample 0 nor sample 1 is in the class `true`, so 0 of the 2 indices are, not 1. -/
theorem sample_is_even_unbalanced_pmj :
    ¬ (∀ (pattern : SamplingPattern) (k : Nat) (a : Int), 1 ≤ k → 0 ≤ a →
        count_sample_is_even pattern a (2 ^ k) = 2 ^ (k - 1)) := by
  intro h
  have h0 := h SAMPLING_PATTERN_PMJ 1 0 (by decide) (by decide)
  revert h0
  decide

/-! ## Surface bounce -/

theorem fminf_eq_min (a b : f32) : fminf a b = min a b := by
  unfold fminf
  rcases lt_or_le a b with h | h
  · rw [if_pos h, min_eq_left h.le]
  · rw [if_neg (not_lt.mpr h), min_eq_right h]

/-- After a successful `kernel_branched_path_surface_bounce` the field `min_ray_pdf` is
`fminf(bsdf_pdf, FLT_MAX)`, whatever it held before. -/
theorem branched_bounce_min_ray_pdf {T : KernelTypes} (kg : KernelGlobals) (jt : Jitter)
    (K : SurfaceKernels T) (sd : ShaderData T) (sc : T.ShaderClosure)
    (sample num_samples : Int) (throughput : float3) (state : PathState T)
    (L_state : T.PathRadianceState) (ray : Ray) (sum_sample_weight : f32)
    (hok : (kernel_branched_path_surface_bounce kg jt K sd sc sample num_samples throughput
      state L_state ray sum_sample_weight).ok = true) :
    (kernel_branched_path_surface_bounce kg jt K sd sc sample num_samples throughput
      state L_state ray sum_sample_weight).state.min_ray_pdf
      = fminf (K.shader_bsdf_sample_closure kg sd sc
          (path_branched_rng_2D kg jt state.rng_hash state sample num_samples T.PRNG_BSDF_U).1
          (path_branched_rng_2D kg jt state.rng_hash state sample num_samples T.PRNG_BSDF_U).2
        ).bsdf_pdf FLT_MAX := by
  unfold kernel_branched_path_surface_bounce at hok ⊢
  simp only at hok ⊢
  split_ifs at hok ⊢ <;> rfl

/-- C6: a branched bounce from a state whose `min_ray_pdf` is `1`, with sampled
`bsdf_pdf = 2` and a non-zero evaluation, succeeds and leaves `min_ray_pdf = 2`: the field
is `fminf(bsdf_pdf, FLT_MAX)`, not the minimum with the previous value, and it has
increased across the bounce. -/
theorem branched_bounce_min_ray_pdf_increases :
    (kernel_branched_path_surface_bounce sobol_scene demo_jitter
        (demo_kernels 0 2 none false false) (demo_sd 1) () 0 1 ⟨1, 1, 1⟩ (demo_state 1) ()
        demo_ray 1).ok = true
    ∧ (kernel_branched_path_surface_bounce sobol_scene demo_jitter
        (demo_kernels 0 2 none false false) (demo_sd 1) () 0 1 ⟨1, 1, 1⟩ (demo_state 1) ()
        demo_ray 1).state.min_ray_pdf = 2
    ∧ (demo_state 1).min_ray_pdf = 1
    ∧ min (2 : f32) (demo_state 1).min_ray_pdf = 1 := by
  have hlt : (2 : ℚ) < FLT_MAX := by unfold FLT_MAX; norm_num
  refine ⟨?_, ?_, rfl, ?_⟩
  · simp [kernel_branched_path_surface_bounce, demo_kernels]
  · simp [kernel_branched_path_surface_bounce, demo_kernels, fminf, hlt]
  · simp [demo_state]

/-- C7: in `kernel_path_surface_bounce`, for a successful BSDF sample, the state handed to
`path_state_next` is `set_mis_state state label bsdf_pdf`.  When the label lacks
`LABEL_TRANSPARENT` its fields are `ray_pdf = bsdf_pdf` and
`min_ray_pdf = min(bsdf_pdf, previous min_ray_pdf)`, which is at most the previous value
and at most `bsdf_pdf`; when the label has `LABEL_TRANSPARENT` the state is the one
before, so neither field is written. -/
theorem bounce_mis_fields {T : KernelTypes} (kg : KernelGlobals) (jt : Jitter)
    (K : SurfaceKernels T) (sd : ShaderData T) (throughput : float3) (state : PathState T)
    (L_state : T.PathRadianceState) (ray : Ray) (bs : BsdfSampleResult T)
    (hbs : bs = K.shader_bsdf_sample kg sd (path_state_rng_2D kg jt state T.PRNG_BSDF_U).1
      (path_state_rng_2D kg jt state T.PRNG_BSDF_U).2)
    (hbsdf : sd.flag &&& T.SD_BSDF ≠ 0) (hpdf : bs.bsdf_pdf ≠ 0)
    (hz : K.bsdf_eval_is_zero bs.bsdf_eval = false) :
    (kernel_path_surface_bounce kg jt K sd throughput state L_state ray).state
      = (if bs.label &&& T.LABEL_TRANSMIT ≠ 0 then
          { K.path_state_next kg (set_mis_state state bs.label bs.bsdf_pdf) bs.label with
            volume_stack := K.kernel_volume_stack_enter_exit kg sd
              (K.path_state_next kg (set_mis_state state bs.label bs.bsdf_pdf)
                bs.label).volume_stack }
         else K.path_state_next kg (set_mis_state state bs.label bs.bsdf_pdf) bs.label)
    ∧ (bs.label &&& T.LABEL_TRANSPARENT = 0 →
        (set_mis_state state bs.label bs.bsdf_pdf).ray_pdf = bs.bsdf_pdf
        ∧ (set_mis_state state bs.label bs.bsdf_pdf).min_ray_pdf
            = min bs.bsdf_pdf state.min_ray_pdf
        ∧ (set_mis_state state bs.label bs.bsdf_pdf).min_ray_pdf ≤ state.min_ray_pdf
        ∧ (set_mis_state state bs.label bs.bsdf_pdf).min_ray_pdf ≤ bs.bsdf_pdf)
    ∧ (bs.label &&& T.LABEL_TRANSPARENT ≠ 0 →
        set_mis_state state bs.label bs.bsdf_pdf = state) := by
  refine ⟨?_, ?_, ?_⟩
  · unfold kernel_path_surface_bounce
    simp only [← hbs, if_pos hbsdf, hz, Bool.or_false, decide_eq_true_eq, if_neg hpdf]
  · intro ht
    have e : set_mis_state state bs.label bs.bsdf_pdf
        = { state with ray_pdf := bs.bsdf_pdf, ray_t := 0,
                       min_ray_pdf := fminf bs.bsdf_pdf state.min_ray_pdf } := by
      unfold set_mis_state
      rw [if_pos (by simpa using ht)]
    rw [e, fminf_eq_min]
    exact ⟨rfl, rfl, min_le_right _ _, min_le_left _ _⟩
  · intro ht
    unfold set_mis_state
    rw [if_neg (by simpa using ht)]

/-- C7 (witness): an unbranched bounce with label `0`, `bsdf_pdf = 2` from a state whose
`min_ray_pdf` is `1`. -/
theorem bounce_mis_fields_witness :
    (set_mis_state (demo_state 1) 0 2).ray_pdf = 2
    ∧ (set_mis_state (demo_state 1) 0 2).min_ray_pdf = min 2 (demo_state 1).min_ray_pdf
    ∧ (set_mis_state (demo_state 1) 0 2).min_ray_pdf ≤ (demo_state 1).min_ray_pdf
    ∧ (set_mis_state (demo_state 1) 0 2).min_ray_pdf ≤ 2 :=
  (bounce_mis_fields sobol_scene demo_jitter (demo_kernels 0 2 none false false) (demo_sd 1)
    ⟨1, 1, 1⟩ (demo_state 1) () demo_ray
    ⟨0, 1, ⟨0, 0, 1⟩, ⟨⟨0, 0, 0⟩, ⟨0, 0, 0⟩⟩, 2⟩ rfl (by decide) (by norm_num) rfl).2.1
    (by decide)
/-- C8: `kernel_path_surface_bounce` returns `false` and leaves the throughput, the path
state, the radiance state and the ray as they were when (a) the hit has neither `SD_BSDF`
nor `SD_HAS_ONLY_VOLUME`, or (b) it has `SD_BSDF` and the sampled `bsdf_pdf` is `0` or the
sampled evaluation is zero; `kernel_branched_path_surface_bounce` does the same in case
(b); and in the BSDF branch each of them returns `true` exactly when `bsdf_pdf ≠ 0` and the
evaluation is not zero. -/
theorem bounce_failure_frame {T : KernelTypes} (kg : KernelGlobals) (jt : Jitter)
    (K : SurfaceKernels T) (sd : ShaderData T) (sc : T.ShaderClosure)
    (sample num_samples : Int) (throughput : float3) (state : PathState T)
    (L_state : T.PathRadianceState) (ray : Ray) (sum_sample_weight : f32)
    (bs bsc : BsdfSampleResult T)
    (hbs : bs = K.shader_bsdf_sample kg sd (path_state_rng_2D kg jt state T.PRNG_BSDF_U).1
      (path_state_rng_2D kg jt state T.PRNG_BSDF_U).2)
    (hbsc : bsc = K.shader_bsdf_sample_closure kg sd sc
      (path_branched_rng_2D kg jt state.rng_hash state sample num_samples T.PRNG_BSDF_U).1
      (path_branched_rng_2D kg jt state.rng_hash state sample num_samples T.PRNG_BSDF_U).2) :
    (sd.flag &&& T.SD_BSDF = 0 → sd.flag &&& T.SD_HAS_ONLY_VOLUME = 0 →
      kernel_path_surface_bounce kg jt K sd throughput state L_state ray
        = ⟨false, throughput, state, L_state, ray⟩)
    ∧ (sd.flag &&& T.SD_BSDF ≠ 0 →
        (bs.bsdf_pdf = 0 ∨ K.bsdf_eval_is_zero bs.bsdf_eval = true) →
        kernel_path_surface_bounce kg jt K sd throughput state L_state ray
          = ⟨false, throughput, state, L_state, ray⟩)
    ∧ ((bsc.bsdf_pdf = 0 ∨ K.bsdf_eval_is_zero bsc.bsdf_eval = true) →
        kernel_branched_path_surface_bounce kg jt K sd sc sample num_samples throughput state
          L_state ray sum_sample_weight = ⟨false, throughput, state, L_state, ray⟩)
    ∧ (sd.flag &&& T.SD_BSDF ≠ 0 →
        ((kernel_path_surface_bounce kg jt K sd throughput state L_state ray).ok = true
          ↔ bs.bsdf_pdf ≠ 0 ∧ K.bsdf_eval_is_zero bs.bsdf_eval = false))
    ∧ ((kernel_branched_path_surface_bounce kg jt K sd sc sample num_samples throughput state
          L_state ray sum_sample_weight).ok = true
          ↔ bsc.bsdf_pdf ≠ 0 ∧ K.bsdf_eval_is_zero bsc.bsdf_eval = false) := by
  refine ⟨?_, ?_, ?_, ?_, ?_⟩
  · intro h1 h2
    unfold kernel_path_surface_bounce
    rw [if_neg (by simpa using h1), if_neg (by simpa using h2)]
  · intro h1 h2
    unfold kernel_path_surface_bounce
    simp only [← hbs, if_pos h1]
    rw [if_pos (by simpa using h2)]
  · intro h2
    unfold kernel_branched_path_surface_bounce
    simp only [← hbsc]
    rw [if_pos (by simpa using h2)]
  · intro h1
    unfold kernel_path_surface_bounce
    simp only [← hbs, if_pos h1]
    by_cases h2 : (decide (bs.bsdf_pdf = 0) || K.bsdf_eval_is_zero bs.bsdf_eval) = true
    · rw [if_pos h2]
      simp only [Bool.or_eq_true, decide_eq_true_eq] at h2
      constructor
      · intro h; exact absurd h (by simp)
      · rintro ⟨a, b⟩
        rcases h2 with h2 | h2
        · exact absurd h2 a
        · rw [b] at h2; exact absurd h2 (by simp)
    · rw [if_neg h2]
      simp only [Bool.or_eq_true, decide_eq_true_eq, not_or, Bool.not_eq_true] at h2
      exact ⟨fun _ => h2, fun _ => rfl⟩
  · unfold kernel_branched_path_surface_bounce
    simp only [← hbsc]
    by_cases h2 : (decide (bsc.bsdf_pdf = 0) || K.bsdf_eval_is_zero bsc.bsdf_eval) = true
    · rw [if_pos h2]
      simp only [Bool.or_eq_true, decide_eq_true_eq] at h2
      constructor
      · intro h; exact absurd h (by simp)
      · rintro ⟨a, b⟩
        rcases h2 with h2 | h2
        · exact absurd h2 a
        · rw [b] at h2; exact absurd h2 (by simp)
    · rw [if_neg h2]
      simp only [Bool.or_eq_true, decide_eq_true_eq, not_or, Bool.not_eq_true] at h2
      exact ⟨fun _ => h2, fun _ => rfl⟩

/-- C8 (witness): a hit with `SD_BSDF` whose sampled pdf is `0` ends both bounce kernels
with everything unchanged, a hit without `SD_BSDF` and without `SD_HAS_ONLY_VOLUME` ends
the unbranched kernel, and a sample with pdf `0` does not return `true`. -/
theorem bounce_failure_frame_witness :
    kernel_path_surface_bounce sobol_scene demo_jitter (demo_kernels 0 0 none false false)
        (demo_sd 2) ⟨1, 1, 1⟩ (demo_state 1) () demo_ray
      = ⟨false, ⟨1, 1, 1⟩, demo_state 1, (), demo_ray⟩
    ∧ kernel_path_surface_bounce sobol_scene demo_jitter (demo_kernels 0 0 none false false)
        (demo_sd 1) ⟨1, 1, 1⟩ (demo_state 1) () demo_ray
      = ⟨false, ⟨1, 1, 1⟩, demo_state 1, (), demo_ray⟩
    ∧ kernel_branched_path_surface_bounce sobol_scene demo_jitter
        (demo_kernels 0 0 none false false) (demo_sd 1) () 0 1 ⟨1, 1, 1⟩ (demo_state 1) ()
        demo_ray 1
      = ⟨false, ⟨1, 1, 1⟩, demo_state 1, (), demo_ray⟩ :=
  have h2 := bounce_failure_frame sobol_scene demo_jitter (demo_kernels 0 0 none false false)
    (demo_sd 2) () 0 1 ⟨1, 1, 1⟩ (demo_state 1) () demo_ray 1 _ _ rfl rfl
  have h1 := bounce_failure_frame sobol_scene demo_jitter (demo_kernels 0 0 none false false)
    (demo_sd 1) () 0 1 ⟨1, 1, 1⟩ (demo_state 1) () demo_ray 1 _ _ rfl rfl
  ⟨h2.1 (by decide) (by decide), h1.2.1 (by decide) (Or.inl rfl), h1.2.2.1 (Or.inl rfl)⟩

/-! ## Light connection -/

theorem log2_eq {q : ℚ} {e : ℤ} (hq : 0 < q) (h1 : (2 : ℚ) ^ e ≤ q)
    (h2 : q < (2 : ℚ) ^ (e + 1)) : Int.log 2 q = e := by
  have hb : 1 < (2 : ℕ) := by norm_num
  have a1 : e ≤ Int.log 2 q := by
    rw [← Int.zpow_le_iff_le_log hb hq]; simpa using h1
  have a2 : Int.log 2 q < e + 1 := by
    rw [← Int.lt_zpow_iff_log_lt hb hq]; simpa using h2
  omega

theorem f32_round_neg (q : ℚ) : f32_round (-q) = -f32_round q := by
  unfold f32_round
  rcases lt_trichotomy q 0 with h | h | h
  · have h1 : ¬ (-q = 0) := by intro e; linarith
    have h2 : (0 : ℚ) < -q := by linarith
    have h3 : ¬ (q = 0) := h.ne
    have h4 : ¬ (0 < q) := by linarith
    rw [if_neg h1, if_pos h2, if_neg h3, if_neg h4, neg_neg]
  · subst h; simp
  · have h1 : ¬ (-q = 0) := by intro e; linarith
    have h2 : ¬ ((0 : ℚ) < -q) := by linarith
    rw [if_neg h1, if_neg h2, if_neg h.ne', if_pos h, neg_neg]

/-- The float nearest to `1 - 2^-30` is `1`. -/
theorem f32_round_below_one : f32_round (1 - 1 / 1073741824) = 1 := by
  have hq : (0 : ℚ) < 1 - 1 / 1073741824 := by norm_num
  have hlog : Int.log 2 ((1 : ℚ) - 1 / 1073741824) = -1 :=
    log2_eq hq (by norm_num) (by norm_num)
  have hfloor : ⌊((1 : ℚ) - 1 / 1073741824) / (2 : ℚ) ^ (-1 - 23 : ℤ)⌋ = 16777215 := by
    rw [Int.floor_eq_iff]
    constructor <;> norm_num
  unfold f32_round
  rw [if_neg hq.ne', if_pos hq]
  unfold f32_round_pos round_half_even
  simp only [hlog, hfloor]
  norm_num

/-- C1 (counterexample): Sobol pattern, scrambling distance `1`, an all-zero direction
table and a dither entry `-2^-30`: the base value is `0`, `x = -2^-30`, `floorf(x) = -1`,
and `x - floorf(x)` rounds to `1.0f`, so `path_rng_1D` returns exactly `1`. -/
theorem path_rng_1D_returns_one :
    dither_scene.integrator.sampling_pattern = SAMPLING_PATTERN_SOBOL
    ∧ 0 ≤ dither_scene.integrator.scrambling_distance
    ∧ path_rng_1D dither_scene demo_jitter 0 0 1 0 = 1
    ∧ ¬ (path_rng_1D dither_scene demo_jitter 0 0 1 0 < 1) := by
  have hsob : sobol_dimension dither_scene 0 0 = 0 := by decide
  have hneg : f32_round (-(1 / 1073741824)) = -(1 / 1073741824) := by
    rw [f32_round_neg]
    have h := f32_round_of_repr 1 (-30) (by norm_num)
    have e : ((1 : ℕ) : ℚ) * (2 : ℚ) ^ (-30 : ℤ) = 1 / 1073741824 := by norm_num
    rw [e] at h; rw [h]
  have hfl : ⌊(-(1 / 1073741824) : ℚ)⌋ = -1 := by
    rw [Int.floor_eq_iff]; constructor <;> norm_num
  have hval : path_rng_1D dither_scene demo_jitter 0 0 1 0 = 1 := by
    have hshift : path_rng_shift dither_scene demo_jitter 0 0 = -(1 / 1073741824) := by
      simp [path_rng_shift, dither_scene, demo_integrator]
    unfold path_rng_1D
    rw [if_neg (by decide), if_neg (by decide)]
    simp only [hsob, hshift, uint_to_float, fmul, fadd, fsub, floorf, Nat.cast_zero, zero_mul,
      f32_round_zero, zero_add]
    have hsd : dither_scene.integrator.scrambling_distance = 1 := rfl
    rw [hsd, mul_one, hneg, hneg, hfl]
    have e : (-(1 / 1073741824) : ℚ) - ((-1 : ℤ) : ℚ) = 1 - 1 / 1073741824 := by
      push_cast; ring
    rw [e, f32_round_below_one]
  refine ⟨rfl, by decide, hval, ?_⟩
  rw [hval]; norm_num
theorem fmul_nonneg {a b : f32} (ha : 0 ≤ a) (hb : 0 ≤ b) : 0 ≤ fmul a b :=
  f32_round_nonneg (mul_nonneg ha hb)

theorem uint_to_float_nonneg (u : Nat) : 0 ≤ uint_to_float u :=
  f32_round_nonneg (Nat.cast_nonneg u)

theorem INV_UINT_MAX_nonneg : 0 ≤ INV_UINT_MAX :=
  f32_round_nonneg (div_nonneg zero_le_one (uint_to_float_nonneg _))

/-- For a non-negative exact sum, `x - floorf(x)` of the rounded sum `x` is computed
without rounding error and lies in `[0, 1)`. -/
theorem fract_of_fadd {a b : f32} (h : 0 ≤ a + b) :
    fsub (fadd a b) (floorf (fadd a b)) = fadd a b - (⌊fadd a b⌋ : ℚ)
    ∧ 0 ≤ fsub (fadd a b) (floorf (fadd a b))
    ∧ fsub (fadd a b) (floorf (fadd a b)) < 1 := by
  have e : fsub (fadd a b) (floorf (fadd a b)) = fadd a b - (⌊fadd a b⌋ : ℚ) := by
    unfold fsub floorf fadd
    exact f32_round_fract h
  refine ⟨e, ?_, ?_⟩
  · rw [e]; exact Int.fract_nonneg _
  · rw [e]; exact Int.fract_lt_one _

theorem path_rng_shift_nonneg (kg : KernelGlobals) (jt : Jitter) (rng_hash : Nat)
    (dimension : Int)
    (hdither : 0 < kg.integrator.dither_size →
      ∀ i, 0 ≤ (kg.sobol_dither i).1 ∧ 0 ≤ (kg.sobol_dither i).2) :
    0 ≤ path_rng_shift kg jt rng_hash dimension := by
  unfold path_rng_shift
  by_cases hd : kg.integrator.dither_size > 0
  · rw [if_pos hd]
    simp only
    split_ifs
    · exact (hdither hd _).2
    · exact (hdither hd _).1
  · rw [if_neg hd]
    exact fmul_nonneg (uint_to_float_nonneg _) INV_UINT_MAX_nonneg

/-- The value `x` of which `path_rng_1D` returns `x - floorf(x)`: base value plus scaled
shift, for the Sobol and the PMJ pattern. -/
theorem path_rng_1D_eq (kg : KernelGlobals) (jt : Jitter) (rng_hash : Nat)
    (sample num_samples dimension : Int)
    (hpat : kg.integrator.sampling_pattern ≠ SAMPLING_PATTERN_CMJ) :
    ∃ base : f32,
      (base = (if kg.integrator.sampling_pattern = SAMPLING_PATTERN_PMJ then
          fsub (uint_as_float (kg.sample_pattern_lut
            (((Int.tmod dimension NUM_PJ_PATTERNS) * NUM_PJ_SAMPLES + sample) * 2
              + dimension % 2))) 1
        else fmul (uint_to_float (sobol_dimension kg sample dimension)) INV_UINT_MAX))
      ∧ path_rng_1D kg jt rng_hash sample num_samples dimension
        = fsub (fadd base (fmul (path_rng_shift kg jt rng_hash dimension)
              kg.integrator.scrambling_distance))
            (floorf (fadd base (fmul (path_rng_shift kg jt rng_hash dimension)
              kg.integrator.scrambling_distance))) := by
  refine ⟨_, rfl, ?_⟩
  unfold path_rng_1D
  by_cases hp : kg.integrator.sampling_pattern = SAMPLING_PATTERN_PMJ
  · simp only [if_pos hp, assign]
  · simp only [if_neg hp, if_neg hpat]

/-- C1 (as amended): for the Sobol and PMJ generators with `scrambling_distance ≥ 0`,
`path_rng_1D` returns `x - floorf(x)` for `x = base value + shift * scrambling_distance`
(single-precision operations).  When the entries of a configured dither matrix are
non-negative and, for PMJ, the table words decode to floats `≥ 1` (so that shift and base
value are non-negative), the subtraction is exact and the returned value `v` satisfies
`0 ≤ v < 1` for every `rng_hash`, sample index and dimension; both components of
`path_rng_2D` satisfy the same bound. -/
theorem path_rng_range (kg : KernelGlobals) (jt : Jitter) (rng_hash : Nat)
    (sample num_samples dimension : Int)
    (hpat : kg.integrator.sampling_pattern ≠ SAMPLING_PATTERN_CMJ)
    (hsd : 0 ≤ kg.integrator.scrambling_distance)
    (hdither : 0 < kg.integrator.dither_size →
      ∀ i, 0 ≤ (kg.sobol_dither i).1 ∧ 0 ≤ (kg.sobol_dither i).2)
    (hlut : kg.integrator.sampling_pattern = SAMPLING_PATTERN_PMJ →
      ∀ i, 1 ≤ uint_as_float (kg.sample_pattern_lut i)) :
    (∃ x : f32, 0 ≤ x
        ∧ path_rng_1D kg jt rng_hash sample num_samples dimension = fsub x (floorf x)
        ∧ fsub x (floorf x) = x - (⌊x⌋ : ℚ))
    ∧ 0 ≤ path_rng_1D kg jt rng_hash sample num_samples dimension
    ∧ path_rng_1D kg jt rng_hash sample num_samples dimension < 1
    ∧ 0 ≤ (path_rng_2D kg jt rng_hash sample num_samples dimension).1
    ∧ (path_rng_2D kg jt rng_hash sample num_samples dimension).1 < 1
    ∧ 0 ≤ (path_rng_2D kg jt rng_hash sample num_samples dimension).2
    ∧ (path_rng_2D kg jt rng_hash sample num_samples dimension).2 < 1 := by
  have key : ∀ d : Int, ∃ x : f32, 0 ≤ x
      ∧ path_rng_1D kg jt rng_hash sample num_samples d = fsub x (floorf x)
      ∧ fsub x (floorf x) = x - (⌊x⌋ : ℚ)
      ∧ 0 ≤ fsub x (floorf x) ∧ fsub x (floorf x) < 1 := by
    intro d
    obtain ⟨base, hbase, hval⟩ := path_rng_1D_eq kg jt rng_hash sample num_samples d hpat
    have hb : 0 ≤ base := by
      rw [hbase]
      split_ifs with hp
      · have h1 := hlut hp (((Int.tmod d NUM_PJ_PATTERNS) * NUM_PJ_SAMPLES + sample) * 2 + d % 2)
        exact f32_round_nonneg (by linarith)
      · exact fmul_nonneg (uint_to_float_nonneg _) INV_UINT_MAX_nonneg
    have hs : 0 ≤ fmul (path_rng_shift kg jt rng_hash d) kg.integrator.scrambling_distance :=
      fmul_nonneg (path_rng_shift_nonneg kg jt rng_hash d hdither) hsd
    obtain ⟨e1, e2, e3⟩ := fract_of_fadd (add_nonneg hb hs)
    exact ⟨_, f32_round_nonneg (add_nonneg hb hs), hval, e1, e2, e3⟩
  have h2D : path_rng_2D kg jt rng_hash sample num_samples dimension
      = (path_rng_1D kg jt rng_hash sample num_samples dimension,
         path_rng_1D kg jt rng_hash sample num_samples (dimension + 1)) := by
    unfold path_rng_2D
    by_cases hp : kg.integrator.sampling_pattern = SAMPLING_PATTERN_PMJ
    · rw [if_pos hp]
    · rw [if_neg hp, if_neg hpat]
  obtain ⟨x, hx, e, ex, p1, p2⟩ := key dimension
  obtain ⟨y, _, e', _, q1, q2⟩ := key (dimension + 1)
  rw [h2D]
  refine ⟨⟨x, hx, e, ex⟩, ?_, ?_, ?_, ?_, ?_, ?_⟩
  · rw [e]; exact p1
  · rw [e]; exact p2
  · rw [e]; exact p1
  · rw [e]; exact p2
  · show 0 ≤ path_rng_1D kg jt rng_hash sample num_samples (dimension + 1)
    rw [e']; exact q1
  · show path_rng_1D kg jt rng_hash sample num_samples (dimension + 1) < 1
    rw [e']; exact q2

/-- C1 (witness): the Sobol scene without dithering, at sample 0 of dimension 0. -/
theorem path_rng_range_witness :
    0 ≤ path_rng_1D sobol_scene demo_jitter 0 0 1 0
    ∧ path_rng_1D sobol_scene demo_jitter 0 0 1 0 < 1 :=
  have h := path_rng_range sobol_scene demo_jitter 0 0 1 0 (by decide) (by decide)
    (fun h => absurd h (by decide)) (fun h => absurd h (by decide))
  ⟨h.2.1, h.2.2.1⟩

/-! ## Branch re-indexing -/

/-- C11: the branched draws are the base draws at the combined sample index
`sample * num_branches + branch`.  For `num_branches ≥ 1` the map
`(sample, branch) ↦ sample * num_branches + branch` is injective on pairs with
`0 ≤ branch < num_branches`, maps every `0 ≤ sample < num_samples` into
`[0, num_samples * num_branches)`, and the indices of one sample are exactly the block
`[sample * num_branches, (sample + 1) * num_branches)`, so blocks of different samples
are disjoint. -/
theorem branched_sample_blocks {T : KernelTypes} (kg : KernelGlobals) (jt : Jitter)
    (h : Nat) (state : PathState T) (d n : Int) (hn : 1 ≤ n) :
    (∀ b, path_branched_rng_2D kg jt h state b n d
        = path_rng_2D kg jt h (branched_sample state.sample n b) (state.num_samples * n)
            (state.rng_offset + d))
    ∧ (∀ b, path_branched_rng_1D kg jt h state b n d
        = path_rng_1D kg jt h (branched_sample state.sample n b) (state.num_samples * n)
            (state.rng_offset + d))
    ∧ (∀ s1 b1 s2 b2 : Int, 0 ≤ b1 → b1 < n → 0 ≤ b2 → b2 < n →
        branched_sample s1 n b1 = branched_sample s2 n b2 → s1 = s2 ∧ b1 = b2)
    ∧ (∀ N s b : Int, 0 ≤ s → s < N → 0 ≤ b → b < n →
        0 ≤ branched_sample s n b ∧ branched_sample s n b < N * n)
    ∧ (∀ s b : Int, 0 ≤ b → b < n →
        s * n ≤ branched_sample s n b ∧ branched_sample s n b < (s + 1) * n)
    ∧ (∀ s t : Int, s * n ≤ t → t < (s + 1) * n →
        ∃ b, 0 ≤ b ∧ b < n ∧ branched_sample s n b = t)
    ∧ (∀ s1 b1 s2 b2 : Int, 0 ≤ b1 → b1 < n → 0 ≤ b2 → b2 < n → s1 ≠ s2 →
        branched_sample s1 n b1 ≠ branched_sample s2 n b2) := by
  have inj : ∀ s1 b1 s2 b2 : Int, 0 ≤ b1 → b1 < n → 0 ≤ b2 → b2 < n →
      branched_sample s1 n b1 = branched_sample s2 n b2 → s1 = s2 ∧ b1 = b2 := by
    intro s1 b1 s2 b2 h1 h1' h2 h2' e
    unfold branched_sample at e
    have hs : s1 = s2 := by
      rcases lt_trichotomy s1 s2 with hlt | heq | hgt
      · have : (s1 + 1) * n ≤ s2 * n := Int.mul_le_mul_of_nonneg_right (by omega) (by omega)
        nlinarith
      · exact heq
      · have : (s2 + 1) * n ≤ s1 * n := Int.mul_le_mul_of_nonneg_right (by omega) (by omega)
        nlinarith
    subst hs
    exact ⟨rfl, by linarith⟩
  refine ⟨fun _ => rfl, fun _ => rfl, inj, ?_, ?_, ?_, ?_⟩
  · intro N s b hs hsN hb hbn
    unfold branched_sample
    have h1 : 0 ≤ s * n := Int.mul_nonneg hs (by omega)
    have h2 : (s + 1) * n ≤ N * n := Int.mul_le_mul_of_nonneg_right (by omega) (by omega)
    constructor
    · omega
    · nlinarith
  · intro s b hb hbn
    unfold branched_sample
    constructor
    · omega
    · nlinarith
  · intro s t h1 h2
    refine ⟨t - s * n, by omega, by nlinarith, ?_⟩
    unfold branched_sample
    ring
  · intro s1 b1 s2 b2 h1 h1' h2 h2' hne e
    exact hne (inj s1 b1 s2 b2 h1 h1' h2 h2' e).1

/-- C11 (witness): two branches per sample, branch 1 of sample 3 of 4: the combined index
lies in `[0, 4 * 2)` and in the block `[3 * 2, (3 + 1) * 2)`. -/
theorem branched_sample_blocks_witness :
    (0 ≤ branched_sample 3 2 1 ∧ branched_sample 3 2 1 < 4 * 2)
    ∧ (3 * 2 ≤ branched_sample 3 2 1 ∧ branched_sample 3 2 1 < (3 + 1) * 2) :=
  have h := branched_sample_blocks sobol_scene demo_jitter 0 (demo_state 1) 0 2 (by decide)
  ⟨h.2.2.2.1 4 3 1 (by decide) (by decide) (by decide) (by decide),
   h.2.2.2.2.1 3 1 (by decide) (by decide)⟩

/-! ## Correlated multi-jitter key -/

theorem to_int_mod (u v : Nat) (h : u % 4294967296 = v % 4294967296) : to_int u = to_int v := by
  unfold to_int
  rw [h]

theorem cmj_key_mod (h : Nat) (d : Int) :
    (h + to_uint d) % 4294967296 = to_uint ((h : Int) + d) % 4294967296 := by
  unfold to_uint
  omega

/-- C13: with the correlated-multi-jitter pattern `path_rng_1D` and `path_rng_2D` are
`cmj_sample_1D` and `cmj_sample_2D` at `(sample, num_samples, p)` for the key
`p = (rng_hash + dimension) mod 2^32` (as an `int`), so two streams and dimensions with
the same key and equal `sample`, `num_samples` give identical results; in particular
stream `h` at dimension `d + 1` reproduces stream `h + 1` at dimension `d`. -/
theorem cmj_key_only (kg : KernelGlobals) (jt : Jitter) (h1 h2 : Nat)
    (sample num_samples d1 d2 : Int)
    (hp : kg.integrator.sampling_pattern = SAMPLING_PATTERN_CMJ)
    (hkey : ((h1 : Int) + d1) % 2 ^ 32 = ((h2 : Int) + d2) % 2 ^ 32) :
    path_rng_1D kg jt h1 sample num_samples d1
        = jt.cmj_sample_1D sample num_samples (to_int (to_uint ((h1 : Int) + d1)))
    ∧ path_rng_2D kg jt h1 sample num_samples d1
        = jt.cmj_sample_2D sample num_samples (to_int (to_uint ((h1 : Int) + d1)))
    ∧ path_rng_1D kg jt h1 sample num_samples d1 = path_rng_1D kg jt h2 sample num_samples d2
    ∧ path_rng_2D kg jt h1 sample num_samples d1 = path_rng_2D kg jt h2 sample num_samples d2
    ∧ path_rng_1D kg jt h1 sample num_samples (d1 + 1)
        = path_rng_1D kg jt (h1 + 1) sample num_samples d1
    ∧ path_rng_2D kg jt h1 sample num_samples (d1 + 1)
        = path_rng_2D kg jt (h1 + 1) sample num_samples d1 := by
  have hne : ¬ (kg.integrator.sampling_pattern = SAMPLING_PATTERN_PMJ) := by
    rw [hp]; decide
  have e1 : ∀ (h : Nat) (d : Int), path_rng_1D kg jt h sample num_samples d
      = jt.cmj_sample_1D sample num_samples (to_int (to_uint ((h : Int) + d))) := by
    intro h d
    unfold path_rng_1D
    simp only [if_neg hne, if_pos hp]
    rw [to_int_mod _ _ (cmj_key_mod h d)]
  have e2 : ∀ (h : Nat) (d : Int), path_rng_2D kg jt h sample num_samples d
      = jt.cmj_sample_2D sample num_samples (to_int (to_uint ((h : Int) + d))) := by
    intro h d
    unfold path_rng_2D
    simp only [if_neg hne, if_pos hp]
    rw [to_int_mod _ _ (cmj_key_mod h d)]
  have k : to_uint ((h1 : Int) + d1) = to_uint ((h2 : Int) + d2) := by
    unfold to_uint
    have : ((2 : Int) ^ 32) = 4294967296 := by norm_num
    rw [this] at hkey
    rw [hkey]
  have k' : to_uint ((h1 : Int) + (d1 + 1)) = to_uint (((h1 + 1 : Nat) : Int) + d1) := by
    congr 1
    push_cast
    ring
  refine ⟨e1 h1 d1, e2 h1 d1, ?_, ?_, ?_, ?_⟩
  · rw [e1, e1, k]
  · rw [e2, e2, k]
  · rw [e1, e1, k']
  · rw [e2, e2, k']

/-- C13 (witness): streams 5 and 3 at dimensions 2 and 4 share the key 7. -/
theorem cmj_key_only_witness :
    path_rng_1D { sobol_scene with integrator := demo_integrator SAMPLING_PATTERN_CMJ }
        demo_jitter 5 0 1 2
      = path_rng_1D { sobol_scene with integrator := demo_integrator SAMPLING_PATTERN_CMJ }
        demo_jitter 3 0 1 4 :=
  (cmj_key_only { sobol_scene with integrator := demo_integrator SAMPLING_PATTERN_CMJ }
    demo_jitter 5 3 0 1 2 4 rfl (by decide)).2.2.1

/-! ## Scrambling distance zero -/

/-- Rounding a float again leaves it unchanged. -/
theorem f32_round_idem (q : ℚ) : f32_round (f32_round q) = f32_round q := by
  rcases le_or_lt 0 q with h | h
  · obtain ⟨n, z, hn, e⟩ := f32_round_repr h
    rw [e]; exact f32_round_of_repr n z hn
  · have h' : 0 ≤ -q := by linarith
    obtain ⟨n, z, hn, e⟩ := f32_round_repr h'
    have eq : f32_round q = -f32_round (-q) := by
      rw [f32_round_neg, neg_neg]
    rw [eq, f32_round_neg, e, f32_round_of_repr n z hn]

/-- C12: with `scrambling_distance = 0` and the Sobol or PMJ pattern, `path_rng_1D` is
the same for any two `rng_hash` values (same sample index, dimension, dither setting and
tables), and equals `base - floorf(base)` for the unrotated base value; for the Sobol
pattern this is the exact fractional part of the base value. -/
theorem zero_scrambling_ignores_stream (kg : KernelGlobals) (jt : Jitter) (h1 h2 : Nat)
    (sample num_samples dimension : Int)
    (hpat : kg.integrator.sampling_pattern ≠ SAMPLING_PATTERN_CMJ)
    (hsd : kg.integrator.scrambling_distance = 0) :
    path_rng_1D kg jt h1 sample num_samples dimension
      = path_rng_1D kg jt h2 sample num_samples dimension
    ∧ (kg.integrator.sampling_pattern = SAMPLING_PATTERN_PMJ →
        path_rng_1D kg jt h1 sample num_samples dimension
          = fsub (fsub (uint_as_float (kg.sample_pattern_lut
              (((Int.tmod dimension NUM_PJ_PATTERNS) * NUM_PJ_SAMPLES + sample) * 2
                + dimension % 2))) 1)
            (floorf (fsub (uint_as_float (kg.sample_pattern_lut
              (((Int.tmod dimension NUM_PJ_PATTERNS) * NUM_PJ_SAMPLES + sample) * 2
                + dimension % 2))) 1)))
    ∧ (kg.integrator.sampling_pattern = SAMPLING_PATTERN_SOBOL →
        path_rng_1D kg jt h1 sample num_samples dimension
          = Int.fract (fmul (uint_to_float (sobol_dimension kg sample dimension))
              INV_UINT_MAX)) := by
  have key : ∀ h : Nat, ∃ base : f32,
      (base = (if kg.integrator.sampling_pattern = SAMPLING_PATTERN_PMJ then
          fsub (uint_as_float (kg.sample_pattern_lut
            (((Int.tmod dimension NUM_PJ_PATTERNS) * NUM_PJ_SAMPLES + sample) * 2
              + dimension % 2))) 1
        else fmul (uint_to_float (sobol_dimension kg sample dimension)) INV_UINT_MAX))
      ∧ path_rng_1D kg jt h sample num_samples dimension = fsub base (floorf base) := by
    intro h
    obtain ⟨base, hb, hv⟩ := path_rng_1D_eq kg jt h sample num_samples dimension hpat
    refine ⟨base, hb, ?_⟩
    have hfl : f32_round base = base := by
      rw [hb]
      split_ifs
      · exact f32_round_idem _
      · exact f32_round_idem _
    have hx : fadd base (fmul (path_rng_shift kg jt h dimension)
        kg.integrator.scrambling_distance) = base := by
      rw [hsd]
      unfold fadd fmul
      rw [mul_zero, f32_round_zero, add_zero, hfl]
    rw [hv, hx]
  obtain ⟨b1, hb1, e1⟩ := key h1
  obtain ⟨b2, hb2, e2⟩ := key h2
  refine ⟨?_, ?_, ?_⟩
  · rw [e1, e2, hb1, hb2]
  · intro hp
    rw [e1, hb1, if_pos hp]
  · intro hs
    have hnp : ¬ (kg.integrator.sampling_pattern = SAMPLING_PATTERN_PMJ) := by
      rw [hs]; decide
    rw [e1, hb1, if_neg hnp]
    have hq : (0 : ℚ) ≤ uint_to_float (sobol_dimension kg sample dimension) * INV_UINT_MAX :=
      mul_nonneg (uint_to_float_nonneg _) INV_UINT_MAX_nonneg
    have := f32_round_fract hq
    unfold fsub floorf fmul Int.fract
    exact this

/-- C12 (witness): the PMJ scene, whose scrambling distance is `0`, at sample 5000. -/
theorem zero_scrambling_ignores_stream_witness :
    path_rng_1D pmj_scene demo_jitter 1 5000 1 0 = path_rng_1D pmj_scene demo_jitter 2 5000 1 0 :=
  (zero_scrambling_ignores_stream pmj_scene demo_jitter 1 2 5000 1 0 (by decide) rfl).1

/-! ## Dither table -/

theorem dither_index_bounds (size : Int) (rng_hash : Nat) (h0 : 0 < size)
    (h1 : size < 2147483648) :
    0 ≤ dither_index size rng_hash ∧ dither_index size rng_hash < size * size := by
  unfold dither_index
  simp only
  have hs : ((to_uint size : Nat) : Int) = size := by unfold to_uint; omega
  have hpos : 0 < to_uint size := by unfold to_uint; omega
  have hx := Nat.mod_lt (rng_hash &&& DITHER_COORD_MASK) hpos
  have hy := Nat.mod_lt ((rng_hash >>> DITHER_Y_SHIFT) &&& DITHER_COORD_MASK) hpos
  generalize (rng_hash &&& DITHER_COORD_MASK) % to_uint size = x at hx
  generalize ((rng_hash >>> DITHER_Y_SHIFT) &&& DITHER_COORD_MASK) % to_uint size = y at hy
  have hx' : (x : Int) < size := by rw [← hs]; exact_mod_cast hx
  have hy' : (y : Int) < size := by rw [← hs]; exact_mod_cast hy
  have hx0 : (0 : Int) ≤ x := Int.natCast_nonneg x
  have hy0 : (0 : Int) ≤ y := Int.natCast_nonneg y
  constructor
  · positivity
  · have : ((y : Int) + 1) * size ≤ size * size :=
      Int.mul_le_mul_of_nonneg_right (by omega) (by omega)
    nlinarith

/-- C14: when a dither matrix is configured (`dither_size = size > 0`, an `int`), for
every `rng_hash` the shift taken by `path_rng_1D` is the entry of the dither table at
index `y*size + x` with `x = (rng_hash & 0x7fff) mod size` and
`y = ((rng_hash >> 15) & 0x7fff) mod size`, its first component for even dimensions and
its second for odd dimensions; the index satisfies `0 ≤ index < size*size`, and
`size*size` is the element count the integrator allocates for the matrix of width
`dither_size`. -/
theorem dither_lookup_in_bounds (T : KernelTypes) (env : RenderEnv) (kg : KernelGlobals)
    (jt : Jitter) (rng_hash : Nat) (dimension : Int) (node : Integrator)
    (light_samples : List Int) (dscene : DeviceScene)
    (h0 : 0 < kg.integrator.dither_size) (h1 : kg.integrator.dither_size < 2147483648) :
    dither_index kg.integrator.dither_size rng_hash
        = (((rng_hash >>> 15) &&& 0x7fff) % kg.integrator.dither_size.toNat : Nat)
            * kg.integrator.dither_size
          + ((rng_hash &&& 0x7fff) % kg.integrator.dither_size.toNat : Nat)
    ∧ 0 ≤ dither_index kg.integrator.dither_size rng_hash
    ∧ dither_index kg.integrator.dither_size rng_hash
        < kg.integrator.dither_size * kg.integrator.dither_size
    ∧ (dimension % 2 = 0 → path_rng_shift kg jt rng_hash dimension
        = (kg.sobol_dither (dither_index kg.integrator.dither_size rng_hash)).1)
    ∧ (dimension % 2 = 1 → path_rng_shift kg jt rng_hash dimension
        = (kg.sobol_dither (dither_index kg.integrator.dither_size rng_hash)).2)
    ∧ (node.need_update = true → node.use_dithered_sampling = true →
        (Integrator.device_update T env jt node light_samples dscene).2.sobol_dither_size
          = (Integrator.device_update T env jt node light_samples
              dscene).2.integrator.dither_size
            * (Integrator.device_update T env jt node light_samples
              dscene).2.integrator.dither_size) := by
  have hs : to_uint kg.integrator.dither_size = kg.integrator.dither_size.toNat := by
    unfold to_uint; omega
  refine ⟨?_, (dither_index_bounds _ _ h0 h1).1, (dither_index_bounds _ _ h0 h1).2, ?_, ?_, ?_⟩
  · unfold dither_index
    simp only [hs]
    rfl
  · intro hd
    unfold path_rng_shift dither_index
    simp only [if_pos h0, hd]
    rfl
  · intro hd
    unfold path_rng_shift dither_index
    simp only [if_pos h0, hd]
    rfl
  · intro hu hdith
    unfold Integrator.device_update
    simp [hu, hdith]

/-- C14 (witness): a dither matrix of width 4 and the stream word of pixel (5, 6). -/
theorem dither_lookup_in_bounds_witness :
    0 ≤ dither_index 4 (0x80000000 + 6 * 32768 + 5)
    ∧ dither_index 4 (0x80000000 + 6 * 32768 + 5) < 4 * 4 :=
  have h := dither_lookup_in_bounds demo_types demo_env
    { sobol_scene with integrator := { demo_integrator SAMPLING_PATTERN_SOBOL with
        dither_size := 4 } }
    demo_jitter (0x80000000 + 6 * 32768 + 5) 0 (demo_node 0 true) [] demo_dscene
    (by decide) (by decide)
  ⟨h.2.1, h.2.2.1⟩

/-! ## Stream word and dithering -/

/-- C15: with a dither matrix configured, the stream word returned by `path_rng_hash`
(here `0`, most significant bit clear) still makes `path_rng_1D` take its shift from the
dither table (entry 0, first component `1/2`), not the hashed scalar
`cmj_hash_simple(dimension, rng_hash) / 0xFFFFFFFF` (here `0`): the branch is selected by
`dither_size > 0` alone. -/
theorem dither_taken_with_msb_clear :
    path_rng_hash demo_jitter 7 0 = 0
    ∧ path_rng_hash demo_jitter 7 0 &&& DITHER_MASK = 0
    ∧ path_rng_shift dither_four_scene demo_jitter (path_rng_hash demo_jitter 7 0) 0
        = (dither_four_scene.sobol_dither 0).1
    ∧ path_rng_shift dither_four_scene demo_jitter (path_rng_hash demo_jitter 7 0) 0 = 1 / 2
    ∧ fmul (uint_to_float (demo_jitter.cmj_hash_simple (to_uint 0)
        (path_rng_hash demo_jitter 7 0))) INV_UINT_MAX = 0 := by
  have h0 : path_rng_hash demo_jitter 7 0 = 0 := by decide
  have hs : path_rng_shift dither_four_scene demo_jitter 0 0 = 1 / 2 := by
    simp [path_rng_shift, dither_four_scene, demo_integrator, DITHER_COORD_MASK,
      DITHER_Y_SHIFT]
  refine ⟨h0, by rw [h0]; decide, ?_, ?_, ?_⟩
  · rw [h0, hs]; simp [dither_four_scene]
  · rw [h0, hs]
  · simp [fmul, uint_to_float, demo_jitter, f32_round_zero]

/-- The stream word of a dithered pixel as a sum: bit 31, `y` in bits 15..29, `x` in
bits 0..14. -/
theorem dither_word_eq (a b : Nat) (ha : a < 2 ^ 15) (hb : b < 2 ^ 15) :
    (((a <<< DITHER_Y_SHIFT) % 4294967296) ||| b) ||| DITHER_MASK
      = 2 ^ 31 + 2 ^ 15 * a + b := by
  have h1 : (a <<< DITHER_Y_SHIFT) % 4294967296 = 2 ^ 15 * a := by
    unfold DITHER_Y_SHIFT
    rw [Nat.shiftLeft_eq]
    omega
  have h2 : 2 ^ 15 * a ||| b = 2 ^ 15 * a + b := (Nat.mul_add_lt_is_or hb a).symm
  have h3 : 2 ^ 15 * a + b < 2 ^ 31 := by omega
  have h4 : 2 ^ 31 * 1 + (2 ^ 15 * a + b) = 2 ^ 31 * 1 ||| (2 ^ 15 * a + b) :=
    Nat.mul_add_lt_is_or h3 1
  rw [h1, h2, Nat.or_comm]
  unfold DITHER_MASK
  have h5 : (0x80000000 : Nat) = 2 ^ 31 * 1 := by norm_num
  rw [h5, ← h4]
  omega

theorem and_coord_mask (u : Nat) : u &&& DITHER_COORD_MASK = u % 2 ^ 15 := by
  unfold DITHER_COORD_MASK
  have : (0x7fff : Nat) = 2 ^ 15 - 1 := by norm_num
  rw [this, Nat.and_pow_two_sub_one_eq_mod]

/-- C16: with dithering enabled `path_rng_init` sets
`rng_hash = 0x80000000 | ((y & 0x7fff) << 15) | (x & 0x7fff)`, whatever the seed: bit 31
is set, bit 30 is clear, and for pixel coordinates `0 ≤ x, y < 32768` the coordinates
that `path_rng_1D` extracts, `rng_hash & 0x7fff` and `(rng_hash >> 15) & 0x7fff`, are
`x` and `y`; with dithering disabled `rng_hash = hash_uint2(x, y) XOR seed`. -/
theorem path_rng_init_stream_word (T : KernelTypes) (kg : KernelGlobals) (jt : Jitter)
    (sample num_samples x y : Int) (seed : Nat) :
    (0 < kg.integrator.dither_size →
      (path_rng_init T kg jt sample num_samples x y).1
          = (0x80000000 ||| ((to_uint y &&& 0x7fff) <<< 15)) ||| (to_uint x &&& 0x7fff)
      ∧ (path_rng_init T { kg with integrator := { kg.integrator with seed := seed } } jt
            sample num_samples x y).1
          = (path_rng_init T kg jt sample num_samples x y).1
      ∧ (path_rng_init T kg jt sample num_samples x y).1.testBit 31 = true
      ∧ (path_rng_init T kg jt sample num_samples x y).1.testBit 30 = false
      ∧ (0 ≤ x → x < 32768 → 0 ≤ y → y < 32768 →
          (((path_rng_init T kg jt sample num_samples x y).1 &&& DITHER_COORD_MASK : Nat)
              : Int) = x
          ∧ ((((path_rng_init T kg jt sample num_samples x y).1 >>> DITHER_Y_SHIFT)
              &&& DITHER_COORD_MASK : Nat) : Int) = y))
    ∧ (¬ 0 < kg.integrator.dither_size →
        (path_rng_init T kg jt sample num_samples x y).1
          = jt.hash_uint2 (to_uint x) (to_uint y) ^^^ kg.integrator.seed) := by
  constructor
  · intro hd
    have hval : (path_rng_init T kg jt sample num_samples x y).1
        = (((to_uint y &&& DITHER_COORD_MASK) <<< DITHER_Y_SHIFT) % 4294967296
            ||| (to_uint x &&& DITHER_COORD_MASK)) ||| DITHER_MASK := by
      unfold path_rng_init
      simp only [gt_iff_lt, if_pos hd]
      split_ifs <;> rfl
    have ha : to_uint y &&& DITHER_COORD_MASK < 2 ^ 15 := by
      rw [and_coord_mask]; exact Nat.mod_lt _ (by norm_num)
    have hb : to_uint x &&& DITHER_COORD_MASK < 2 ^ 15 := by
      rw [and_coord_mask]; exact Nat.mod_lt _ (by norm_num)
    have hsum := dither_word_eq _ _ ha hb
    refine ⟨?_, ?_, ?_, ?_, ?_⟩
    · rw [hval, hsum]
      have h1 : (to_uint y &&& 0x7fff) <<< 15 = 2 ^ 15 * (to_uint y &&& DITHER_COORD_MASK) := by
        rw [Nat.shiftLeft_eq]; unfold DITHER_COORD_MASK; ring
      have h2 : (0x80000000 : Nat) ||| 2 ^ 15 * (to_uint y &&& DITHER_COORD_MASK)
          = 2 ^ 31 + 2 ^ 15 * (to_uint y &&& DITHER_COORD_MASK) := by
        have h3 : 2 ^ 15 * (to_uint y &&& DITHER_COORD_MASK) < 2 ^ 31 := by omega
        have := Nat.mul_add_lt_is_or h3 1
        have h5 : (0x80000000 : Nat) = 2 ^ 31 * 1 := by norm_num
        rw [h5, ← this]
        ring
      have h6 : (2 ^ 31 + 2 ^ 15 * (to_uint y &&& DITHER_COORD_MASK))
            ||| (to_uint x &&& DITHER_COORD_MASK)
          = 2 ^ 31 + 2 ^ 15 * (to_uint y &&& DITHER_COORD_MASK)
            + (to_uint x &&& DITHER_COORD_MASK) := by
        have := Nat.mul_add_lt_is_or hb (2 ^ 16 + (to_uint y &&& DITHER_COORD_MASK))
        have e : 2 ^ 15 * (2 ^ 16 + (to_uint y &&& DITHER_COORD_MASK))
            = 2 ^ 31 + 2 ^ 15 * (to_uint y &&& DITHER_COORD_MASK) := by ring
        rw [e] at this
        exact this.symm
      rw [h1, h2]
      exact h6.symm
    · unfold path_rng_init
      simp only [gt_iff_lt, if_pos hd]
      split_ifs <;> rfl
    · rw [hval, hsum, Nat.testBit_to_div_mod]
      simp only [decide_eq_true_eq]
      omega
    · rw [hval, hsum, Nat.testBit_to_div_mod]
      simp only [decide_eq_false_iff_not]
      omega
    · intro hx0 hx1 hy0 hy1
      rw [hval, hsum]
      unfold DITHER_Y_SHIFT
      rw [Nat.shiftRight_eq_div_pow]
      simp only [and_coord_mask] at ha hb ⊢
      have hxu : to_uint x = x.toNat := by unfold to_uint; omega
      have hyu : to_uint y = y.toNat := by unfold to_uint; omega
      rw [hxu, hyu]
      constructor <;> omega
  · intro hd
    unfold path_rng_init
    simp only [gt_iff_lt, if_neg hd]
    split_ifs <;> rfl

/-- C16 (witness): pixel (5, 6) with a dither matrix configured. -/
theorem path_rng_init_stream_word_witness :
    (path_rng_init demo_types dither_four_scene demo_jitter 0 1 5 6).1.testBit 31 = true
    ∧ (path_rng_init demo_types dither_four_scene demo_jitter 0 1 5 6).1.testBit 30 = false
    ∧ (((path_rng_init demo_types dither_four_scene demo_jitter 0 1 5 6).1
          &&& DITHER_COORD_MASK : Nat) : Int) = 5
    ∧ ((((path_rng_init demo_types dither_four_scene demo_jitter 0 1 5 6).1
          >>> DITHER_Y_SHIFT) &&& DITHER_COORD_MASK : Nat) : Int) = 6 :=
  have h := (path_rng_init_stream_word demo_types dither_four_scene demo_jitter 0 1 5 6 0).1
    (by decide)
  have hc := h.2.2.2.2 (by decide) (by decide) (by decide) (by decide)
  ⟨h.2.2.1, h.2.2.2.1, hc.1, hc.2⟩

/-! ## Light termination number -/

/-- The rounding of a positive number is positive. -/
theorem f32_round_pos_of_pos {q : ℚ} (hq : 0 < q) : 0 < f32_round q := by
  obtain ⟨n, z, hn, _, e⟩ := f32_round_pos_repr hq
  unfold f32_round
  rw [if_neg hq.ne', if_pos hq, e]
  have : (0 : ℚ) < (n : ℚ) := by exact_mod_cast hn
  positivity

/-- C17: `path_state_rng_light_termination` and `path_branched_rng_light_termination`
return `0` when `light_inv_rr_threshold ≤ 0`, whatever the tables and hash functions, and
otherwise the path-level (resp. branched) 1D draw at dimension `PRNG_LIGHT_TERMINATE`;
an update by `Integrator::device_update` sets `light_inv_rr_threshold` to
`1 / light_sampling_threshold` when `light_sampling_threshold > 0` and to `0` otherwise,
so that it is positive exactly when the configured threshold is positive. -/
theorem light_termination_drawn_iff {T : KernelTypes} (env : RenderEnv) (kg : KernelGlobals)
    (jt : Jitter) (state : PathState T) (rng_hash : Nat) (branch num_branches : Int)
    (node : Integrator) (light_samples : List Int) (dscene : DeviceScene) :
    (kg.integrator.light_inv_rr_threshold ≤ 0 →
      path_state_rng_light_termination kg jt state = 0
      ∧ path_branched_rng_light_termination kg jt rng_hash state branch num_branches = 0)
    ∧ (0 < kg.integrator.light_inv_rr_threshold →
      path_state_rng_light_termination kg jt state
        = path_state_rng_1D kg jt state T.PRNG_LIGHT_TERMINATE
      ∧ path_branched_rng_light_termination kg jt rng_hash state branch num_branches
        = path_branched_rng_1D kg jt rng_hash state branch num_branches
            T.PRNG_LIGHT_TERMINATE)
    ∧ (node.need_update = true →
      (0 < node.light_sampling_threshold →
        (Integrator.device_update T env jt node light_samples
          dscene).2.integrator.light_inv_rr_threshold = fdiv 1 node.light_sampling_threshold)
      ∧ (¬ 0 < node.light_sampling_threshold →
        (Integrator.device_update T env jt node light_samples
          dscene).2.integrator.light_inv_rr_threshold = 0)
      ∧ (0 < (Integrator.device_update T env jt node light_samples
          dscene).2.integrator.light_inv_rr_threshold ↔ 0 < node.light_sampling_threshold)) := by
  refine ⟨?_, ?_, ?_⟩
  · intro h
    unfold path_state_rng_light_termination path_branched_rng_light_termination
    rw [if_neg (not_lt.mpr h), if_neg (not_lt.mpr h)]
    exact ⟨rfl, rfl⟩
  · intro h
    unfold path_state_rng_light_termination path_branched_rng_light_termination
    rw [if_pos h, if_pos h]
    exact ⟨rfl, rfl⟩
  · intro hu
    have hval : (Integrator.device_update T env jt node light_samples
        dscene).2.integrator.light_inv_rr_threshold
        = if 0 < node.light_sampling_threshold then fdiv 1 node.light_sampling_threshold
          else 0 := by
      unfold Integrator.device_update
      simp only [hu, Bool.not_true, Bool.false_eq_true, if_false, gt_iff_lt]
      split_ifs <;> rfl
    refine ⟨?_, ?_, ?_⟩
    · intro h; rw [hval, if_pos h]
    · intro h; rw [hval, if_neg h]
    · rw [hval]
      constructor
      · intro h
        by_contra hn
        rw [if_neg hn] at h
        exact lt_irrefl _ h
      · intro h
        rw [if_pos h]
        exact f32_round_pos_of_pos (by positivity)

/-- C17 (witness): the threshold `1/16` gives the inverse threshold `16`, and a state
drawn with inverse threshold `0` gets the number `0`. -/
theorem light_termination_drawn_iff_witness :
    (Integrator.device_update demo_types demo_env demo_jitter (demo_node (1 / 16) false) []
        demo_dscene).2.integrator.light_inv_rr_threshold = fdiv 1 (1 / 16)
    ∧ path_state_rng_light_termination sobol_scene demo_jitter (demo_state 1) = 0 :=
  have h := light_termination_drawn_iff demo_env sobol_scene demo_jitter (demo_state 1) 0 0 1
    (demo_node (1 / 16) false) [] demo_dscene
  ⟨(h.2.2 rfl).1 (by norm_num [demo_node]), (h.1 (by decide)).1⟩

/-! ## Accumulation of a light sample -/

/-- A sample of the branched light loop for which `light_sample` returns a light: the
calls made and their arguments. -/
theorem branched_connect_light_sample_some {T : KernelTypes} (kg : KernelGlobals)
    (jt : Jitter) (K : SurfaceKernels T) (sd : ShaderData T) (state : PathState T)
    (throughput : float3) (i : Int) (su : LightSetup) (num_samples_inv : f32) (j : Int)
    (c : ConnectLight T) (is_lamp : Bool) (ls : LightSample T)
    (hd : kg.integrator.use_direct_light = true) (he : sd.flag &&& T.SD_BSDF_HAS_EVAL ≠ 0)
    (hls : K.light_sample kg (if is_lamp then i else -1)
      (if su.is_mesh_light && su.double_pdf then
        fmul (1 / 2) (path_branched_rng_2D kg jt su.lamp_rng_hash state j su.num_samples
          T.PRNG_LIGHT_U).1
      else (path_branched_rng_2D kg jt su.lamp_rng_hash state j su.num_samples
          T.PRNG_LIGHT_U).1)
      (path_branched_rng_2D kg jt su.lamp_rng_hash state j su.num_samples T.PRNG_LIGHT_U).2
      sd.time sd.P state.bounce = some ls) :
    branched_connect_light_sample kg jt K sd state throughput i su num_samples_inv j c is_lamp
      = (connect_light_shadow kg K sd state (throughput.scale num_samples_inv) num_samples_inv
          c.L
          (K.direct_emission kg sd c.emission_sd
            (if su.double_pdf then { ls with pdf := fmul ls.pdf 2 } else ls) state
            { Ray.uninit with t := 0, time := sd.time } c.L_light is_lamp
            (path_branched_rng_light_termination kg jt su.lamp_rng_hash state j
              su.num_samples))
          ls.lamp
          (c.trace
            ++ [Event.rng_2D su.lamp_rng_hash j su.num_samples T.PRNG_LIGHT_U,
                Event.rng_light_termination su.lamp_rng_hash j su.num_samples,
                Event.light_sample (if is_lamp then i else -1)
                  (if su.is_mesh_light && su.double_pdf then
                    fmul (1 / 2) (path_branched_rng_2D kg jt su.lamp_rng_hash state j
                      su.num_samples T.PRNG_LIGHT_U).1
                  else (path_branched_rng_2D kg jt su.lamp_rng_hash state j su.num_samples
                      T.PRNG_LIGHT_U).1)
                  (path_branched_rng_2D kg jt su.lamp_rng_hash state j su.num_samples
                    T.PRNG_LIGHT_U).2,
                Event.direct_emission
                  (if su.double_pdf then { ls with pdf := fmul ls.pdf 2 } else ls)
                  (path_branched_rng_light_termination kg jt su.lamp_rng_hash state j
                    su.num_samples)]),
        (K.direct_emission kg sd c.emission_sd
            (if su.double_pdf then { ls with pdf := fmul ls.pdf 2 } else ls) state
            { Ray.uninit with t := 0, time := sd.time } c.L_light is_lamp
            (path_branched_rng_light_termination kg jt su.lamp_rng_hash state j
              su.num_samples)).is_lamp) := by
  unfold branched_connect_light_sample
  simp only [hd, he, ne_eq, not_false_eq_true, decide_True, Bool.and_self, if_true, hls]
  have hl : (if su.double_pdf then { ls with pdf := fmul ls.pdf 2 } else ls).lamp = ls.lamp := by
    split_ifs <;> rfl
  rw [hl]
  simp only [List.append_assoc, List.cons_append, List.nil_append]

/-- A sample of the branched light loop for which `light_sample` returns no light. -/
theorem branched_connect_light_sample_none {T : KernelTypes} (kg : KernelGlobals)
    (jt : Jitter) (K : SurfaceKernels T) (sd : ShaderData T) (state : PathState T)
    (throughput : float3) (i : Int) (su : LightSetup) (num_samples_inv : f32) (j : Int)
    (c : ConnectLight T) (is_lamp : Bool)
    (hd : kg.integrator.use_direct_light = true) (he : sd.flag &&& T.SD_BSDF_HAS_EVAL ≠ 0)
    (hls : K.light_sample kg (if is_lamp then i else -1)
      (if su.is_mesh_light && su.double_pdf then
        fmul (1 / 2) (path_branched_rng_2D kg jt su.lamp_rng_hash state j su.num_samples
          T.PRNG_LIGHT_U).1
      else (path_branched_rng_2D kg jt su.lamp_rng_hash state j su.num_samples
          T.PRNG_LIGHT_U).1)
      (path_branched_rng_2D kg jt su.lamp_rng_hash state j su.num_samples T.PRNG_LIGHT_U).2
      sd.time sd.P state.bounce = none) :
    (branched_connect_light_sample kg jt K sd state throughput i su num_samples_inv j c
      is_lamp).1.L = c.L
    ∧ (branched_connect_light_sample kg jt K sd state throughput i su num_samples_inv j c
      is_lamp).1.trace.filter Event.is_accum = c.trace.filter Event.is_accum := by
  unfold branched_connect_light_sample
  simp only [hd, he, ne_eq, not_false_eq_true, decide_True, Bool.and_self, if_true, hls]
  unfold connect_light_shadow
  simp [Event.is_accum]

/-- Radiance after the tail of a light sample. -/
theorem connect_light_shadow_L {T : KernelTypes} (kg : KernelGlobals)
    (K : SurfaceKernels T) (sd : ShaderData T) (state : PathState T) (throughput : float3)
    (shadow_fac : f32) (L : T.PathRadiance) (em : EmissionResult T) (ls_lamp : Int)
    (trace : List (Event T)) :
    (connect_light_shadow kg K sd state throughput shadow_fac L em ls_lamp trace).L
      = (if em.has_emission then
          if (K.shadow_blocked kg sd em.emission_sd state em.light_ray).1 then
            K.path_radiance_accum_total_light L state throughput em.L_light
          else
            K.path_radiance_accum_light kg L state throughput em.L_light
              (K.shadow_blocked kg sd em.emission_sd state em.light_ray).2.2 shadow_fac
              ls_lamp em.is_lamp
        else L)
    ∧ (connect_light_shadow kg K sd state throughput shadow_fac L em ls_lamp trace).trace
      = trace ++ Event.shadow_blocked em.light_ray ::
        (if em.has_emission then
          if (K.shadow_blocked kg sd em.emission_sd state em.light_ray).1 then
            [Event.accum_total_light throughput]
          else
            [Event.accum_light throughput
              (K.shadow_blocked kg sd em.emission_sd state em.light_ray).2.2 shadow_fac
              ls_lamp em.is_lamp]
        else []) := by
  unfold connect_light_shadow
  cases h1 : em.has_emission <;>
    cases h2 : (K.shadow_blocked kg sd em.emission_sd state em.light_ray).1 <;>
    simp [h1, h2]

/-- C18: for a light sample processed by either connect-light routine (direct light
enabled, `SD_BSDF_HAS_EVAL` set), with `has_emission` the flag returned by the call of
`direct_emission` on the sampled light and `blocked` the result of `shadow_blocked` on the
ray that `direct_emission` set up: with emission and an unblocked shadow ray the radiance
after the sample is `path_radiance_accum_light` of the radiance before (with the shadow
attenuation), and that is the only accumulation; with emission and a blocked shadow ray
it is `path_radiance_accum_total_light` of the radiance before, and that is the only
accumulation; without emission, and when `light_sample` returns no light, `L` is as
before and nothing is accumulated.  The weights are `throughput * num_samples_inv` and
`num_samples_inv` in the branched routine, `throughput` and `1.0f` in the unbranched one;
compiled with shadow tricks the unbranched routine is the branched routine with
`num_samples_adjust = 1`. -/
theorem light_sample_accumulation {T : KernelTypes} (kg : KernelGlobals) (jt : Jitter)
    (K : SurfaceKernels T) (sd emission_sd : ShaderData T) (state : PathState T)
    (throughput : float3) (i : Int) (su : LightSetup) (num_samples_inv : f32) (j : Int)
    (c : ConnectLight T) (is_lamp : Bool) (L : T.PathRadiance)
    (hd : kg.integrator.use_direct_light = true) (he : sd.flag &&& T.SD_BSDF_HAS_EVAL ≠ 0) :
    (∀ (ls : LightSample T) (em : EmissionResult T),
      K.light_sample kg (if is_lamp then i else -1)
        (if su.is_mesh_light && su.double_pdf then
          fmul (1 / 2) (path_branched_rng_2D kg jt su.lamp_rng_hash state j su.num_samples
            T.PRNG_LIGHT_U).1
        else (path_branched_rng_2D kg jt su.lamp_rng_hash state j su.num_samples
            T.PRNG_LIGHT_U).1)
        (path_branched_rng_2D kg jt su.lamp_rng_hash state j su.num_samples T.PRNG_LIGHT_U).2
        sd.time sd.P state.bounce = some ls →
      em = K.direct_emission kg sd c.emission_sd
        (if su.double_pdf then { ls with pdf := fmul ls.pdf 2 } else ls) state
        { Ray.uninit with t := 0, time := sd.time } c.L_light is_lamp
        (path_branched_rng_light_termination kg jt su.lamp_rng_hash state j su.num_samples) →
      (em.has_emission = true →
        (K.shadow_blocked kg sd em.emission_sd state em.light_ray).1 = false →
        (branched_connect_light_sample kg jt K sd state throughput i su num_samples_inv j c
          is_lamp).1.L
          = K.path_radiance_accum_light kg c.L state (throughput.scale num_samples_inv)
              em.L_light (K.shadow_blocked kg sd em.emission_sd state em.light_ray).2.2
              num_samples_inv ls.lamp em.is_lamp
        ∧ (branched_connect_light_sample kg jt K sd state throughput i su num_samples_inv j c
          is_lamp).1.trace.filter Event.is_accum
          = c.trace.filter Event.is_accum
            ++ [Event.accum_light (throughput.scale num_samples_inv)
                (K.shadow_blocked kg sd em.emission_sd state em.light_ray).2.2
                num_samples_inv ls.lamp em.is_lamp])
      ∧ (em.has_emission = true →
        (K.shadow_blocked kg sd em.emission_sd state em.light_ray).1 = true →
        (branched_connect_light_sample kg jt K sd state throughput i su num_samples_inv j c
          is_lamp).1.L
          = K.path_radiance_accum_total_light c.L state (throughput.scale num_samples_inv)
              em.L_light
        ∧ (branched_connect_light_sample kg jt K sd state throughput i su num_samples_inv j c
          is_lamp).1.trace.filter Event.is_accum
          = c.trace.filter Event.is_accum
            ++ [Event.accum_total_light (throughput.scale num_samples_inv)])
      ∧ (em.has_emission = false →
        (branched_connect_light_sample kg jt K sd state throughput i su num_samples_inv j c
          is_lamp).1.L = c.L
        ∧ (branched_connect_light_sample kg jt K sd state throughput i su num_samples_inv j c
          is_lamp).1.trace.filter Event.is_accum = c.trace.filter Event.is_accum))
    ∧ (K.light_sample kg (if is_lamp then i else -1)
        (if su.is_mesh_light && su.double_pdf then
          fmul (1 / 2) (path_branched_rng_2D kg jt su.lamp_rng_hash state j su.num_samples
            T.PRNG_LIGHT_U).1
        else (path_branched_rng_2D kg jt su.lamp_rng_hash state j su.num_samples
            T.PRNG_LIGHT_U).1)
        (path_branched_rng_2D kg jt su.lamp_rng_hash state j su.num_samples T.PRNG_LIGHT_U).2
        sd.time sd.P state.bounce = none →
      (branched_connect_light_sample kg jt K sd state throughput i su num_samples_inv j c
        is_lamp).1.L = c.L
      ∧ (branched_connect_light_sample kg jt K sd state throughput i su num_samples_inv j c
        is_lamp).1.trace.filter Event.is_accum = c.trace.filter Event.is_accum)
    ∧ (∀ (ls : LightSample T) (em : EmissionResult T),
      K.light_sample kg (-1) (path_state_rng_2D kg jt state T.PRNG_LIGHT_U).1
        (path_state_rng_2D kg jt state T.PRNG_LIGHT_U).2 sd.time sd.P state.bounce = some ls →
      em = K.direct_emission kg sd emission_sd ls state
        { Ray.uninit with t := 0, time := sd.time } K.L_light_uninit false
        (path_state_rng_light_termination kg jt state) →
      (em.has_emission = true →
        (K.shadow_blocked kg sd em.emission_sd state em.light_ray).1 = false →
        (kernel_path_surface_connect_light_no_shadow_tricks kg jt K sd emission_sd throughput
          state L).L
          = K.path_radiance_accum_light kg L state throughput em.L_light
              (K.shadow_blocked kg sd em.emission_sd state em.light_ray).2.2 1 ls.lamp
              em.is_lamp
        ∧ (kernel_path_surface_connect_light_no_shadow_tricks kg jt K sd emission_sd throughput
          state L).trace.filter Event.is_accum
          = [Event.accum_light throughput
              (K.shadow_blocked kg sd em.emission_sd state em.light_ray).2.2 1 ls.lamp
              em.is_lamp])
      ∧ (em.has_emission = true →
        (K.shadow_blocked kg sd em.emission_sd state em.light_ray).1 = true →
        (kernel_path_surface_connect_light_no_shadow_tricks kg jt K sd emission_sd throughput
          state L).L
          = K.path_radiance_accum_total_light L state throughput em.L_light
        ∧ (kernel_path_surface_connect_light_no_shadow_tricks kg jt K sd emission_sd throughput
          state L).trace.filter Event.is_accum = [Event.accum_total_light throughput])
      ∧ (em.has_emission = false →
        (kernel_path_surface_connect_light_no_shadow_tricks kg jt K sd emission_sd throughput
          state L).L = L
        ∧ (kernel_path_surface_connect_light_no_shadow_tricks kg jt K sd emission_sd throughput
          state L).trace.filter Event.is_accum = []))
    ∧ (K.light_sample kg (-1) (path_state_rng_2D kg jt state T.PRNG_LIGHT_U).1
        (path_state_rng_2D kg jt state T.PRNG_LIGHT_U).2 sd.time sd.P state.bounce = none →
      (kernel_path_surface_connect_light_no_shadow_tricks kg jt K sd emission_sd throughput
        state L).L = L
      ∧ (kernel_path_surface_connect_light_no_shadow_tricks kg jt K sd emission_sd throughput
        state L).trace.filter Event.is_accum = [])
    ∧ kernel_path_surface_connect_light kg jt K sd emission_sd throughput state L
      = kernel_branched_path_surface_connect_light kg jt K sd emission_sd state throughput 1 L
          ((state.flag &&& T.PATH_RAY_SHADOW_CATCHER : Nat) : Int) := by
  refine ⟨?_, ?_, ?_, ?_, rfl⟩
  · intro ls em hls hem
    rw [branched_connect_light_sample_some kg jt K sd state throughput i su num_samples_inv
      j c is_lamp ls hd he hls, ← hem]
    obtain ⟨hL, htr⟩ := connect_light_shadow_L kg K sd state (throughput.scale num_samples_inv)
      num_samples_inv c.L em ls.lamp
      (c.trace
        ++ [Event.rng_2D su.lamp_rng_hash j su.num_samples T.PRNG_LIGHT_U,
            Event.rng_light_termination su.lamp_rng_hash j su.num_samples,
            Event.light_sample (if is_lamp then i else -1)
              (if su.is_mesh_light && su.double_pdf then
                fmul (1 / 2) (path_branched_rng_2D kg jt su.lamp_rng_hash state j
                  su.num_samples T.PRNG_LIGHT_U).1
              else (path_branched_rng_2D kg jt su.lamp_rng_hash state j
                  su.num_samples T.PRNG_LIGHT_U).1)
              (path_branched_rng_2D kg jt su.lamp_rng_hash state j su.num_samples
                T.PRNG_LIGHT_U).2,
            Event.direct_emission
              (if su.double_pdf then { ls with pdf := fmul ls.pdf 2 } else ls)
              (path_branched_rng_light_termination kg jt su.lamp_rng_hash state j
                su.num_samples)])
    simp only
    rw [hL, htr]
    refine ⟨?_, ?_, ?_⟩
    · intro h1 h2
      simp [h1, h2, List.filter_append, Event.is_accum]
    · intro h1 h2
      simp [h1, h2, List.filter_append, Event.is_accum]
    · intro h1
      simp [h1, List.filter_append, Event.is_accum]
  · intro hls
    exact branched_connect_light_sample_none kg jt K sd state throughput i su num_samples_inv
      j c is_lamp hd he hls
  · intro ls em hls hem
    have hrun : kernel_path_surface_connect_light_no_shadow_tricks kg jt K sd emission_sd
        throughput state L
        = connect_light_shadow kg K sd state throughput 1 L em ls.lamp
            [Event.state_rng_2D T.PRNG_LIGHT_U,
              Event.light_sample (-1) (path_state_rng_2D kg jt state T.PRNG_LIGHT_U).1
                (path_state_rng_2D kg jt state T.PRNG_LIGHT_U).2,
              Event.state_rng_light_termination,
              Event.direct_emission ls (path_state_rng_light_termination kg jt state)] := by
      unfold kernel_path_surface_connect_light_no_shadow_tricks
      simp only [hd, he, ne_eq, not_false_eq_true, decide_True, Bool.and_self, if_true, hls,
        ← hem]
      rfl
    obtain ⟨hL, htr⟩ := connect_light_shadow_L kg K sd state throughput 1 L em ls.lamp
      [Event.state_rng_2D T.PRNG_LIGHT_U,
        Event.light_sample (-1) (path_state_rng_2D kg jt state T.PRNG_LIGHT_U).1
          (path_state_rng_2D kg jt state T.PRNG_LIGHT_U).2,
        Event.state_rng_light_termination,
        Event.direct_emission ls (path_state_rng_light_termination kg jt state)]
    rw [hrun, hL, htr]
    refine ⟨?_, ?_, ?_⟩
    · intro h1 h2
      simp [h1, h2, Event.is_accum]
    · intro h1 h2
      simp [h1, h2, Event.is_accum]
    · intro h1
      simp [h1, Event.is_accum]
  · intro hls
    unfold kernel_path_surface_connect_light_no_shadow_tricks
    simp only [hd, he, ne_eq, not_false_eq_true, decide_True, Bool.and_self, if_true, hls]
    unfold connect_light_shadow
    simp [Event.is_accum]
/-- C18 (witness): a sampled light with emission, in the branched routine: with a blocked
shadow ray the sample adds to the blocked bin only (accumulation `2`), with an unblocked
one to the radiance (accumulation `1`); in the unbranched routine without emission `L`
stays empty. -/
theorem light_sample_accumulation_witness :
    (branched_connect_light_sample sobol_scene demo_jitter
        (demo_kernels 0 2 (some ⟨1, 0, ()⟩) true true) (demo_sd 3) (demo_state 1) ⟨1, 1, 1⟩ 0
        ⟨1, 1, 0, false, false, false⟩ 1 0 ⟨[], demo_sd 0, 0, []⟩ false).1.L = [2]
    ∧ (branched_connect_light_sample sobol_scene demo_jitter
        (demo_kernels 0 2 (some ⟨1, 0, ()⟩) true false) (demo_sd 3) (demo_state 1) ⟨1, 1, 1⟩ 0
        ⟨1, 1, 0, false, false, false⟩ 1 0 ⟨[], demo_sd 0, 0, []⟩ false).1.L = [1]
    ∧ (kernel_path_surface_connect_light_no_shadow_tricks sobol_scene demo_jitter
        (demo_kernels 0 2 (some ⟨1, 0, ()⟩) false false) (demo_sd 3) (demo_sd 0) ⟨1, 1, 1⟩
        (demo_state 1) []).L = [] :=
  have h1 := light_sample_accumulation sobol_scene demo_jitter
    (demo_kernels 0 2 (some ⟨1, 0, ()⟩) true true) (demo_sd 3) (demo_sd 0) (demo_state 1)
    ⟨1, 1, 1⟩ 0 ⟨1, 1, 0, false, false, false⟩ 1 0 ⟨[], demo_sd 0, 0, []⟩ false [] rfl
    (by decide)
  have h2 := light_sample_accumulation sobol_scene demo_jitter
    (demo_kernels 0 2 (some ⟨1, 0, ()⟩) true false) (demo_sd 3) (demo_sd 0) (demo_state 1)
    ⟨1, 1, 1⟩ 0 ⟨1, 1, 0, false, false, false⟩ 1 0 ⟨[], demo_sd 0, 0, []⟩ false [] rfl
    (by decide)
  have h3 := light_sample_accumulation sobol_scene demo_jitter
    (demo_kernels 0 2 (some ⟨1, 0, ()⟩) false false) (demo_sd 3) (demo_sd 0) (demo_state 1)
    ⟨1, 1, 1⟩ 0 ⟨1, 1, 0, false, false, false⟩ 1 0 ⟨[], demo_sd 0, 0, []⟩ false [] rfl
    (by decide)
  ⟨((h1.1 ⟨1, 0, ()⟩ _ rfl rfl).2.1 rfl rfl).1, ((h2.1 ⟨1, 0, ()⟩ _ rfl rfl).1 rfl rfl).1,
    ((h3.2.2.1 ⟨1, 0, ()⟩ _ rfl rfl).2.2 rfl).1⟩

/-! ## Lamps that reached their bounce limit -/

theorem ceil_to_int_zero_samples (num_samples_adjust : f32) :
    ceil_to_int (fmul num_samples_adjust (int_to_float 0)) = 0 := by
  unfold ceil_to_int fmul int_to_float
  simp [f32_round_zero]

/-- C19: in sample-all-lights mode, for a lamp index `i < num_all_lights` for which
`light_select_reached_max_bounces(i, state.bounce)` holds, the iteration of the light
loop of `kernel_branched_path_surface_connect_light` returns the radiance, the scratch
data and the call log unchanged (no random draw, no `light_sample`, no `shadow_blocked`,
no accumulation), which is also the result when the lamp has not reached its limit and
its sample count is `0`. -/
theorem exhausted_lamp_skipped {T : KernelTypes} (kg : KernelGlobals) (jt : Jitter)
    (K : SurfaceKernels T) (sd : ShaderData T) (state : PathState T) (throughput : float3)
    (num_samples_adjust : f32) (sample_all_lights : Int) (c : ConnectLight T) (i : Int)
    (hall : sample_all_lights ≠ 0) (hlamp : i < kg.integrator.num_all_lights)
    (hmax : K.light_select_reached_max_bounces kg i state.bounce = true) :
    branched_connect_light_one kg jt K sd state throughput num_samples_adjust
        sample_all_lights c i = c
    ∧ branched_connect_light_one kg jt
        { K with light_select_reached_max_bounces := fun _ _ _ => false
                 light_select_num_samples := fun _ _ => 0 }
        sd state throughput num_samples_adjust sample_all_lights c i
      = branched_connect_light_one kg jt K sd state throughput num_samples_adjust
        sample_all_lights c i := by
  have h1 : branched_connect_light_one kg jt K sd state throughput num_samples_adjust
      sample_all_lights c i = c := by
    unfold branched_connect_light_one light_setup
    simp [hall, hlamp, hmax]
  refine ⟨h1, ?_⟩
  rw [h1]
  unfold branched_connect_light_one light_setup
  simp [hall, hlamp, ceil_to_int_zero_samples]

/-- C19 (witness): one lamp that has reached its bounce limit, in sample-all-lights mode:
the whole light connection makes no call and leaves `L` empty. -/
theorem exhausted_lamp_skipped_witness :
    branched_connect_light_one sobol_scene demo_jitter
        { demo_kernels 0 2 none true false with
          light_select_reached_max_bounces := fun _ _ _ => true }
        (demo_sd 3) (demo_state 1) ⟨1, 1, 1⟩ 1 1 ⟨[], demo_sd 0, 0, []⟩ 0
      = ⟨[], demo_sd 0, 0, []⟩ :=
  (exhausted_lamp_skipped sobol_scene demo_jitter
    { demo_kernels 0 2 none true false with
      light_select_reached_max_bounces := fun _ _ _ => true }
    (demo_sd 3) (demo_state 1) ⟨1, 1, 1⟩ 1 1 ⟨[], demo_sd 0, 0, []⟩ 0
    (by decide) (by decide) rfl).1

/-! ## Sample weight of a light -/

theorem connect_light_shadow_trace {T : KernelTypes} (kg : KernelGlobals)
    (K : SurfaceKernels T) (sd : ShaderData T) (state : PathState T) (throughput : float3)
    (shadow_fac : f32) (L : T.PathRadiance) (em : EmissionResult T) (ls_lamp : Int)
    (trace : List (Event T)) :
    ∃ rest, (connect_light_shadow kg K sd state throughput shadow_fac L em ls_lamp trace).trace
      = trace ++ rest := by
  unfold connect_light_shadow
  simp only
  split_ifs
  · exact ⟨_, List.append_assoc _ _ _⟩
  · exact ⟨_, List.append_assoc _ _ _⟩
  · exact ⟨_, rfl⟩

/-- C22: at a hit without `SD_BSDF` but with `SD_HAS_ONLY_VOLUME`: when
`path_state_volume_next` succeeds, `kernel_path_surface_bounce` returns `true`, leaves the
ray direction `D` and the throughput (and the radiance state) as they were, sets `ray.P`
to `ray_offset(sd.P, -sd.Ng)`, and the path state is the one left by
`path_state_volume_next` with `kernel_volume_stack_enter_exit` applied once to its volume
stack; when `path_state_volume_next` fails it returns `false`, the ray is as it was and
the path state, its volume stack included, is the one left by `path_state_volume_next`.
At a hit with `SD_BSDF` and a successful BSDF sample the volume stack after the call is
`kernel_volume_stack_enter_exit` of the stack left by `path_state_next` if the sampled
label has `LABEL_TRANSMIT`, and that stack itself otherwise. -/
theorem volume_bounce_frame {T : KernelTypes} (kg : KernelGlobals) (jt : Jitter)
    (K : SurfaceKernels T) (sd : ShaderData T) (throughput : float3) (state : PathState T)
    (L_state : T.PathRadianceState) (ray : Ray) (bs : BsdfSampleResult T)
    (hbs : bs = K.shader_bsdf_sample kg sd (path_state_rng_2D kg jt state T.PRNG_BSDF_U).1
      (path_state_rng_2D kg jt state T.PRNG_BSDF_U).2) :
    (sd.flag &&& T.SD_BSDF = 0 → sd.flag &&& T.SD_HAS_ONLY_VOLUME ≠ 0 →
      (K.path_state_volume_next kg state).1 = true →
        (kernel_path_surface_bounce kg jt K sd throughput state L_state ray).ok = true
        ∧ (kernel_path_surface_bounce kg jt K sd throughput state L_state ray).ray.D = ray.D
        ∧ (kernel_path_surface_bounce kg jt K sd throughput state L_state ray).throughput
            = throughput
        ∧ (kernel_path_surface_bounce kg jt K sd throughput state L_state ray).L_state
            = L_state
        ∧ (kernel_path_surface_bounce kg jt K sd throughput state L_state ray).ray.P
            = K.ray_offset sd.P sd.Ng.neg
        ∧ (kernel_path_surface_bounce kg jt K sd throughput state L_state ray).state
            = { (K.path_state_volume_next kg state).2 with
                volume_stack := K.kernel_volume_stack_enter_exit kg sd
                  (K.path_state_volume_next kg state).2.volume_stack })
    ∧ (sd.flag &&& T.SD_BSDF = 0 → sd.flag &&& T.SD_HAS_ONLY_VOLUME ≠ 0 →
      (K.path_state_volume_next kg state).1 = false →
        (kernel_path_surface_bounce kg jt K sd throughput state L_state ray).ok = false
        ∧ (kernel_path_surface_bounce kg jt K sd throughput state L_state ray).ray = ray
        ∧ (kernel_path_surface_bounce kg jt K sd throughput state L_state ray).throughput
            = throughput
        ∧ (kernel_path_surface_bounce kg jt K sd throughput state L_state ray).state
            = (K.path_state_volume_next kg state).2
        ∧ (kernel_path_surface_bounce kg jt K sd throughput state L_state
            ray).state.volume_stack = (K.path_state_volume_next kg state).2.volume_stack)
    ∧ (sd.flag &&& T.SD_BSDF ≠ 0 → bs.bsdf_pdf ≠ 0 →
      K.bsdf_eval_is_zero bs.bsdf_eval = false →
        (kernel_path_surface_bounce kg jt K sd throughput state L_state
            ray).state.volume_stack
          = (if bs.label &&& T.LABEL_TRANSMIT ≠ 0 then
              K.kernel_volume_stack_enter_exit kg sd
                (K.path_state_next kg (set_mis_state state bs.label bs.bsdf_pdf)
                  bs.label).volume_stack
            else (K.path_state_next kg (set_mis_state state bs.label bs.bsdf_pdf)
                  bs.label).volume_stack)) := by
  refine ⟨?_, ?_, ?_⟩
  · intro h1 h2 h3
    unfold kernel_path_surface_bounce
    rw [if_neg (by simpa using h1), if_pos h2]
    dsimp only
    rw [if_neg (by simp [h3])]
    refine ⟨rfl, ?_, rfl, rfl, rfl, rfl⟩
    split_ifs <;> rfl
  · intro h1 h2 h3
    unfold kernel_path_surface_bounce
    rw [if_neg (by simpa using h1), if_pos h2]
    dsimp only
    rw [if_pos (by simp [h3])]
    exact ⟨rfl, rfl, rfl, rfl, rfl⟩
  · intro h1 hpdf hz
    unfold kernel_path_surface_bounce
    simp only [← hbs, if_pos h1, hz, Bool.or_false, decide_eq_true_eq, if_neg hpdf]
    split_ifs <;> rfl

/-- C22 (witness): a volume-only hit whose `path_state_volume_next` succeeds (the volume
stack `0` becomes `1`, the direction stays `(0, 0, 1)`), and one whose
`path_state_volume_next` fails (ray and volume stack stay). -/
theorem volume_bounce_frame_witness :
    ((kernel_path_surface_bounce sobol_scene demo_jitter (demo_kernels 0 2 none false false)
        (demo_sd 4194304) ⟨1, 1, 1⟩ (demo_state 1) () demo_ray).ok = true
      ∧ (kernel_path_surface_bounce sobol_scene demo_jitter (demo_kernels 0 2 none false false)
        (demo_sd 4194304) ⟨1, 1, 1⟩ (demo_state 1) () demo_ray).ray.D = demo_ray.D)
    ∧ ((kernel_path_surface_bounce sobol_scene demo_jitter
        { demo_kernels 0 2 none false false with
          path_state_volume_next := fun _ state => (false, state) }
        (demo_sd 4194304) ⟨1, 1, 1⟩ (demo_state 1) () demo_ray).ok = false
      ∧ (kernel_path_surface_bounce sobol_scene demo_jitter
        { demo_kernels 0 2 none false false with
          path_state_volume_next := fun _ state => (false, state) }
        (demo_sd 4194304) ⟨1, 1, 1⟩ (demo_state 1) () demo_ray).ray = demo_ray) :=
  have h1 := (volume_bounce_frame sobol_scene demo_jitter (demo_kernels 0 2 none false false)
    (demo_sd 4194304) ⟨1, 1, 1⟩ (demo_state 1) () demo_ray _ rfl).1
    (by decide) (by decide) rfl
  have h2 := (volume_bounce_frame sobol_scene demo_jitter
    { demo_kernels 0 2 none false false with
      path_state_volume_next := fun _ state => (false, state) }
    (demo_sd 4194304) ⟨1, 1, 1⟩ (demo_state 1) () demo_ray _ rfl).2.1
    (by decide) (by decide) rfl
  ⟨⟨h1.1, h1.2.1⟩, ⟨h2.1, h2.2.1⟩⟩

/-! ## Number of Sobol dimensions -/

theorem to_int_to_uint_mul (a b : Int) (ha : 0 ≤ a) (hb : 0 ≤ b) (hab : a * b < 2147483648)
    (ha' : a < 4294967296) (hb' : b < 4294967296) :
    to_int ((to_uint a * to_uint b) % 4294967296) = a * b := by
  have hua : ((to_uint a : Nat) : Int) = a := by unfold to_uint; omega
  have hub : ((to_uint b : Nat) : Int) = b := by unfold to_uint; omega
  have hprod : ((to_uint a * to_uint b : Nat) : Int) = a * b := by
    push_cast
    rw [hua, hub]
  have hlt : to_uint a * to_uint b < 2147483648 := by
    have : ((to_uint a * to_uint b : Nat) : Int) < 2147483648 := by rw [hprod]; exact hab
    exact_mod_cast this
  unfold to_int
  have hm : (to_uint a * to_uint b) % 4294967296 = to_uint a * to_uint b :=
    Nat.mod_eq_of_lt (by omega)
  rw [hm, hm, if_pos hlt, hprod]

/-- C24: with the PMJ pattern `path_rng_1D` decodes the table word at index
`((dimension mod 48) * 4096 + sample) * 2 + (dimension mod 2)`.  For `0 ≤ sample < 4096`
and `dimension ≥ 0` this index lies in the block of `2 * 4096` entries of pattern
`dimension mod 48` and is below the table size `48 * 4096 * 2`, which is the number of
entries an update allocates for a pattern other than Sobol; the entry is the first word
of point `sample` of that pattern for even dimensions and the second word for odd
dimensions, as the update lays the generated sequences out. -/
theorem pmj_index_in_block (T : KernelTypes) (env : RenderEnv) (kg : KernelGlobals)
    (jt : Jitter) (rng_hash : Nat) (num_samples : Int) (node : Integrator)
    (light_samples : List Int) (dscene : DeviceScene) (sample dimension : Int)
    (hs0 : 0 ≤ sample) (hs : sample < 4096) (hd : 0 ≤ dimension) :
    (kg.integrator.sampling_pattern = SAMPLING_PATTERN_PMJ →
      path_rng_1D kg jt rng_hash sample num_samples dimension
        = fsub (fadd (fsub (uint_as_float (kg.sample_pattern_lut (pmj_index sample dimension))) 1)
              (fmul (path_rng_shift kg jt rng_hash dimension) kg.integrator.scrambling_distance))
            (floorf (fadd
              (fsub (uint_as_float (kg.sample_pattern_lut (pmj_index sample dimension))) 1)
              (fmul (path_rng_shift kg jt rng_hash dimension)
                kg.integrator.scrambling_distance))))
    ∧ pmj_index sample dimension = ((dimension % 48) * 4096 + sample) * 2 + dimension % 2
    ∧ (dimension % 48) * (2 * 4096) ≤ pmj_index sample dimension
    ∧ pmj_index sample dimension < (dimension % 48 + 1) * (2 * 4096)
    ∧ 0 ≤ pmj_index sample dimension
    ∧ pmj_index sample dimension < 48 * 4096 * 2
    ∧ (dimension % 2 = 0 → pmj_index sample dimension = 2 * ((dimension % 48) * 4096 + sample))
    ∧ (dimension % 2 = 1 →
        pmj_index sample dimension = 2 * ((dimension % 48) * 4096 + sample) + 1)
    ∧ (node.need_update = true → node.sampling_pattern ≠ SAMPLING_PATTERN_SOBOL →
        (Integrator.device_update T env jt node light_samples dscene).2.sample_pattern_lut_size
          = 48 * 4096 * 2
        ∧ (Integrator.device_update T env jt node light_samples dscene).2.sample_pattern_lut
            (pmj_index sample dimension)
          = (if dimension % 2 = 0 then
              (env.progressive_multi_jitter_02_generate_2D 4096 (dimension % 48) sample).1
            else (env.progressive_multi_jitter_02_generate_2D 4096 (dimension % 48) sample).2)) := by
  have hidx : pmj_index sample dimension
      = ((dimension % 48) * 4096 + sample) * 2 + dimension % 2 := by
    unfold pmj_index NUM_PJ_PATTERNS NUM_PJ_SAMPLES
    rw [Int.tmod_eq_emod hd (by decide)]
    norm_num
  have hm0 : 0 ≤ dimension % 48 := Int.emod_nonneg _ (by decide)
  have hm1 : dimension % 48 < 48 := Int.emod_lt_of_pos _ (by decide)
  have hb : dimension % 2 = 0 ∨ dimension % 2 = 1 := Int.emod_two_eq_zero_or_one _
  refine ⟨?_, hidx, ?_, ?_, ?_, ?_, ?_, ?_, ?_⟩
  · intro hp
    unfold path_rng_1D pmj_index
    simp only [if_pos hp, assign]
  · rw [hidx]; omega
  · rw [hidx]; omega
  · rw [hidx]; omega
  · rw [hidx]; omega
  · intro h; rw [hidx]; omega
  · intro h; rw [hidx]; omega
  · intro hu hp
    have hpoint : pmj_index sample dimension / 2 = (dimension % 48) * 4096 + sample := by
      rw [hidx]; omega
    have hj : ((dimension % 48) * 4096 + sample) / (64 * 64) = dimension % 48 := by omega
    have hpt : ((dimension % 48) * 4096 + sample) % (64 * 64) = sample := by omega
    have hpar : pmj_index sample dimension % 2 = dimension % 2 := by
      rw [hidx]; omega
    have h0 : 0 ≤ pmj_index sample dimension := by rw [hidx]; omega
    unfold Integrator.device_update
    simp only [hu, Bool.not_true, Bool.false_eq_true, if_false, if_neg hp]
    refine ⟨?_, ?_⟩
    · split_ifs <;> rfl
    · split_ifs <;>
        simp only [hpoint, hj, hpt, hpar, h0, hm1, and_self, if_true] <;>
        simp_all

/-- C24 (witness): sample 5 at dimension 49 reads entry `(1 * 4096 + 5) * 2 + 1 = 8203`,
the second word of point 5 of pattern 1. -/
theorem pmj_index_in_block_witness :
    pmj_index 5 49 = 8203
    ∧ ((49 : Int) % 48) * (2 * 4096) ≤ pmj_index 5 49
    ∧ pmj_index 5 49 < ((49 : Int) % 48 + 1) * (2 * 4096)
    ∧ pmj_index 5 49 < 48 * 4096 * 2 :=
  have h := pmj_index_in_block demo_types demo_env pmj_scene demo_jitter 0 1
    (demo_node 0 false) [] demo_dscene 5 49 (by decide) (by decide) (by decide)
  ⟨by decide, h.2.2.1, h.2.2.2.1, h.2.2.2.2.2.1⟩

/-! ## Iterations of the Sobol loop -/

/-- C26: for the Sobol and the PMJ pattern the value of `path_rng_1D` and both components
of `path_rng_2D` do not depend on `num_samples`: two calls that differ only in
`num_samples` return equal results.  Hence two branched draws (1D or 2D) with the same
stream word, offset and dimension agree as soon as their combined sample indices
`sample * num_branches + branch` agree, whatever the branch counts and the sample counts
of the two states are. -/
theorem rng_independent_of_num_samples (kg : KernelGlobals) (jt : Jitter) (rng_hash : Nat)
    (sample dimension : Int)
    (hp : kg.integrator.sampling_pattern = SAMPLING_PATTERN_SOBOL
      ∨ kg.integrator.sampling_pattern = SAMPLING_PATTERN_PMJ) :
    (∀ n1 n2 : Int, path_rng_1D kg jt rng_hash sample n1 dimension
        = path_rng_1D kg jt rng_hash sample n2 dimension)
    ∧ (∀ n1 n2 : Int, path_rng_2D kg jt rng_hash sample n1 dimension
        = path_rng_2D kg jt rng_hash sample n2 dimension)
    ∧ (∀ (T : KernelTypes) (s1 s2 : PathState T) (b1 nb1 b2 nb2 : Int),
        s1.rng_offset = s2.rng_offset →
        branched_sample s1.sample nb1 b1 = branched_sample s2.sample nb2 b2 →
        path_branched_rng_1D kg jt rng_hash s1 b1 nb1 dimension
          = path_branched_rng_1D kg jt rng_hash s2 b2 nb2 dimension
        ∧ path_branched_rng_2D kg jt rng_hash s1 b1 nb1 dimension
          = path_branched_rng_2D kg jt rng_hash s2 b2 nb2 dimension) := by
  have h1 : ∀ (s d n1 n2 : Int), path_rng_1D kg jt rng_hash s n1 d
      = path_rng_1D kg jt rng_hash s n2 d := by
    intro s d n1 n2
    rcases hp with hp | hp
    · unfold path_rng_1D
      simp [hp]
    · unfold path_rng_1D
      simp [hp]
  have h2 : ∀ (s d n1 n2 : Int), path_rng_2D kg jt rng_hash s n1 d
      = path_rng_2D kg jt rng_hash s n2 d := by
    intro s d n1 n2
    rcases hp with hp | hp
    · unfold path_rng_2D
      simp only [hp, if_neg (by decide : SAMPLING_PATTERN_SOBOL ≠ SAMPLING_PATTERN_PMJ),
        if_neg (by decide : SAMPLING_PATTERN_SOBOL ≠ SAMPLING_PATTERN_CMJ)]
      rw [h1 s d n1 n2, h1 s (d + 1) n1 n2]
    · unfold path_rng_2D
      simp only [hp, if_true]
      rw [h1 s d n1 n2, h1 s (d + 1) n1 n2]
  refine ⟨h1 sample dimension, h2 sample dimension, ?_⟩
  intro T s1 s2 b1 nb1 b2 nb2 ho hs
  unfold branched_sample at hs
  unfold path_branched_rng_1D path_branched_rng_2D
  rw [ho, hs]
  exact ⟨h1 _ _ _ _, h2 _ _ _ _⟩

/-- C26 (witness): on the Sobol scene, sample 1 of 2 with 3 branches at branch 1 and
sample 2 of 5 with 2 branches at branch 0 both have the combined index 4 and draw the
same numbers. -/
theorem rng_independent_of_num_samples_witness :
    sobol_scene.integrator.sampling_pattern = SAMPLING_PATTERN_SOBOL
    ∧ path_rng_1D sobol_scene demo_jitter 0 4 6 2 = path_rng_1D sobol_scene demo_jitter 0 4 10 2
    ∧ path_branched_rng_2D sobol_scene demo_jitter 0
        { demo_state 1 with sample := 1, num_samples := 2 } 1 3 2
      = path_branched_rng_2D sobol_scene demo_jitter 0
        { demo_state 1 with sample := 2, num_samples := 5 } 0 2 2 :=
  have h := rng_independent_of_num_samples sobol_scene demo_jitter 0 4 2 (Or.inl rfl)
  ⟨rfl, h.1 6 10,
    ((rng_independent_of_num_samples sobol_scene demo_jitter 0 4 2 (Or.inl rfl)).2.2 demo_types
      { demo_state 1 with sample := 1, num_samples := 2 }
      { demo_state 1 with sample := 2, num_samples := 5 } 1 3 0 2 rfl (by decide)).2⟩

/-! ## Parity classes of the other patterns -/

/-- C27: for every pattern other than PMJ and every sample index, `sample_is_even` is
true exactly when the lowest bit of the sample index is `1`, that is for the odd indices:
it is false at `0` and true at `1`; and of any `2 * n` consecutive sample indices exactly
`n` are in the class `true`. -/
theorem sample_is_even_other_patterns (pattern : SamplingPattern)
    (hp : pattern ≠ SAMPLING_PATTERN_PMJ) :
    (∀ s : Int, sample_is_even pattern s = (to_uint s).testBit 0)
    ∧ (∀ s : Int, sample_is_even pattern s = true ↔ s % 2 = 1)
    ∧ sample_is_even pattern 0 = false
    ∧ sample_is_even pattern 1 = true
    ∧ (∀ (a : Int) (n : Nat), count_sample_is_even pattern a (2 * n) = n) := by
  have hlow : ∀ s : Int, sample_is_even pattern s = decide (s % 2 = 1) :=
    sample_is_even_low_bit pattern hp
  refine ⟨?_, ?_, ?_, ?_, ?_⟩
  · intro s
    unfold sample_is_even
    rw [if_neg hp]
    have h := and_two_pow_ne_zero (to_uint s) 0
    norm_num only at h
    exact h
  · intro s
    rw [hlow s]
    simp
  · rw [hlow 0]
    decide
  · rw [hlow 1]
    decide
  · intro a n
    unfold count_sample_is_even
    have h := count_from_blocks (sample_is_even pattern) 2 1 (fun _ => True)
      (fun a _ => trivial) (fun a _ => count_low_bit_pair pattern hp a) n a trivial
    rw [Nat.mul_comm, h, Nat.mul_one]

/-- C27 (witness): with the Sobol pattern, three of the six sample indices from 5 on are
in the class `true`. -/
theorem sample_is_even_other_patterns_witness :
    SAMPLING_PATTERN_SOBOL ≠ SAMPLING_PATTERN_PMJ
    ∧ count_sample_is_even SAMPLING_PATTERN_SOBOL 5 (2 * 3) = 3 :=
  ⟨by decide,
    (sample_is_even_other_patterns SAMPLING_PATTERN_SOBOL (by decide)).2.2.2.2 5 3⟩

/-! ## Parity classes of the PMJ pattern -/

theorem countP_parity {α : Type} (p : α → Bool) (l : List α) :
    decide (l.countP p % 2 = 1) = l.foldr (fun b acc => xor (p b) acc) false := by
  induction l with
  | nil => simp
  | cons a l ih =>
    rw [List.foldr_cons, ← ih, List.countP_cons]
    cases h : p a
    · simp
    · simp only [if_true, Bool.true_xor]
      rcases Nat.mod_two_eq_zero_or_one (List.countP p l) with h0 | h1
      · have : (List.countP p l + 1) % 2 = 1 := by omega
        simp [h0, this]
      · have : (List.countP p l + 1) % 2 = 0 := by omega
        simp [h1, this]

theorem odd_mask_testBit : ∀ b : Nat, b < 32 →
    (0xAAAAAAAA : Nat).testBit b = decide (b % 2 = 1) := by
  decide

theorem popcount_odd_bits (u : Nat) :
    decide (popcount (u &&& 0xAAAAAAAA) % 2 = 1)
      = xor (u.testBit 1) (xor (u.testBit 3) (xor (u.testBit 5)
        (xor (u.testBit 7) (xor (u.testBit 9) (xor (u.testBit 11)
        (xor (u.testBit 13) (xor (u.testBit 15)
        (xor (u.testBit 17) (xor (u.testBit 19)
        (xor (u.testBit 21) (xor (u.testBit 23)
        (xor (u.testBit 25) (xor (u.testBit 27)
        (xor (u.testBit 29) (u.testBit 31))))))))))))))) := by
  unfold popcount
  rw [countP_parity]
  have hr : List.range 32 = [0, 1, 2, 3, 4, 5, 6, 7, 8, 9, 10, 11, 12, 13, 14, 15, 16, 17, 18,
      19, 20, 21, 22, 23, 24, 25, 26, 27, 28, 29, 30, 31] := by decide
  rw [hr]
  simp only [List.foldr_cons, List.foldr_nil, Nat.testBit_and]
  rw [odd_mask_testBit 0 (by norm_num), odd_mask_testBit 1 (by norm_num),
    odd_mask_testBit 2 (by norm_num), odd_mask_testBit 3 (by norm_num),
    odd_mask_testBit 4 (by norm_num), odd_mask_testBit 5 (by norm_num),
    odd_mask_testBit 6 (by norm_num), odd_mask_testBit 7 (by norm_num),
    odd_mask_testBit 8 (by norm_num), odd_mask_testBit 9 (by norm_num),
    odd_mask_testBit 10 (by norm_num), odd_mask_testBit 11 (by norm_num),
    odd_mask_testBit 12 (by norm_num), odd_mask_testBit 13 (by norm_num),
    odd_mask_testBit 14 (by norm_num), odd_mask_testBit 15 (by norm_num),
    odd_mask_testBit 16 (by norm_num), odd_mask_testBit 17 (by norm_num),
    odd_mask_testBit 18 (by norm_num), odd_mask_testBit 19 (by norm_num),
    odd_mask_testBit 20 (by norm_num), odd_mask_testBit 21 (by norm_num),
    odd_mask_testBit 22 (by norm_num), odd_mask_testBit 23 (by norm_num),
    odd_mask_testBit 24 (by norm_num), odd_mask_testBit 25 (by norm_num),
    odd_mask_testBit 26 (by norm_num), odd_mask_testBit 27 (by norm_num),
    odd_mask_testBit 28 (by norm_num), odd_mask_testBit 29 (by norm_num),
    odd_mask_testBit 30 (by norm_num), odd_mask_testBit 31 (by norm_num)]
  norm_num

theorem testBit_xor_two_pow (u b k : Nat) (h : b ≠ k) :
    (u ^^^ 2 ^ b).testBit k = u.testBit k := by
  rw [Nat.testBit_xor, Nat.testBit_two_pow]
  simp [h]

/-- C28: for the PMJ pattern `sample_is_even` is true exactly when the number of bits set
in `sample & 0xAAAAAAAA` (the odd-numbered bits of the 32-bit word of the sample index)
is odd.  Hence flipping an even-numbered bit of the word does not change the class, in
particular `sample` and `sample XOR 1` are in the same class; and of the `2^k` indices of
an aligned block `[m * 2^k, (m + 1) * 2^k)` with `k ≥ 2` exactly `2^(k-1)` are in the
class `true`. -/
theorem sample_is_even_pmj_popcount :
    (∀ s : Int, sample_is_even SAMPLING_PATTERN_PMJ s
        = decide (popcount (to_uint s &&& 0xAAAAAAAA) % 2 = 1))
    ∧ (∀ (s t : Int) (b : Nat), b % 2 = 0 → to_uint t = to_uint s ^^^ 2 ^ b →
        sample_is_even SAMPLING_PATTERN_PMJ t = sample_is_even SAMPLING_PATTERN_PMJ s)
    ∧ (∀ s t : Int, to_uint t = to_uint s ^^^ 1 →
        sample_is_even SAMPLING_PATTERN_PMJ t = sample_is_even SAMPLING_PATTERN_PMJ s)
    ∧ (∀ (k : Nat) (m : Int), 2 ≤ k →
        count_sample_is_even SAMPLING_PATTERN_PMJ (m * 2 ^ k) (2 ^ k) = 2 ^ (k - 1)) := by
  have hflip : ∀ (s t : Int) (b : Nat), b % 2 = 0 → to_uint t = to_uint s ^^^ 2 ^ b →
      sample_is_even SAMPLING_PATTERN_PMJ t = sample_is_even SAMPLING_PATTERN_PMJ s := by
    intro s t b hb ht
    rw [sample_is_even_pmj_bits, sample_is_even_pmj_bits, ht]
    have h : ∀ k : Nat, k % 2 = 1 → (to_uint s ^^^ 2 ^ b).testBit k = (to_uint s).testBit k :=
      fun k hk => testBit_xor_two_pow _ _ _ (by omega)
    rw [h 1 (by norm_num), h 3 (by norm_num), h 5 (by norm_num), h 7 (by norm_num),
      h 9 (by norm_num), h 11 (by norm_num), h 13 (by norm_num), h 15 (by norm_num),
      h 17 (by norm_num), h 19 (by norm_num), h 21 (by norm_num), h 23 (by norm_num),
      h 25 (by norm_num), h 27 (by norm_num), h 29 (by norm_num), h 31 (by norm_num)]
  refine ⟨?_, hflip, ?_, ?_⟩
  · intro s
    rw [popcount_odd_bits, sample_is_even_pmj_bits]
  · intro s t ht
    exact hflip s t 0 (by norm_num) (by simpa using ht)
  · intro k m hk
    obtain ⟨c, rfl⟩ : ∃ c, k = c + 2 := ⟨k - 2, by omega⟩
    unfold count_sample_is_even
    have ha : (m * 2 ^ (c + 2)) % 4 = 0 := by
      have : (2 : Int) ^ (c + 2) = 2 ^ c * 4 := by ring
      rw [this, ← mul_assoc]
      exact Int.mul_emod_left _ _
    have h := count_from_blocks (sample_is_even SAMPLING_PATTERN_PMJ) 4 2
      (fun a => a % 4 = 0) (fun a h => by
        show (a + ((4 : Nat) : Int)) % 4 = 0
        have : ((4 : Nat) : Int) = 4 := rfl
        omega)
      (fun a h => count_pmj_block a h) (2 ^ c) (m * 2 ^ (c + 2)) ha
    have e1 : 2 ^ (c + 2) = 2 ^ c * 4 := by ring
    have e2 : 2 ^ (c + 2 - 1) = 2 ^ c * 2 := by
      have : c + 2 - 1 = c + 1 := by omega
      rw [this]; ring
    rw [e2, ← h, e1]

/-- C28 (witness): the sixteen sample indices of the aligned block `[48, 64)` hold eight
of the class `true`. -/
theorem sample_is_even_pmj_popcount_witness :
    (2 : Nat) ≤ 4 ∧ count_sample_is_even SAMPLING_PATTERN_PMJ (3 * 2 ^ 4) (2 ^ 4) = 2 ^ (4 - 1) :=
  ⟨by decide, sample_is_even_pmj_popcount.2.2.2 4 3 (by decide)⟩

/-! ## Filter position of the first sample -/

/-- C29: `path_rng_init` returns the filter position `(0.5, 0.5)` for sample index `0`,
for every pixel, seed, sampling pattern and dither setting, and still returns the stream
word `rng_hash` it computed (the packed pixel coordinates with the top bit set when
dithering is on, the seeded pixel hash otherwise); for every sample index other than `0`
the position is `path_rng_2D` at dimension `PRNG_FILTER_U`, evaluated with that same
stream word, the sample index and `num_samples`. -/
theorem path_rng_init_filter (T : KernelTypes) (kg : KernelGlobals) (jt : Jitter)
    (sample num_samples x y : Int) :
    (path_rng_init T kg jt sample num_samples x y).1
        = (if kg.integrator.dither_size > 0 then
            ((((to_uint y &&& DITHER_COORD_MASK) <<< DITHER_Y_SHIFT) % 4294967296)
              ||| (to_uint x &&& DITHER_COORD_MASK)) ||| DITHER_MASK
          else jt.hash_uint2 (to_uint x) (to_uint y) ^^^ kg.integrator.seed)
    ∧ (path_rng_init T kg jt sample num_samples x y).1
        = (path_rng_init T kg jt 0 num_samples x y).1
    ∧ (path_rng_init T kg jt 0 num_samples x y).2 = ((1 / 2 : ℚ), (1 / 2 : ℚ))
    ∧ f32_round (1 / 2) = 1 / 2
    ∧ (sample ≠ 0 →
        (path_rng_init T kg jt sample num_samples x y).2
          = path_rng_2D kg jt (path_rng_init T kg jt sample num_samples x y).1
              sample num_samples T.PRNG_FILTER_U) := by
  refine ⟨?_, ?_, ?_, f32_round_half, ?_⟩
  · unfold path_rng_init
    split_ifs <;> rfl
  · unfold path_rng_init
    split_ifs <;> rfl
  · unfold path_rng_init
    simp
  · intro hs
    unfold path_rng_init
    simp only [hs, if_false]

/-- C29 (witness): sample 1 of pixel `(3, 5)` on the Sobol scene takes its filter position
from `path_rng_2D` with the stream word of that pixel. -/
theorem path_rng_init_filter_witness :
    (1 : Int) ≠ 0
    ∧ (path_rng_init demo_types sobol_scene demo_jitter 1 1 3 5).2
      = path_rng_2D sobol_scene demo_jitter
          (path_rng_init demo_types sobol_scene demo_jitter 1 1 3 5).1 1 1
          demo_types.PRNG_FILTER_U :=
  ⟨by decide,
    (path_rng_init_filter demo_types sobol_scene demo_jitter 1 1 3 5).2.2.2.2 (by decide)⟩

/-! ## Kernel fields written by the update -/

/-- C30: an update of the integrator (`need_update` set) writes the kernel field
`scrambling_distance` only when `use_auto_scramble` is true, and then with the configured
value as it is, also outside `[0, 1]`; when `use_auto_scramble` is false the field keeps
the value it held before the update.  In both cases `sampling_pattern` is written, and
`dither_size` is written: `0` when `use_dithered_sampling` is false, the width returned
by `sobol_dither_matrix_size` when it is true, so that (the width of the matrix being
non-zero) `dither_size = 0` exactly when `use_dithered_sampling` is false. -/
theorem device_update_scrambling_distance (T : KernelTypes) (env : RenderEnv) (jt : Jitter)
    (self : Integrator) (light_samples : List Int) (dscene : DeviceScene)
    (hu : self.need_update = true) :
    (self.use_auto_scramble = true →
      (self.device_update T env jt light_samples dscene).2.integrator.scrambling_distance
        = self.scrambling_distance)
    ∧ (self.use_auto_scramble = false →
      (self.device_update T env jt light_samples dscene).2.integrator.scrambling_distance
        = dscene.integrator.scrambling_distance)
    ∧ (self.device_update T env jt light_samples dscene).2.integrator.sampling_pattern
        = self.sampling_pattern
    ∧ (self.device_update T env jt light_samples dscene).2.integrator.dither_size
        = (if self.use_dithered_sampling then env.sobol_dither_matrix_size else 0)
    ∧ (env.sobol_dither_matrix_size ≠ 0 →
        ((self.device_update T env jt light_samples dscene).2.integrator.dither_size = 0
          ↔ self.use_dithered_sampling = false)) := by
  have hd : (self.device_update T env jt light_samples dscene).2.integrator.dither_size
      = (if self.use_dithered_sampling then env.sobol_dither_matrix_size else 0) := by
    unfold Integrator.device_update
    simp only [hu, Bool.not_true, Bool.false_eq_true, if_false]
    split_ifs <;> rfl
  refine ⟨?_, ?_, ?_, hd, ?_⟩
  · intro ha
    unfold Integrator.device_update
    simp only [hu, ha, Bool.not_true, Bool.false_eq_true, if_false, if_true]
    split_ifs <;> rfl
  · intro ha
    unfold Integrator.device_update Integrator.device_free
    simp only [hu, ha, Bool.not_true, Bool.false_eq_true, if_false]
    split_ifs <;> rfl
  · unfold Integrator.device_update
    simp only [hu, Bool.not_true, Bool.false_eq_true, if_false]
    split_ifs <;> rfl
  · intro hne
    rw [hd]
    cases h : self.use_dithered_sampling <;> simp [hne]

/-- C30 (witness): a node with `use_auto_scramble` and the scrambling distance `5` writes
`5`; the same node without `use_auto_scramble` leaves the `1` of the device scene. -/
theorem device_update_scrambling_distance_witness :
    (demo_node 0 false).need_update = true
    ∧ (Integrator.device_update demo_types demo_env demo_jitter
        { demo_node 0 false with scrambling_distance := 5 } []
        demo_dscene).2.integrator.scrambling_distance = 5
    ∧ (Integrator.device_update demo_types demo_env demo_jitter
        { demo_node 0 false with scrambling_distance := 5, use_auto_scramble := false } []
        demo_dscene).2.integrator.scrambling_distance
      = demo_dscene.integrator.scrambling_distance :=
  ⟨rfl,
    (device_update_scrambling_distance demo_types demo_env demo_jitter
      { demo_node 0 false with scrambling_distance := 5 } [] demo_dscene rfl).1 rfl,
    (device_update_scrambling_distance demo_types demo_env demo_jitter
      { demo_node 0 false with scrambling_distance := 5, use_auto_scramble := false } []
      demo_dscene rfl).2.1 rfl⟩

end Cycles
